import Mathlib

/-!
# School management system: fee ledger, gate-pass verifier, exam results, schedules

A shallow embedding of `server/models/Fee.js`, `server/models/Gatepass.js`,
`server/models/Exam.js`, `server/models/Schedule.js`, `server/utils/helpers.js`,
`server/middleware/auth.js`, `server/routes/fees.js`, `server/routes/gatepass.js`, the result
routes of `server/routes/exams.js` and schedule creation of `server/routes/schedules.js`.

Modelling conventions.
* A collection is the list of its documents in insertion order; `findOne` returns
  the first match, `save` on a loaded document rewrites the document with the same id,
  `create` appends.
* Money amounts (JavaScript numbers) are integers.
* A `Date` is its epoch time in milliseconds.  The values a route handler body reads
  from the clock are one `Clock` sample; the schema defaults and the `pre('save')`
  hook of the gate-pass model run later, inside `Gatepass.create`, and read the
  clock again, so they get samples of their own.
* Values produced by external generators (object ids, `Math.random`, `uuidv4`) are
  inputs of the request.
* `save()` and `create()` validate the document against its schema before the
  `pre('save')` hook of the model runs.  The embedding carries the validators that a
  request can trip: the required paths of a new fee or gate-pass document, the enum of
  the gate-pass `paymentStatus`, the payment and waiver sub-documents of a fee, and the
  minimum of a result's `score`.  A failed validation throws, and the `catch` block of
  the route answers 500 without writing.  Unique indexes belong to the database and
  are not part of the embedding.
-/

namespace SchoolManagement

/-! ## Basic types -/

/-- Identifier of a stored document. -/
abbrev ObjectId := Nat

/-- Epoch time in milliseconds, the value of a `Date`. -/
abbrev Millis := Int

/-- The `role` enum of `models/User.js`. -/
inductive Role where
  | student | teacher | admin | finance | gatepass
  deriving DecidableEq, Repr

/-- The fields of a user document that the routes read; `assignedCourses` is the list of
courses of a teacher. -/
structure User where
  id : ObjectId
  role : Role
  admissionNumber : String
  firstName : String
  middleName : Option String
  lastName : String
  assignedCourses : List ObjectId := []
  deriving DecidableEq, Repr

/-- The `fullName` virtual of `models/User.js`. -/
def User.fullName (u : User) : String :=
  (u.firstName ++ " " ++ u.middleName.getD "" ++ " " ++ u.lastName).trim

/-- One sample of the clock: `Date.now()` together with what `getFullYear`, `getMonth`,
`getDate`, `getDay` and `getHours` return for it in local time. -/
structure Clock where
  now : Millis
  year : Nat
  month : Fin 12
  date : Nat
  day : Fin 7
  hour : Fin 24
  deriving DecidableEq, Repr

/-- What a request brings besides its body: the authenticated user, the clock sample of
the handler body, the samples taken by the schema defaults (`created`) and by the
`pre('save')` hook (`hook`) when a document is created, the outputs of the external
generators, and the renderings of the locale library: `localeTime` is what
`new Date().toLocaleTimeString('en-US', …)` returns in the handler and `localeDate d`
what `new Date(d).toLocaleDateString('en-US', …)` returns. -/
structure Env where
  user : User
  clock : Clock
  created : Millis
  hook : Clock
  newId : ObjectId
  random : Nat
  uuid : String
  localeTime : String
  localeDate : Millis → String

/-- The `authorize(...roles)` middleware: the request proceeds iff the user's role is listed. -/
def authorize (roles : List Role) (u : User) : Bool :=
  roles.contains u.role

/-! ## helpers.js -/

/-- JavaScript `String.prototype.padStart` with a one-character filler. -/
def padStart (s : String) (n : Nat) (c : Char) : String :=
  String.mk (List.replicate (n - s.length) c) ++ s

/-- `generateReceiptNumber`: `RCP-YYYYMMDD-NNNN`, the suffix being
`Math.floor(Math.random() * 10000)`. -/
def generateReceiptNumber (c : Clock) (random : Nat) : String :=
  "RCP-" ++ toString c.year ++ padStart (toString (c.month.val + 1)) 2 '0'
    ++ padStart (toString c.date) 2 '0' ++ "-" ++ padStart (toString random) 4 '0'

/-- `getCurrentAcademicYear`: both branches return the calendar year as a string. -/
def getCurrentAcademicYear (c : Clock) : String :=
  let month := c.month.val + 1
  if 1 ≤ month ∧ month ≤ 12 then toString c.year else toString c.year

/-- `getCurrentTerm`: the term from the one-based month. -/
def getCurrentTerm (c : Clock) : String :=
  let month := c.month.val + 1
  if 1 ≤ month ∧ month ≤ 4 then "Term 1"
  else if 5 ≤ month ∧ month ≤ 8 then "Term 2"
  else if 9 ≤ month ∧ month ≤ 12 then "Term 3"
  else "Term 1"

/-- The result object of `isWithinOperatingHours`. -/
structure OperatingStatus where
  isOpen : Bool
  message : String
  deriving DecidableEq, Repr

/-- `isWithinOperatingHours`: closed on day 0 (Sunday) and day 6 (Saturday), open from
hour 6 up to but excluding hour 17. -/
def isWithinOperatingHours (c : Clock) : OperatingStatus :=
  if c.day.val = 0 ∨ c.day.val = 6 then
    { isOpen := false, message := "Closed on weekends" }
  else if 6 ≤ c.hour.val ∧ c.hour.val < 17 then
    { isOpen := true, message := "Open" }
  else
    { isOpen := false, message := "Closed - Operating hours: 6:00 AM - 5:00 PM" }

/-! ## models/Fee.js -/

/-- The `paymentStatus` enum of the fee schema; `partly` is the value `'partial'`. -/
inductive PaymentStatus where
  | unpaid | partly | paid | overpaid
  deriving DecidableEq, Repr

/-- The string stored for a payment status. -/
def PaymentStatus.toString : PaymentStatus → String
  | .unpaid => "unpaid"
  | .partly => "partial"
  | .paid => "paid"
  | .overpaid => "overpaid"

/-- The named components of `feeStructure`, in schema order. -/
structure FeeStructure where
  tuition : Int
  registration : Int
  library : Int
  laboratory : Int
  examination : Int
  medical : Int
  activity : Int
  other : Int
  deriving DecidableEq, Repr

/-- `Object.values(feeStructure)`. -/
def FeeStructure.values (f : FeeStructure) : List Int :=
  [f.tuition, f.registration, f.library, f.laboratory, f.examination, f.medical,
    f.activity, f.other]

/-- A `feeStructure` as a request supplies it: any component may be absent. -/
structure FeeStructureInput where
  tuition : Option Int
  registration : Option Int
  library : Option Int
  laboratory : Option Int
  examination : Option Int
  medical : Option Int
  activity : Option Int
  other : Option Int
  deriving DecidableEq, Repr

/-- The schema defaults of `feeStructure`: every absent component is 0. -/
def FeeStructure.ofInput : Option FeeStructureInput → FeeStructure
  | none => ⟨0, 0, 0, 0, 0, 0, 0, 0⟩
  | some i =>
    ⟨i.tuition.getD 0, i.registration.getD 0, i.library.getD 0, i.laboratory.getD 0,
      i.examination.getD 0, i.medical.getD 0, i.activity.getD 0, i.other.getD 0⟩

/-- An element of `payments`. -/
structure Payment where
  amount : Int
  paymentMethod : String
  referenceNumber : String
  paymentDate : Millis
  receivedBy : ObjectId
  receiptNumber : String
  notes : Option String
  deriving DecidableEq, Repr

/-- An element of `waivers`. -/
structure Waiver where
  amount : Int
  reason : String
  approvedBy : ObjectId
  approvedDate : Millis
  deriving DecidableEq, Repr

/-- The `gatepassStatus` sub-record. -/
structure GatepassStatus where
  allowed : Bool
  allowedUntil : Option Millis
  reason : Option String
  updatedBy : Option ObjectId
  lastUpdated : Option Millis
  deriving DecidableEq, Repr

/-- A fee document. -/
structure FeeRecord where
  id : ObjectId
  student : ObjectId
  academicYear : String
  term : String
  course : Option ObjectId
  level : Option ObjectId
  feeStructure : FeeStructure
  totalAmount : Int
  payments : List Payment
  totalPaid : Int
  balance : Int
  paymentStatus : PaymentStatus
  dueDate : Millis
  gatepassStatus : GatepassStatus
  waivers : List Waiver
  deriving DecidableEq, Repr

/-- The status assignment at the end of `feeSchema.pre('save')`. -/
def derivePaymentStatus (balance totalPaid : Int) : PaymentStatus :=
  if balance ≤ 0 then
    if balance < 0 then .overpaid else .paid
  else if totalPaid > 0 then .partly
  else .unpaid

/-- `feeSchema.pre('save')`: recompute `totalAmount` from the fee structure, `totalPaid`
from the payments, then `balance` and `paymentStatus`. -/
def FeeRecord.preSave (r : FeeRecord) : FeeRecord :=
  let totalAmount := r.feeStructure.values.foldl (fun sum value => sum + value) 0
  let totalPaid := r.payments.foldl (fun sum payment => sum + payment.amount) 0
  let balance := totalAmount - totalPaid
  { r with
    totalAmount := totalAmount
    totalPaid := totalPaid
    balance := balance
    paymentStatus := derivePaymentStatus balance totalPaid }

/-- The fee collection. -/
abbrev FeeStore := List FeeRecord

/-- `Fee.findById`. -/
def FeeStore.findById (s : FeeStore) (id : ObjectId) : Option FeeRecord :=
  s.find? (fun r => r.id == id)

/-- `Fee.findOne({ student, academicYear, term })`. -/
def FeeStore.findOne (s : FeeStore) (student : ObjectId) (academicYear term : String) :
    Option FeeRecord :=
  s.find? (fun r => r.student == student && r.academicYear == academicYear && r.term == term)

/-- `fee.save()` on a loaded document: the hook runs, then the stored document with the
same id is replaced. -/
def FeeStore.save (s : FeeStore) (doc : FeeRecord) : FeeStore :=
  s.map (fun r => if r.id = doc.id then doc.preSave else r)

/-- The `enum` of `payments.paymentMethod`. -/
def paymentMethodEnum : List String :=
  ["cash", "bank", "mpesa", "cheque", "card"]

/-- Validation of an element of `payments`: `paymentMethod` is of the enum, and
`referenceNumber` and `receiptNumber` are required (the empty string does not satisfy
`required`). -/
def Payment.validate (p : Payment) : Bool :=
  decide (p.paymentMethod ∈ paymentMethodEnum) && p.referenceNumber != ""
    && p.receiptNumber != ""

/-- Validation of an element of `waivers`: `reason` is required. -/
def Waiver.validate (w : Waiver) : Bool :=
  w.reason != ""

/-- Validation of a fee document on `save()`, before the hook: the required `course` and
`level`, and every payment and waiver. -/
def FeeRecord.validate (r : FeeRecord) : Bool :=
  r.course.isSome && r.level.isSome && r.payments.all Payment.validate
    && r.waivers.all Waiver.validate

/-- The object handed to `Fee.create`.  `totalAmount` is a required path of the schema;
a caller that does not supply it leaves it `none`. -/
structure FeeData where
  student : ObjectId
  academicYear : String
  term : String
  course : Option ObjectId
  level : Option ObjectId
  feeStructure : FeeStructure
  totalAmount : Option Int := none
  dueDate : Millis
  deriving DecidableEq, Repr

/-- `Fee.create`: the new document gets the schema defaults and is validated (`course`,
`level` and `totalAmount` are required); only then does the hook run, and the document is
inserted. -/
def FeeStore.create (s : FeeStore) (id : ObjectId) (data : FeeData) :
    Except String (FeeStore × FeeRecord) :=
  if data.course.isNone ∨ data.level.isNone ∨ data.totalAmount.isNone then
    .error "Fee validation failed"
  else
    let doc : FeeRecord :=
      { id := id
        student := data.student
        academicYear := data.academicYear
        term := data.term
        course := data.course
        level := data.level
        feeStructure := data.feeStructure
        totalAmount := data.totalAmount.getD 0
        payments := []
        totalPaid := 0
        balance := 0
        paymentStatus := .unpaid
        dueDate := data.dueDate
        gatepassStatus := { allowed := false, allowedUntil := none, reason := none,
                            updatedBy := none, lastUpdated := none }
        waivers := [] }
    .ok (s ++ [doc.preSave], doc.preSave)

/-! ## routes/fees.js -/

/-- The string stored for a role. -/
def Role.toString : Role → String
  | .student => "student"
  | .teacher => "teacher"
  | .admin => "admin"
  | .finance => "finance"
  | .gatepass => "gatepass"

/-- The JSON answer of a fee route: HTTP status, `success`, `message`, and the
`receiptNumber` and `data` members when present. -/
structure FeeResponse where
  status : Nat
  success : Bool
  message : String
  receiptNumber : Option String
  data : Option FeeRecord
  deriving DecidableEq, Repr

/-- The 403 answer of `authorize`. -/
def forbidden (u : User) : FeeResponse :=
  { status := 403, success := false,
    message := "User role \x27" ++ u.role.toString ++ "\x27 is not authorized to access this route",
    receiptNumber := none, data := none }

/-- The fields of a course document that fee creation reads. -/
structure CourseFees where
  perTerm : Int
  deriving DecidableEq, Repr

/-- A course document. -/
structure Course where
  id : ObjectId
  fees : Option CourseFees
  deriving DecidableEq, Repr

/-- Body of `POST /api/fees`. -/
structure CreateFeeBody where
  student : ObjectId
  academicYear : Option String
  term : Option String
  course : Option ObjectId
  level : Option ObjectId
  feeStructure : Option FeeStructureInput
  deriving DecidableEq, Repr

/-- JavaScript `x || d` on numbers: `d` when `x` is 0. -/
def orElse (x d : Int) : Int :=
  if x = 0 then d else x

/-- The `finalFeeStructure` of `POST /api/fees`: the supplied structure, or, when none is
supplied and the course is found with fees, the per-term fee plus the fixed charges. -/
def finalFeeStructure (courses : List Course) (body : CreateFeeBody) : Option FeeStructureInput :=
  match body.feeStructure, body.course with
  | none, some course =>
    match courses.find? (fun c => c.id == course) with
    | some courseData =>
      match courseData.fees with
      | some fees =>
        some { tuition := some (orElse fees.perTerm 0), registration := some 2000,
               library := some 1500, laboratory := some 3000, examination := some 2500,
               medical := some 1000, activity := some 500, other := some 0 }
      | none => none
    | none => none
  | feeStructure, _ => feeStructure

/-- The `feeData` object of `POST /api/fees`: the request's fields and the due date 30
days ahead.  It has no `totalAmount`. -/
def feeData (env : Env) (courses : List Course) (body : CreateFeeBody)
    (academicYear term : String) : FeeData :=
  { student := body.student
    academicYear := academicYear
    term := term
    course := body.course
    level := body.level
    feeStructure := FeeStructure.ofInput (finalFeeStructure courses body)
    dueDate := env.clock.now + 30 * 24 * 60 * 60 * 1000 }

/-- CreateRecord, `POST /api/fees`. -/
def createRecord (env : Env) (courses : List Course) (s : FeeStore) (body : CreateFeeBody) :
    FeeStore × FeeResponse :=
  if !authorize [.finance, .admin] env.user then (s, forbidden env.user)
  else
    let academicYear := body.academicYear.getD (getCurrentAcademicYear env.clock)
    let term := body.term.getD (getCurrentTerm env.clock)
    match s.findOne body.student academicYear term with
    | some _ =>
      (s, { status := 400, success := false,
            message := "Fee record already exists for this student and term",
            receiptNumber := none, data := none })
    | none =>
      match s.create env.newId (feeData env courses body academicYear term) with
      | .error _ =>
        (s, { status := 500, success := false, message := "Error creating fee record",
              receiptNumber := none, data := none })
      | .ok (s, fee) =>
        (s, { status := 201, success := true,
              message := "Fee record created successfully",
              receiptNumber := none, data := some fee })

/-- Body of `POST /api/fees/:id/payment`. -/
structure PaymentBody where
  amount : Int
  paymentMethod : String
  referenceNumber : String
  notes : Option String
  deriving DecidableEq, Repr

/-- RecordPayment, `POST /api/fees/:id/payment`: the payment is pushed and the document is
saved; a document that fails validation is not written and the answer is 500. -/
def recordPayment (env : Env) (s : FeeStore) (id : ObjectId) (body : PaymentBody) :
    FeeStore × FeeResponse :=
  if !authorize [.finance, .admin] env.user then (s, forbidden env.user)
  else
    match s.findById id with
    | none =>
      (s, { status := 404, success := false, message := "Fee record not found",
            receiptNumber := none, data := none })
    | some fee =>
      let receiptNumber := generateReceiptNumber env.clock env.random
      let fee := { fee with
        payments := fee.payments ++
          [({ amount := body.amount, paymentMethod := body.paymentMethod,
              referenceNumber := body.referenceNumber, receiptNumber := receiptNumber,
              receivedBy := env.user.id, paymentDate := env.clock.now,
              notes := body.notes } : Payment)] }
      if !fee.validate then
        (s, { status := 500, success := false, message := "Error recording payment",
              receiptNumber := none, data := none })
      else
        (s.save fee, { status := 200, success := true,
                       message := "Payment recorded successfully",
                       receiptNumber := some receiptNumber, data := some fee.preSave })

/-- Body of `POST /api/fees/:id/waiver`. -/
structure WaiverBody where
  amount : Int
  reason : String
  deriving DecidableEq, Repr

/-- ApplyWaiver, `POST /api/fees/:id/waiver`: the waiver is pushed, `totalAmount` is
lowered by the amount, and the document is saved (which runs the hook). -/
def applyWaiver (env : Env) (s : FeeStore) (id : ObjectId) (body : WaiverBody) :
    FeeStore × FeeResponse :=
  if !authorize [.admin] env.user then (s, forbidden env.user)
  else
    match s.findById id with
    | none =>
      (s, { status := 404, success := false, message := "Fee record not found",
            receiptNumber := none, data := none })
    | some fee =>
      let fee := { fee with
        waivers := fee.waivers ++
          [({ amount := body.amount, reason := body.reason, approvedBy := env.user.id,
              approvedDate := env.clock.now } : Waiver)] }
      let fee := { fee with totalAmount := fee.totalAmount - body.amount }
      if !fee.validate then
        (s, { status := 500, success := false, message := "Error applying fee waiver",
              receiptNumber := none, data := none })
      else
        (s.save fee, { status := 200, success := true,
                       message := "Fee waiver applied successfully",
                       receiptNumber := none, data := some fee.preSave })

/-- Body of `PUT /api/fees/:id/gatepass`. -/
structure GatepassOverrideBody where
  allowed : Bool
  allowedUntil : Option Millis
  reason : Option String
  deriving DecidableEq, Repr

/-- SetGatepassOverride, `PUT /api/fees/:id/gatepass`.  The paths the request writes
(`gatepassStatus`) carry no validator. -/
def setGatepassOverride (env : Env) (s : FeeStore) (id : ObjectId)
    (body : GatepassOverrideBody) : FeeStore × FeeResponse :=
  if !authorize [.finance, .admin] env.user then (s, forbidden env.user)
  else
    match s.findById id with
    | none =>
      (s, { status := 404, success := false, message := "Fee record not found",
            receiptNumber := none, data := none })
    | some fee =>
      let fee := { fee with
        gatepassStatus :=
          { allowed := body.allowed
            allowedUntil := if body.allowed && body.allowedUntil.isSome then body.allowedUntil
                            else none
            reason := body.reason
            updatedBy := some env.user.id
            lastUpdated := some env.clock.now } }
      (s.save fee, { status := 200, success := true,
                     message := "Gatepass " ++ (if body.allowed then "allowed" else "denied")
                       ++ " successfully",
                     receiptNumber := none, data := some fee.preSave })

/-- The store after a sequence of CreateRecord requests. -/
def runCreates (s : FeeStore) (reqs : List (Env × List Course × CreateFeeBody)) : FeeStore :=
  reqs.foldl (fun s req => (createRecord req.1 req.2.1 s req.2.2).1) s

/-- The key under which at most one fee record is meant to exist. -/
def FeeRecord.key (r : FeeRecord) : ObjectId × String × String :=
  (r.student, r.academicYear, r.term)

/-! ## models/Gatepass.js -/

/-- The `verificationStatus` enum. -/
inductive VerificationStatus where
  | verified | denied | expired | used
  deriving DecidableEq, Repr

/-- The `feeDetails` snapshot. -/
structure FeeDetails where
  totalAmount : Int
  paidAmount : Int
  balance : Int
  allowedUntil : Option Millis
  deriving DecidableEq, Repr

/-- What a caller passes to `Gatepass.create`.  `verificationDay` and `expiryTime` are
required paths of the schema; a caller that does not supply them leaves them `none`. -/
structure GatepassData where
  student : ObjectId
  admissionNumber : String
  verificationCode : String
  receiptNumber : String
  verifiedBy : ObjectId
  verificationStatus : VerificationStatus
  paymentStatus : PaymentStatus
  feeDetails : FeeDetails
  message : String
  verificationDay : Option String := none
  expiryTime : Option Millis := none
  deriving DecidableEq, Repr

/-- A stored gate-pass document. -/
structure Gatepass where
  id : ObjectId
  student : ObjectId
  admissionNumber : String
  verificationCode : String
  receiptNumber : String
  verifiedBy : ObjectId
  verificationTime : Millis
  verificationDay : String
  verificationStatus : VerificationStatus
  paymentStatus : PaymentStatus
  feeDetails : FeeDetails
  message : String
  expiryTime : Millis
  issuedAt : Millis
  usedAt : Option Millis
  deriving DecidableEq, Repr

/-- The `days` array of the hook, indexed by `getDay()`. -/
def dayNames : List String :=
  ["Sunday", "Monday", "Tuesday", "Wednesday", "Thursday", "Friday", "Saturday"]

/-- The `enum` of the `verificationDay` path of the gate-pass schema. -/
def verificationDayEnum : List String :=
  ["Monday", "Tuesday", "Wednesday", "Thursday", "Friday"]

/-- The `enum` of the `paymentStatus` path of the gate-pass schema. -/
def gatepassPaymentStatusEnum : List String :=
  ["paid", "partial", "unpaid"]

/-- Validation of a new gate-pass document, before the hook: `verificationDay` is required
and of its enum, `expiryTime` is required, `paymentStatus` is of its enum. -/
def GatepassData.validate (data : GatepassData) : Bool :=
  (match data.verificationDay with
    | some day => decide (day ∈ verificationDayEnum)
    | none => false)
  && data.expiryTime.isSome
  && decide (data.paymentStatus.toString ∈ gatepassPaymentStatusEnum)

/-- `new Gatepass(data)`, its validation, and `gatepassSchema.pre('save')` for a new
document, as `Gatepass.create` runs them.  The defaults `verificationTime` and `issuedAt`
are `Date.now` when the document is built.  Validation comes first and throws for a
document without `verificationDay` or `expiryTime`.  The hook then sets `expiryTime` two
hours after its own `Date.now()`, rejects Saturdays and Sundays, sets `verificationDay`,
and rejects hours outside 6 to 16. -/
def Gatepass.build (env : Env) (data : GatepassData) : Except String Gatepass :=
  if !data.validate then .error "Gatepass validation failed"
  else
    let expiryTime := env.hook.now + 2 * 60 * 60 * 1000
    let dayName := dayNames.getD env.hook.day.val ""
    if dayName = "Sunday" ∨ dayName = "Saturday" then
      .error "Gatepass can only be issued Monday through Friday"
    else
      let hours := env.hook.hour.val
      if hours < 6 ∨ hours ≥ 17 then
        .error "Gatepass can only be issued between 6:00 AM and 5:00 PM"
      else
        .ok { id := env.newId
              student := data.student
              admissionNumber := data.admissionNumber
              verificationCode := data.verificationCode
              receiptNumber := data.receiptNumber
              verifiedBy := data.verifiedBy
              verificationTime := env.created
              verificationDay := dayName
              verificationStatus := data.verificationStatus
              paymentStatus := data.paymentStatus
              feeDetails := data.feeDetails
              message := data.message
              expiryTime := expiryTime
              issuedAt := env.created
              usedAt := none }

/-- The gate-pass collection. -/
abbrev GatepassStore := List Gatepass

/-- `Gatepass.findOne({ student, verificationTime: { $gte: now - 2h }, verificationStatus:
'verified' })`. -/
def GatepassStore.findRecent (g : GatepassStore) (student : ObjectId) (now : Millis) :
    Option Gatepass :=
  g.find? (fun p => p.student == student
    && decide (p.verificationTime ≥ now - 2 * 60 * 60 * 1000)
    && p.verificationStatus == .verified)

/-! ## routes/gatepass.js -/

/-- The `receipt` member of a gate-pass answer. -/
structure Receipt where
  number : String
  code : String
  validUntil : Millis
  deriving DecidableEq, Repr

/-- The JSON answer of a gate-pass route: HTTP status, `success`, `message`, the gate-pass
document it carries (the created one, or the recent one of the duplicate answer) and the
receipt payload (`data.receipt` of Verify, `data` of SelfServiceReceipt). -/
structure GateResponse where
  status : Nat
  success : Bool
  message : String
  gatepass : Option Gatepass
  receipt : Option Receipt
  deriving DecidableEq, Repr

/-- An answer without payload. -/
def GateResponse.plain (status : Nat) (message : String) : GateResponse :=
  { status := status, success := false, message := message, gatepass := none, receipt := none }

/-- The 403 answer of `authorize` on a gate-pass route. -/
def gateForbidden (u : User) : GateResponse :=
  GateResponse.plain 403 (forbidden u).message

/-- JavaScript `toUpperCase` on the characters of an admission number or code. -/
def toUpperCase (s : String) : String :=
  String.mk (s.data.map Char.toUpper)

/-- `User.findOne({ admissionNumber: admissionNumber.toUpperCase(), role: 'student' })`. -/
def findStudent (users : List User) (admissionNumber : String) : Option User :=
  users.find? (fun u => u.admissionNumber == toUpperCase admissionNumber && u.role == .student)

/-- The term of the fee lookup in the gate-pass routes,
`Term ${Math.floor((new Date().getMonth() / 4) + 1)}`, `getMonth()` being zero-based. -/
def gatepassTerm (c : Clock) : String :=
  "Term " ++ toString (c.month.val / 4 + 1)

/-- The fee lookup of the gate-pass routes: the calendar year as a string and the term of
`gatepassTerm`. -/
def currentFee (fees : FeeStore) (student : ObjectId) (c : Clock) : Option FeeRecord :=
  fees.findOne student (toString c.year) (gatepassTerm c)

/-- The result of the permission check of Verify. -/
structure Decision where
  verificationStatus : VerificationStatus
  message : String
  allowedUntil : Option Millis
  deriving DecidableEq, Repr

/-- The permission check of `POST /api/gatepass/verify` (the `if` chain on the fee record). -/
def verifyDecision (env : Env) (student : User) (fee : FeeRecord) : Decision :=
  if fee.paymentStatus = .paid then
    { verificationStatus := .verified
      message := student.fullName ++ " has been verified at " ++ env.localeTime
      allowedUntil := none }
  else if fee.gatepassStatus.allowed then
    let allowedUntil := fee.gatepassStatus.allowedUntil
    match allowedUntil with
    | some limit =>
      if limit < env.clock.now then
        { verificationStatus := .denied, message := "Gatepass permission has expired",
          allowedUntil := allowedUntil }
      else
        { verificationStatus := .verified
          message := student.fullName ++ " has been verified, allowed until "
            ++ env.localeDate limit
          allowedUntil := allowedUntil }
    | none =>
      { verificationStatus := .verified
        message := student.fullName ++ " has been verified, allowed until " ++ "end of term"
        allowedUntil := allowedUntil }
  else
    { verificationStatus := .denied
      message := student.fullName ++ " - Verification denied: Unpaid fees (Balance: KES "
        ++ toString fee.balance ++ ")"
      allowedUntil := none }

/-- The `gatepassData` object of Verify.  It has no `verificationDay` and no
`expiryTime`. -/
def verifyData (env : Env) (student : User) (fee : FeeRecord) : GatepassData :=
  let d := verifyDecision env student fee
  { student := student.id
    admissionNumber := student.admissionNumber
    verificationCode := toUpperCase (env.uuid.take 8)
    receiptNumber := generateReceiptNumber env.clock env.random
    verifiedBy := env.user.id
    verificationStatus := d.verificationStatus
    paymentStatus := fee.paymentStatus
    feeDetails := { totalAmount := fee.totalAmount, paidAmount := fee.totalPaid,
                    balance := fee.balance, allowedUntil := d.allowedUntil }
    message := d.message }

/-- Verify, `POST /api/gatepass/verify`.  An exception of `Gatepass.create` is caught and
answered with 500. -/
def verify (env : Env) (users : List User) (fees : FeeStore) (g : GatepassStore)
    (admissionNumber : String) : GatepassStore × GateResponse :=
  if !authorize [.gatepass, .admin] env.user then (g, gateForbidden env.user)
  else
    let operatingStatus := isWithinOperatingHours env.clock
    if !operatingStatus.isOpen then (g, GateResponse.plain 400 operatingStatus.message)
    else
      match findStudent users admissionNumber with
      | none => (g, GateResponse.plain 404 "Student not found with this admission number")
      | some student =>
        match g.findRecent student.id env.clock.now with
        | some recentGatepass =>
          (g, { status := 400, success := false,
                message := "A gatepass was already issued within the last 2 hours",
                gatepass := some recentGatepass, receipt := none })
        | none =>
          match currentFee fees student.id env.clock with
          | none => (g, GateResponse.plain 400 "No fee record found for current term")
          | some fee =>
            let gatepassData := verifyData env student fee
            match Gatepass.build env gatepassData with
            | .error _ => (g, GateResponse.plain 500 "Error verifying student")
            | .ok gatepass =>
              (g ++ [gatepass],
                { status := 200
                  success := gatepassData.verificationStatus == .verified
                  message := gatepassData.message
                  gatepass := some gatepass
                  receipt :=
                    if gatepassData.verificationStatus = .verified then
                      some { number := gatepass.receiptNumber, code := gatepass.verificationCode,
                             validUntil := gatepass.expiryTime }
                    else none })

/-- The `gatepassData` object of SelfServiceReceipt.  It has no `verificationDay` and no
`expiryTime`. -/
def receiptData (env : Env) (fee : FeeRecord) : GatepassData :=
  { student := env.user.id
    admissionNumber := env.user.admissionNumber
    verificationCode := toUpperCase (env.uuid.take 8)
    receiptNumber := generateReceiptNumber env.clock env.random
    verifiedBy := env.user.id
    verificationStatus := .verified
    paymentStatus := fee.paymentStatus
    feeDetails := { totalAmount := fee.totalAmount, paidAmount := fee.totalPaid,
                    balance := fee.balance, allowedUntil := fee.gatepassStatus.allowedUntil }
    message := "Security receipt generated for " ++ env.user.fullName }

/-- The `recentReceipt && new Date() < new Date(recentReceipt.expiryTime)` test. -/
def stillActive (recent : Option Gatepass) (now : Millis) : Option Gatepass :=
  recent.filter (fun r => decide (now < r.expiryTime))

/-- SelfServiceReceipt, `POST /api/gatepass/student-receipt`.  An exception of
`Gatepass.create` is caught and answered with 500. -/
def studentReceipt (env : Env) (fees : FeeStore) (g : GatepassStore) :
    GatepassStore × GateResponse :=
  if !authorize [.student] env.user then (g, gateForbidden env.user)
  else
    let operatingStatus := isWithinOperatingHours env.clock
    if !operatingStatus.isOpen then (g, GateResponse.plain 400 operatingStatus.message)
    else
      match stillActive (g.findRecent env.user.id env.clock.now) env.clock.now with
      | some recentReceipt =>
        (g, { status := 200, success := true,
              message := "You already have an active security receipt",
              gatepass := none,
              receipt := some { number := recentReceipt.receiptNumber,
                                code := recentReceipt.verificationCode,
                                validUntil := recentReceipt.expiryTime } })
      | none =>
        match currentFee fees env.user.id env.clock with
        | none => (g, GateResponse.plain 400 "No fee record found for current term")
        | some fee =>
          if fee.paymentStatus = .unpaid ∧ fee.gatepassStatus.allowed = false then
            (g, GateResponse.plain 403
              "You are not authorized to generate a security receipt due to unpaid fees")
          else
            match Gatepass.build env (receiptData env fee) with
            | .error _ => (g, GateResponse.plain 500 "Error generating security receipt")
            | .ok gatepass =>
              (g ++ [gatepass],
                { status := 201, success := true,
                  message := "Security receipt generated successfully",
                  gatepass := none,
                  receipt := some { number := gatepass.receiptNumber,
                                    code := gatepass.verificationCode,
                                    validUntil := gatepass.expiryTime } })

/-- `gatepass.save()` on a loaded document: the hook does nothing for a document that is
not new, and the stored document with the same id is replaced. -/
def GatepassStore.save (g : GatepassStore) (doc : Gatepass) : GatepassStore :=
  g.map (fun r => if r.id = doc.id then doc else r)

/-- `Gatepass.findOne({ verificationCode: code.toUpperCase(), verificationStatus:
'verified' })`. -/
def GatepassStore.findVerified (g : GatepassStore) (code : String) : Option Gatepass :=
  g.find? (fun p => p.verificationCode == toUpperCase code && p.verificationStatus == .verified)

/-- `Gatepass.findOne({ verificationCode: code.toUpperCase() })`. -/
def GatepassStore.findByCode (g : GatepassStore) (code : String) : Option Gatepass :=
  g.find? (fun p => p.verificationCode == toUpperCase code)

/-- MarkUsed, `POST /api/gatepass/use/:code`.  (The `usedAt` member of the
already-used answer is not carried.) -/
def markUsed (env : Env) (g : GatepassStore) (code : String) : GatepassStore × GateResponse :=
  if !authorize [.gatepass, .admin] env.user then (g, gateForbidden env.user)
  else
    match g.findVerified code with
    | none => (g, GateResponse.plain 404 "Valid gatepass not found")
    | some gatepass =>
      if gatepass.usedAt.isSome then
        (g, GateResponse.plain 400 "This gatepass has already been used")
      else if env.clock.now > gatepass.expiryTime then
        (g.save { gatepass with verificationStatus := .expired },
          GateResponse.plain 400 "This gatepass has expired")
      else
        (g.save { gatepass with usedAt := some env.clock.now, verificationStatus := .used },
          { status := 200, success := true, message := "Gatepass marked as used successfully",
            gatepass := none, receipt := none })

/-- Receipt lookup, `GET /api/gatepass/receipt/:code` (any authenticated user). -/
def getReceipt (env : Env) (g : GatepassStore) (code : String) : GatepassStore × GateResponse :=
  match g.findByCode code with
  | none => (g, GateResponse.plain 404 "Receipt not found")
  | some gatepass =>
    if env.clock.now > gatepass.expiryTime then
      (g.save { gatepass with verificationStatus := .expired },
        GateResponse.plain 400 "This receipt has expired")
    else
      (g, { status := 200, success := true, message := "", gatepass := some gatepass,
            receipt := none })

/-- A request to the gate-pass verifier. -/
inductive GateOp where
  | verify (admissionNumber : String)
  | studentReceipt
  | markUsed (code : String)
  | getReceipt (code : String)
  deriving DecidableEq, Repr

/-- One request to the gate-pass verifier. -/
def gateStep (users : List User) (fees : FeeStore) (g : GatepassStore) (step : Env × GateOp) :
    GatepassStore × GateResponse :=
  match step.2 with
  | .verify admissionNumber => verify step.1 users fees g admissionNumber
  | .studentReceipt => studentReceipt step.1 fees g
  | .markUsed code => markUsed step.1 g code
  | .getReceipt code => getReceipt step.1 g code

/-- The gate-pass store after a sequence of requests. -/
def runGateOps (users : List User) (fees : FeeStore) (g : GatepassStore)
    (steps : List (Env × GateOp)) : GatepassStore :=
  steps.foldl (fun g step => (gateStep users fees g step).1) g

/-- A gate-pass record is active at `now`: verified, not used, and expiring later than
`now`. -/
def Gatepass.active (p : Gatepass) (now : Millis) : Prop :=
  p.verificationStatus = .verified ∧ p.usedAt = none ∧ p.expiryTime > now

instance (p : Gatepass) (now : Millis) : Decidable (p.active now) := by
  unfold Gatepass.active; infer_instance

/-- The active records of a student at `now`. -/
def activePasses (g : GatepassStore) (student : ObjectId) (now : Millis) : List Gatepass :=
  g.filter (fun p => p.student == student && decide (p.active now))

/-! ## models/Exam.js, helpers.js (grades) and routes/exams.js

Scores, marks and percentages (JavaScript numbers) are rationals; the embedding follows the
code for a non-zero `totalMarks`. -/

/-- The `grade` enum of an exam result. -/
inductive Grade where
  | A | B | C | D | E | F
  deriving DecidableEq, Repr

/-- `examSchema.methods.calculateGrade`. -/
def calculateGrade (percentage : ℚ) : Grade :=
  if percentage ≥ 80 then .A
  else if percentage ≥ 70 then .B
  else if percentage ≥ 60 then .C
  else if percentage ≥ 50 then .D
  else if percentage ≥ 40 then .E
  else .F

/-- `getGradeFromPercentage` of `utils/helpers.js`. -/
def getGradeFromPercentage (percentage : ℚ) : Grade :=
  if percentage ≥ 80 then .A
  else if percentage ≥ 70 then .B
  else if percentage ≥ 60 then .C
  else if percentage ≥ 50 then .D
  else if percentage ≥ 40 then .E
  else .F

/-- The grade bands as the specification words them. -/
def gradeBand (p : ℚ) (grade : Grade) : Prop :=
  match grade with
  | .A => 80 ≤ p
  | .B => 70 ≤ p ∧ p < 80
  | .C => 60 ≤ p ∧ p < 70
  | .D => 50 ≤ p ∧ p < 60
  | .E => 40 ≤ p ∧ p < 50
  | .F => p < 40

/-- The `status` enum of an exam. -/
inductive ExamStatus where
  | scheduled | ongoing | completed | marked | published | cancelled
  deriving DecidableEq, Repr

/-- An element of `misprints`. -/
structure Misprint where
  id : ObjectId
  reportedBy : ObjectId
  issue : String
  reportedAt : Millis
  resolved : Bool
  resolvedBy : Option ObjectId
  resolvedAt : Option Millis
  resolution : Option String
  deriving DecidableEq, Repr

/-- An element of `results`. -/
structure ExamResult where
  student : ObjectId
  score : ℚ
  percentage : Option ℚ
  grade : Option Grade
  remarks : Option String
  markedBy : Option ObjectId
  markedAt : Option Millis
  published : Bool
  publishedAt : Option Millis
  misprints : List Misprint
  deriving DecidableEq, Repr

/-- The fields of an exam document that the result routes read or write. -/
structure Exam where
  id : ObjectId
  title : String
  course : ObjectId
  teacher : ObjectId
  totalMarks : ℚ
  results : List ExamResult
  status : ExamStatus
  deriving DecidableEq, Repr

/-- Validation of an exam document on `save()`: the `score` of every result is at least
the `min: 0` of the schema. -/
def Exam.validate (exam : Exam) : Bool :=
  exam.results.all (fun r => decide (0 ≤ r.score))

/-- The exam collection. -/
abbrev ExamStore := List Exam

/-- `Exam.findById`. -/
def ExamStore.findById (s : ExamStore) (id : ObjectId) : Option Exam :=
  s.find? (fun e => e.id == id)

/-- `exam.save()` on a loaded document. -/
def ExamStore.save (s : ExamStore) (doc : Exam) : ExamStore :=
  s.map (fun e => if e.id = doc.id then doc else e)

/-- The JSON answer of an exam route. -/
structure ExamResponse where
  status : Nat
  success : Bool
  message : String
  data : Option Exam
  deriving DecidableEq, Repr

/-- An answer without payload. -/
def ExamResponse.plain (status : Nat) (message : String) : ExamResponse :=
  { status := status, success := false, message := message, data := none }

/-- The ownership test of the exam routes,
`req.user.role === 'teacher' && exam.teacher.toString() !== req.user._id.toString()`. -/
def notOwner (u : User) (exam : Exam) : Bool :=
  u.role == .teacher && exam.teacher != u.id

/-- An element of the `results` array of the bulk upsert body. -/
structure ResultInput where
  studentId : ObjectId
  score : ℚ
  remarks : Option String
  deriving DecidableEq, Repr

/-- One iteration of the loop of `POST /api/exams/:id/results`: compute percentage and grade,
then overwrite the first result of the student (keeping its other fields) or push a new
result. -/
def upsertResult (env : Env) (totalMarks : ℚ) (results : List ExamResult)
    (result : ResultInput) : List ExamResult :=
  let percentage := result.score / totalMarks * 100
  let grade := calculateGrade percentage
  match results.findIdx? (fun r => r.student == result.studentId) with
  | some existingResultIndex =>
    results.modify
      (fun existing => { existing with
        student := result.studentId
        score := result.score
        percentage := some percentage
        grade := some grade
        remarks := result.remarks
        markedBy := some env.user.id
        markedAt := some env.clock.now })
      existingResultIndex
  | none =>
    results ++
      [({ student := result.studentId, score := result.score, percentage := some percentage,
          grade := some grade, remarks := result.remarks, markedBy := some env.user.id,
          markedAt := some env.clock.now, published := false, publishedAt := none,
          misprints := [] } : ExamResult)]

/-- Bulk upsert, `POST /api/exams/:id/results`: a document that fails validation is not
written and the answer is 500. -/
def postResults (env : Env) (s : ExamStore) (id : ObjectId) (results : List ResultInput) :
    ExamStore × ExamResponse :=
  if !authorize [.teacher, .admin] env.user then
    (s, ExamResponse.plain 403 (forbidden env.user).message)
  else
    match s.findById id with
    | none => (s, ExamResponse.plain 404 "Exam not found")
    | some exam =>
      if notOwner env.user exam then
        (s, ExamResponse.plain 403 "Not authorized to add results for this exam")
      else
        let exam := { exam with
          results := results.foldl (upsertResult env exam.totalMarks) exam.results }
        let exam := { exam with status := .marked }
        if !exam.validate then (s, ExamResponse.plain 500 "Error adding results")
        else
          (s.save exam, { status := 200, success := true,
                          message := "Results added successfully", data := some exam })

/-- Apply `f` to the first element satisfying `p`: a mutation through the reference that
`misprints.id(...)` returns. -/
def modifyFirst {α : Type} (p : α → Bool) (f : α → α) : List α → List α
  | [] => []
  | x :: xs => if p x then f x :: xs else x :: modifyFirst p f xs

/-- Body of `PUT /api/exams/:examId/resolve-misprint/:misprintId`. -/
structure ResolveBody where
  resolution : Option String
  newScore : Option ℚ
  deriving DecidableEq, Repr

/-- The result has a misprint with the given id: `result.misprints.id(misprintId)` is not
null. -/
def ExamResult.hasMisprint (result : ExamResult) (misprintId : ObjectId) : Bool :=
  (result.misprints.find? (fun m => m.id == misprintId)).isSome

/-- The body of the `forEach` of misprint resolution on one result. -/
def resolveInResult (env : Env) (totalMarks : ℚ) (misprintId : ObjectId) (body : ResolveBody)
    (result : ExamResult) : ExamResult :=
  if result.hasMisprint misprintId then
    let result := { result with
      misprints := modifyFirst (fun m => m.id == misprintId)
        (fun misprint => { misprint with
          resolved := true
          resolvedBy := some env.user.id
          resolvedAt := some env.clock.now
          resolution := body.resolution })
        result.misprints }
    match body.newScore with
    | some newScore =>
      { result with
        score := newScore
        percentage := some (newScore / totalMarks * 100)
        grade := some (calculateGrade (newScore / totalMarks * 100)) }
    | none => result
  else result

/-- Misprint resolution, `PUT /api/exams/:examId/resolve-misprint/:misprintId`: a document
that fails validation is not written and the answer is 500. -/
def resolveMisprint (env : Env) (s : ExamStore) (examId misprintId : ObjectId)
    (body : ResolveBody) : ExamStore × ExamResponse :=
  if !authorize [.teacher, .admin] env.user then
    (s, ExamResponse.plain 403 (forbidden env.user).message)
  else
    match s.findById examId with
    | none => (s, ExamResponse.plain 404 "Exam not found")
    | some exam =>
      if notOwner env.user exam then
        (s, ExamResponse.plain 403 "Not authorized to resolve misprints for this exam")
      else
        let misprintFound := exam.results.any (fun result => result.hasMisprint misprintId)
        if !misprintFound then (s, ExamResponse.plain 404 "Misprint not found")
        else
          let exam := { exam with
            results := exam.results.map (resolveInResult env exam.totalMarks misprintId body) }
          if !exam.validate then (s, ExamResponse.plain 500 "Error resolving misprint")
          else
            (s.save exam, { status := 200, success := true,
                            message := "Misprint resolved successfully", data := none })

/-- A result agrees with its exam: percentage is score / totalMarks * 100 and grade is
`calculateGrade` of it. -/
def ExamResult.consistent (totalMarks : ℚ) (r : ExamResult) : Prop :=
  r.percentage = some (r.score / totalMarks * 100) ∧
    r.grade = some (calculateGrade (r.score / totalMarks * 100))

/-- The `isOwner` flag of the `checkOwnership` middleware of `middleware/auth.js` for an
exam resource (an exam has no `student` field): an admin owns everything, a teacher owns
the exams they teach and those of their assigned courses, a student owns the document
whose id is their own. -/
def checkOwnership (u : User) (exam : Exam) : Bool :=
  if u.role = .admin then true
  else if u.role = .teacher then
    if exam.teacher == u.id then true
    else if u.assignedCourses.contains exam.course then true
    else false
  else if u.role = .student then
    if exam.id == u.id then true else false
  else false

/-- Body of `PUT /api/exams/:id`: the fields to set. -/
structure ExamUpdateBody where
  title : Option String
  course : Option ObjectId
  teacher : Option ObjectId
  totalMarks : Option ℚ
  results : Option (List ExamResult)
  status : Option ExamStatus
  deriving DecidableEq, Repr

/-- `Exam.findByIdAndUpdate(id, req.body)` on the found document. -/
def Exam.update (exam : Exam) (body : ExamUpdateBody) : Exam :=
  { exam with
    title := body.title.getD exam.title
    course := body.course.getD exam.course
    teacher := body.teacher.getD exam.teacher
    totalMarks := body.totalMarks.getD exam.totalMarks
    results := body.results.getD exam.results
    status := body.status.getD exam.status }

/-- Update exam, `PUT /api/exams/:id`. -/
def updateExam (env : Env) (s : ExamStore) (id : ObjectId) (body : ExamUpdateBody) :
    ExamStore × ExamResponse :=
  if !authorize [.teacher, .admin] env.user then
    (s, ExamResponse.plain 403 (forbidden env.user).message)
  else
    match s.findById id with
    | none => (s, ExamResponse.plain 404 "Exam not found")
    | some exam =>
      if notOwner env.user exam then
        (s, ExamResponse.plain 403 "Not authorized to update this exam")
      else
        let updatedExam := exam.update body
        (s.save updatedExam, { status := 200, success := true,
                               message := "Exam updated successfully",
                               data := some updatedExam })

/-- Publish, `POST /api/exams/:id/publish`.  The paths the request writes (`published`,
`publishedAt`, `status`) take values every validator accepts. -/
def publish (env : Env) (s : ExamStore) (id : ObjectId) : ExamStore × ExamResponse :=
  if !authorize [.teacher, .admin] env.user then
    (s, ExamResponse.plain 403 (forbidden env.user).message)
  else
    match s.findById id with
    | none => (s, ExamResponse.plain 404 "Exam not found")
    | some exam =>
      if notOwner env.user exam then
        (s, ExamResponse.plain 403 "Not authorized to publish results for this exam")
      else
        let exam := { exam with
          results := exam.results.map (fun (result : ExamResult) =>
            { result with published := true, publishedAt := some env.clock.now }) }
        let exam := { exam with status := .published }
        (s.save exam, { status := 200, success := true,
                        message := "Results published successfully", data := some exam })

/-- The misprint pushed by a filing: the schema default leaves it unresolved. -/
def newMisprint (env : Env) (issue : String) : Misprint :=
  { id := env.newId, reportedBy := env.user.id, issue := issue, reportedAt := env.clock.now,
    resolved := false, resolvedBy := none, resolvedAt := none, resolution := none }

/-- Misprint filing, `POST /api/exams/:id/report-misprint`.  The misprint it pushes has no
validated path. -/
def reportMisprint (env : Env) (s : ExamStore) (id : ObjectId) (issue : String) :
    ExamStore × ExamResponse :=
  if !authorize [.student] env.user then
    (s, ExamResponse.plain 403 (forbidden env.user).message)
  else
    match s.findById id with
    | none => (s, ExamResponse.plain 404 "Exam not found")
    | some exam =>
      match exam.results.findIdx? (fun r => r.student == env.user.id) with
      | none => (s, ExamResponse.plain 404 "No result found for this student")
      | some resultIndex =>
        let exam := { exam with
          results := exam.results.modify
            (fun r => { r with misprints := r.misprints ++ [newMisprint env issue] })
            resultIndex }
        (s.save exam, { status := 200, success := true,
                        message := "Misprint reported successfully", data := none })

/-- Single-exam read, `GET /api/exams/:id`: a student gets only their own published
results. -/
def getExam (env : Env) (s : ExamStore) (id : ObjectId) : ExamResponse :=
  match s.findById id with
  | none => ExamResponse.plain 404 "Exam not found"
  | some exam =>
    let exam :=
      if env.user.role = .student then
        { exam with
          results := exam.results.filter (fun r => r.student == env.user.id && r.published) }
      else exam
    { status := 200, success := true, message := "", data := some exam }

/-- The answer of the per-student results read. -/
structure ExamListResponse where
  status : Nat
  success : Bool
  message : String
  data : List Exam
  deriving DecidableEq, Repr

/-- The query `Exam.find({ 'results.student': studentId, 'results.published': true })`: each
condition on the `results` array holds when some element satisfies it. -/
def ExamStore.findForStudent (s : ExamStore) (studentId : ObjectId) : List Exam :=
  s.filter (fun exam => exam.results.any (fun r => r.student == studentId)
    && exam.results.any (fun r => r.published == true))

/-- Per-student results read, `GET /api/exams/student/:studentId`. -/
def getStudentResults (env : Env) (s : ExamStore) (studentId : ObjectId) : ExamListResponse :=
  if env.user.role = .student ∧ env.user.id ≠ studentId then
    { status := 403, success := false, message := "Not authorized to view these results",
      data := [] }
  else
    let exams := s.findForStudent studentId
    let studentResults :=
      (exams.map (fun exam =>
        let studentResult := exam.results.find? (fun r => r.student == studentId)
        { exam with results := match studentResult with
                               | some r => [r]
                               | none => [] })).filter
        (fun exam => exam.results.length > 0)
    { status := 200, success := true, message := "", data := studentResults }

/-! ## models/Schedule.js and routes/schedules.js -/

/-- The fields of a schedule document that schedule creation reads or writes; the times
are strings in the format "09:00". -/
structure Schedule where
  id : ObjectId
  teacher : Option ObjectId
  course : ObjectId
  title : String
  date : Millis
  startTime : String
  endTime : String
  venue : String
  deriving DecidableEq, Repr

/-- Body of `POST /api/schedules`. -/
structure ScheduleBody where
  teacher : Option ObjectId
  course : ObjectId
  title : String
  date : Millis
  startTime : String
  endTime : String
  venue : String
  deriving DecidableEq, Repr

/-- The order in which the database compares strings: lexicographic on the characters. -/
def lexLt : List Char → List Char → Bool
  | [], [] => false
  | [], _ :: _ => true
  | _ :: _, [] => false
  | a :: as, b :: bs =>
    if a.toNat < b.toNat then true
    else if a.toNat = b.toNat then lexLt as bs
    else false

/-- The query operator `$lt` on strings. -/
def strLt (a b : String) : Bool :=
  lexLt a.data b.data

/-- The query operator `$lte` on strings. -/
def strLe (a b : String) : Bool :=
  !strLt b a

/-- The inner `$or` of the conflict query: the stored schedule covers the new start time
(`startTime $lte start`, `endTime $gt start`), or covers the new end time (`startTime $lt
end`, `endTime $gte end`). -/
def timeClash (existing : Schedule) (startTime endTime : String) : Bool :=
  (strLe existing.startTime startTime && strLt startTime existing.endTime)
    || (strLt existing.startTime endTime && strLe endTime existing.endTime)

/-- The conflict query of schedule creation, `Schedule.findOne({ date, $or: [{ teacher, … },
{ venue, … }] })`. -/
def findConflict (s : List Schedule) (teacher : Option ObjectId) (date : Millis)
    (startTime endTime venue : String) : Option Schedule :=
  s.find? (fun existing => existing.date == date
    && ((existing.teacher == teacher && timeClash existing startTime endTime)
      || (existing.venue == venue && timeClash existing startTime endTime)))

/-- The JSON answer of schedule creation. -/
structure ScheduleResponse where
  status : Nat
  success : Bool
  message : String
  data : Option Schedule
  deriving DecidableEq, Repr

/-- Schedule creation, `POST /api/schedules`. -/
def createSchedule (env : Env) (users : List User) (s : List Schedule) (body : ScheduleBody) :
    List Schedule × ScheduleResponse :=
  if !authorize [.teacher, .admin] env.user then
    (s, { status := 403, success := false, message := (forbidden env.user).message,
          data := none })
  else
    let teacher := if env.user.role = .teacher then some env.user.id else body.teacher
    let assigned :=
      if env.user.role = .teacher then
        match users.find? (fun u => u.id == env.user.id) with
        | some teacherDoc => some (teacherDoc.assignedCourses.contains body.course)
        | none => none
      else some true
    match assigned with
    | none => (s, { status := 500, success := false, message := "Error creating schedule",
                    data := none })
    | some false =>
      (s, { status := 403, success := false, message := "You are not assigned to this course",
            data := none })
    | some true =>
      match findConflict s teacher body.date body.startTime body.endTime body.venue with
      | some _ =>
        (s, { status := 400, success := false,
              message := "Schedule conflict detected. Teacher or venue is already booked at this time.",
              data := none })
      | none =>
        let schedule : Schedule :=
          { id := env.newId, teacher := teacher, course := body.course, title := body.title,
            date := body.date, startTime := body.startTime, endTime := body.endTime,
            venue := body.venue }
        (s ++ [schedule], { status := 201, success := true,
                            message := "Schedule created successfully",
                            data := some schedule })

/-- Two intervals overlap: each starts before the other ends. -/
def intervalsOverlap (start1 end1 start2 end2 : String) : Prop :=
  strLt start1 end2 = true ∧ strLt start2 end1 = true

instance (start1 end1 start2 end2 : String) :
    Decidable (intervalsOverlap start1 end1 start2 end2) := by
  unfold intervalsOverlap; infer_instance

/-- The stored totals of a fee record agree with its fee structure and payments. -/
def FeeRecord.totalsConsistent (r : FeeRecord) : Prop :=
  r.totalAmount = r.feeStructure.values.foldl (fun sum value => sum + value) 0 ∧
  r.totalPaid = r.payments.foldl (fun sum payment => sum + payment.amount) 0 ∧
  r.balance = r.totalAmount - r.totalPaid ∧
  r.paymentStatus = derivePaymentStatus r.balance r.totalPaid

instance (r : FeeRecord) : Decidable r.totalsConsistent := by
  unfold FeeRecord.totalsConsistent; infer_instance

/-- A clock sample outside the operating hours: Saturday or Sunday, or an hour before 6 or
from 17 on. -/
def Clock.closed (c : Clock) : Prop :=
  c.day.val = 0 ∨ c.day.val = 6 ∨ c.hour.val < 6 ∨ 17 ≤ c.hour.val

instance (c : Clock) : Decidable c.closed := by
  unfold Clock.closed; infer_instance

/-- The text `t` occurs in `s`. -/
def containsText (s t : String) : Prop :=
  t.data <:+: s.data

/-- A mutation of one fee record: a payment or a waiver. -/
inductive FeeOp where
  | payment (body : PaymentBody)
  | waiver (body : WaiverBody)
  deriving DecidableEq, Repr

/-- One request against the record `id`. -/
def feeStep (s : FeeStore) (id : ObjectId) (step : Env × FeeOp) : FeeStore × FeeResponse :=
  match step.2 with
  | .payment body => recordPayment step.1 s id body
  | .waiver body => applyWaiver step.1 s id body

/-- The store after a sequence of requests against the record `id`. -/
def runFeeOps (s : FeeStore) (id : ObjectId) (steps : List (Env × FeeOp)) : FeeStore :=
  steps.foldl (fun s step => (feeStep s id step).1) s

/-- The sum of the payment amounts of a record. -/
def FeeRecord.sumPayments (r : FeeRecord) : Int :=
  (r.payments.map (fun p => p.amount)).sum

/-- The sum of the fee structure components of a record. -/
def FeeRecord.sumFeeStructure (r : FeeRecord) : Int :=
  r.feeStructure.tuition + r.feeStructure.registration + r.feeStructure.library
    + r.feeStructure.laboratory + r.feeStructure.examination + r.feeStructure.medical
    + r.feeStructure.activity + r.feeStructure.other

/-- The sum of the waiver amounts of a record. -/
def FeeRecord.sumWaivers (r : FeeRecord) : Int :=
  (r.waivers.map (fun w => w.amount)).sum

/-- A manual override is active at `now`: `allowed` is true and `allowedUntil` is unset or
not earlier than `now`. -/
def overrideActive (fee : FeeRecord) (now : Millis) : Prop :=
  fee.gatepassStatus.allowed = true ∧
    (fee.gatepassStatus.allowedUntil = none ∨
      ∃ t : Millis, fee.gatepassStatus.allowedUntil = some t ∧ now ≤ t)

/-- The override has lapsed at `now`: `allowed` is true and `allowedUntil` is earlier than
`now`. -/
def overrideExpired (fee : FeeRecord) (now : Millis) : Prop :=
  fee.gatepassStatus.allowed = true ∧
    ∃ t : Millis, fee.gatepassStatus.allowedUntil = some t ∧ t < now

/-! ## Sample data -/

/-- A finance officer. -/
def sampleFinance : User :=
  { id := 2, role := .finance, admissionNumber := "", firstName := "Faith",
    middleName := none, lastName := "Otieno" }

/-- An administrator. -/
def sampleAdmin : User :=
  { id := 1, role := .admin, admissionNumber := "", firstName := "System",
    middleName := none, lastName := "Admin" }

/-- Tuesday 3 March 2026, 10:00 local time (UTC+3). -/
def tuesdayTen : Clock :=
  { now := 1772521200000, year := 2026, month := 2, date := 3, day := 2, hour := 10 }

/-- A request by the finance officer on Tuesday at 10:00. -/
def sampleEnv : Env :=
  { user := sampleFinance, clock := tuesdayTen, created := 1772521200000, hook := tuesdayTen,
    newId := 10, random := 4711, uuid := "3f2a9c1e-0000-4000-8000-000000000000",
    localeTime := "10:00 AM", localeDate := fun _ => "June 30, 2026" }

/-- The fee structure of the specification's scenario. -/
def scenarioStructure : FeeStructureInput :=
  { tuition := some 50000, registration := some 2000, library := some 1500,
    laboratory := some 3000, examination := some 2500, medical := some 1000,
    activity := some 500, other := some 0 }

/-- The request creating the scenario's record for student 7. -/
def scenarioBody : CreateFeeBody :=
  { student := 7, academicYear := none, term := none, course := some 3, level := some 4,
    feeStructure := some scenarioStructure }

/-- The scenario's record as stored: student 7, 2026, Term 1, total 60500, nothing paid. -/
def scenarioRecord : FeeRecord :=
  { id := 10, student := 7, academicYear := "2026", term := "Term 1", course := some 3,
    level := some 4,
    feeStructure := { tuition := 50000, registration := 2000, library := 1500,
                      laboratory := 3000, examination := 2500, medical := 1000,
                      activity := 500, other := 0 },
    totalAmount := 60500, payments := [], totalPaid := 0, balance := 60500,
    paymentStatus := .unpaid, dueDate := 1775113200000,
    gatepassStatus := { allowed := false, allowedUntil := none, reason := none,
                        updatedBy := none, lastUpdated := none },
    waivers := [] }

/-- The store holding just the scenario's record. -/
def scenarioStore : FeeStore :=
  [scenarioRecord]

/-- A request by the administrator on Tuesday at 10:00. -/
def adminEnv : Env :=
  { sampleEnv with user := sampleAdmin }

/-- A payment of 20000 by the finance officer. -/
def sampleSteps : List (Env × FeeOp) :=
  [(sampleEnv, .payment { amount := 20000, paymentMethod := "mpesa",
                          referenceNumber := "QX12", notes := none })]

/-- A waiver of 500 requested by the administrator. -/
def sampleWaiverStep : Env × FeeOp :=
  (adminEnv, .waiver { amount := 500, reason := "bursary" })

/-- The payment of the scenario: the whole 60500. -/
def scenarioPayment : PaymentBody :=
  { amount := 60500, paymentMethod := "bank", referenceNumber := "TRX-1", notes := none }

/-- A payment of -5. -/
def negativePayment : PaymentBody :=
  { amount := -5, paymentMethod := "cash", referenceNumber := "ADJ-1", notes := none }

/-- Student 7, the owner of the scenario's record. -/
def sampleStudent : User :=
  { id := 7, role := .student, admissionNumber := "KTC/001", firstName := "Amina",
    middleName := none, lastName := "Njeri" }

/-- The gate officer. -/
def sampleOfficer : User :=
  { id := 3, role := .gatepass, admissionNumber := "", firstName := "Gate",
    middleName := none, lastName := "Officer" }

/-- A request by the gate officer on Tuesday at 10:00. -/
def gateEnv : Env :=
  { sampleEnv with user := sampleOfficer, newId := 20 }

/-- Saturday 7 March 2026, 10:00 local time (UTC+3). -/
def saturdayTen : Clock :=
  { now := 1772866800000, year := 2026, month := 2, date := 7, day := 6, hour := 10 }

/-- A request by the gate officer on Saturday at 10:00. -/
def saturdayEnv : Env :=
  { gateEnv with clock := saturdayTen, created := 1772866800000, hook := saturdayTen }

/-- The scenario's store after the payment of 60500: the record is paid. -/
def paidStore : FeeStore :=
  (recordPayment sampleEnv scenarioStore 10 scenarioPayment).1

/-- The scenario's record after the payment of 60500. -/
def paidRecord : FeeRecord :=
  ({ scenarioRecord with payments := scenarioRecord.payments ++
      [({ amount := 60500, paymentMethod := "bank", referenceNumber := "TRX-1",
          receiptNumber := generateReceiptNumber sampleEnv.clock sampleEnv.random,
          receivedBy := 2, paymentDate := sampleEnv.clock.now, notes := none } : Payment)] }
    : FeeRecord).preSave

/-- Tuesday 3 March 2026, 10:01 local time. -/
def tuesdayTenOne : Clock :=
  { tuesdayTen with now := tuesdayTen.now + 60000 }

/-- The gate officer's request at 10:01. -/
def tenOneEnv : Env :=
  { gateEnv with clock := tuesdayTenOne, created := tuesdayTenOne.now, hook := tuesdayTenOne,
                 newId := 22 }

/-- Tuesday 3 March 2026, 11:00 local time. -/
def tuesdayEleven : Clock :=
  { tuesdayTen with now := tuesdayTen.now + 3600000, hour := 11 }

/-- The gate officer's request at 11:00. -/
def elevenEnv : Env :=
  { gateEnv with clock := tuesdayEleven, created := tuesdayEleven.now, hook := tuesdayEleven,
                 newId := 23 }

/-- Tuesday 3 March 2026, 13:00 local time. -/
def tuesdayThirteen : Clock :=
  { tuesdayTen with now := tuesdayTen.now + 10800000, hour := 13 }

/-- The gate officer's request at 13:00. -/
def thirteenEnv : Env :=
  { gateEnv with clock := tuesdayThirteen, created := tuesdayThirteen.now,
                 hook := tuesdayThirteen, newId := 24 }

/-- The scenario's store after an override that lapsed the day before: the record is unpaid,
`allowed` is true and `allowedUntil` is Monday 10:00. -/
def lapsedOverrideStore : FeeStore :=
  (setGatepassOverride sampleEnv scenarioStore 10
    { allowed := true, allowedUntil := some (tuesdayTen.now - 86400000),
      reason := some "installment plan" }).1

/-- A request by student 7 on Tuesday at 10:00. -/
def studentEnv : Env :=
  { sampleEnv with user := sampleStudent, newId := 20 }

/-- The scenario's record under the lapsed override. -/
def lapsedRecord : FeeRecord :=
  ({ scenarioRecord with
      gatepassStatus := { allowed := true, allowedUntil := some (tuesdayTen.now - 86400000),
                          reason := some "installment plan", updatedBy := some 2,
                          lastUpdated := some tuesdayTen.now } } : FeeRecord).preSave

/-- A verified, unused pass issued on Tuesday at 10:00, valid until 12:00. -/
def samplePass : Gatepass :=
  { id := 20, student := 7, admissionNumber := "KTC/001", verificationCode := "3F2A9C1E",
    receiptNumber := "RCP-20260303-4711", verifiedBy := 3, verificationTime := tuesdayTen.now,
    verificationDay := "Tuesday", verificationStatus := .verified, paymentStatus := .paid,
    feeDetails := { totalAmount := 60500, paidAmount := 60500, balance := 0,
                    allowedUntil := none },
    message := "verified", expiryTime := tuesdayTen.now + 7200000,
    issuedAt := tuesdayTen.now, usedAt := none }

/-- A denied pass issued on Tuesday at 10:00 for an unpaid record. -/
def deniedPass : Gatepass :=
  { id := 21, student := 7, admissionNumber := "KTC/001", verificationCode := "7B0D4E2A",
    receiptNumber := "RCP-20260303-0815", verifiedBy := 3, verificationTime := tuesdayTen.now,
    verificationDay := "Tuesday", verificationStatus := .denied, paymentStatus := .unpaid,
    feeDetails := { totalAmount := 60500, paidAmount := 0, balance := 60500,
                    allowedUntil := none },
    message := "denied", expiryTime := tuesdayTen.now + 7200000,
    issuedAt := tuesdayTen.now, usedAt := none }

/-- A teacher. -/
def sampleTeacher : User :=
  { id := 5, role := .teacher, admissionNumber := "", firstName := "Grace",
    middleName := none, lastName := "Mwangi" }

/-- A request by the teacher on Tuesday at 10:00. -/
def teacherEnv : Env :=
  { sampleEnv with user := sampleTeacher, newId := 30 }

/-- An open misprint report of student 7. -/
def sampleMisprint : Misprint :=
  { id := 40, reportedBy := 7, issue := "Question 3 was not marked", reportedAt := 1772521200000,
    resolved := false, resolvedBy := none, resolvedAt := none, resolution := none }

/-- An exam out of 80 marks owned by the teacher, with a published result of student 7
(score 36) that carries the misprint report. -/
def sampleExam : Exam :=
  { id := 50, title := "Databases CAT 1", course := 3, teacher := 5, totalMarks := 80,
    results := [{ student := 7, score := 36, percentage := some 45, grade := some .E,
                  remarks := none, markedBy := some 5, markedAt := some 1772521200000,
                  published := true, publishedAt := some 1772521200000,
                  misprints := [sampleMisprint] }],
    status := .published }

/-- Scores submitted for students 7 and 8; student 7 appears twice. -/
def sampleInputs : List ResultInput :=
  [{ studentId := 7, score := 40, remarks := none },
   { studentId := 8, score := 72, remarks := some "good" },
   { studentId := 7, score := 64, remarks := some "remarked" }]

/-- A resolution that raises the score to 48. -/
def sampleResolve : ResolveBody :=
  { resolution := some "Question 3 marked", newScore := some 48 }

/-- A second student. -/
def secondStudent : User :=
  { id := 8, role := .student, admissionNumber := "KTC/002", firstName := "Brian",
    middleName := none, lastName := "Kiptoo" }

/-- A request by student 8 on Tuesday at 10:00. -/
def secondStudentEnv : Env :=
  { sampleEnv with user := secondStudent, newId := 41 }

/-- A teacher who does not teach the sample exam but is assigned to its course 3. -/
def assignedTeacher : User :=
  { id := 6, role := .teacher, admissionNumber := "", firstName := "Peter",
    middleName := none, lastName := "Ochieng", assignedCourses := [3] }

/-- A request by the assigned teacher on Tuesday at 10:00. -/
def assignedTeacherEnv : Env :=
  { sampleEnv with user := assignedTeacher, newId := 31 }

/-- A submission with a negative score for student 8. -/
def negativeInput : List ResultInput :=
  [{ studentId := 8, score := -5, remarks := none }]

/-- A score for student 8, who has no result in the sample exam. -/
def newStudentInput : List ResultInput :=
  [{ studentId := 8, score := 72, remarks := none }]

/-- The sample exam after a bulk upsert for student 8: student 7 published, student 8 not. -/
def mixedStore : ExamStore :=
  (postResults teacherEnv [sampleExam] 50 newStudentInput).1

/-- An exam in which student 7 has two results, the first unpublished. -/
def doubledExam : Exam :=
  { id := 52, title := "Networks CAT 2", course := 3, teacher := 5, totalMarks := 50,
    results := [{ student := 7, score := 20, percentage := some 40, grade := some .E,
                  remarks := none, markedBy := some 5, markedAt := some 1772521200000,
                  published := false, publishedAt := none, misprints := [] },
                { student := 7, score := 30, percentage := some 60, grade := some .C,
                  remarks := none, markedBy := some 5, markedAt := some 1772521200000,
                  published := true, publishedAt := some 1772521200000, misprints := [] }],
    status := .marked }

/-- A marked, unpublished exam with a result of student 7. -/
def draftExam : Exam :=
  { id := 51, title := "Databases CAT 2", course := 3, teacher := 5, totalMarks := 50,
    results := [{ student := 7, score := 20, percentage := some 40, grade := some .E,
                  remarks := none, markedBy := some 5, markedAt := some 1772521200000,
                  published := false, publishedAt := none, misprints := [] }],
    status := .marked }

/-- A lecture of teacher 5 in Lab 1 from 10:00 to 11:00. -/
def sampleLecture : Schedule :=
  { id := 60, teacher := some 5, course := 3, title := "Databases", date := 1772496000000,
    startTime := "10:00", endTime := "11:00", venue := "Lab 1" }

/-- A request for the same teacher, venue and date from 09:00 to 12:00. -/
def longBooking : ScheduleBody :=
  { teacher := some 5, course := 3, title := "Revision", date := 1772496000000,
    startTime := "09:00", endTime := "12:00", venue := "Lab 1" }

/-- A request for the same teacher, venue and date from 10:30 to 11:30. -/
def lateBooking : ScheduleBody :=
  { teacher := some 5, course := 3, title := "Tutorial", date := 1772496000000,
    startTime := "10:30", endTime := "11:30", venue := "Lab 1" }

/-- A payment of 70000 on the scenario's record of 60500. -/
def overPayment : PaymentBody :=
  { amount := 70000, paymentMethod := "bank", referenceNumber := "TRX-2", notes := none }

/-- The scenario's record after the payment of 70000: overpaid, no override. -/
def overpaidRecord : FeeRecord :=
  ({ scenarioRecord with payments := scenarioRecord.payments ++
      [({ amount := 70000, paymentMethod := "bank", referenceNumber := "TRX-2",
          receiptNumber := generateReceiptNumber sampleEnv.clock sampleEnv.random,
          receivedBy := 2, paymentDate := sampleEnv.clock.now, notes := none } : Payment)] }
    : FeeRecord).preSave

/-- An override request that withdraws the permission but still names a date. -/
def withdrawOverride : GatepassOverrideBody :=
  { allowed := false, allowedUntil := some 1772600000000, reason := some "plan cancelled" }

/-! ## Lemmas on the store -/

theorem foldl_add_eq_sum (l : List Int) (a : Int) :
    l.foldl (fun sum value => sum + value) a = a + l.sum := by
  induction l generalizing a with
  | nil => simp
  | cons x xs ih => simp [ih, add_assoc]

theorem foldl_amount_eq_sum (l : List Payment) (a : Int) :
    l.foldl (fun sum payment => sum + payment.amount) a = a + (l.map (fun p => p.amount)).sum := by
  induction l generalizing a with
  | nil => simp
  | cons x xs ih => simp [ih, add_assoc]

theorem preSave_totalPaid (r : FeeRecord) : r.preSave.totalPaid = r.sumPayments := by
  simp [FeeRecord.preSave, FeeRecord.sumPayments, foldl_amount_eq_sum]

theorem preSave_totalAmount (r : FeeRecord) : r.preSave.totalAmount = r.sumFeeStructure := by
  simp [FeeRecord.preSave, FeeRecord.sumFeeStructure, FeeStructure.values, foldl_add_eq_sum]

theorem preSave_balance (r : FeeRecord) :
    r.preSave.balance = r.preSave.totalAmount - r.preSave.totalPaid := rfl

theorem preSave_payments (r : FeeRecord) : r.preSave.payments = r.payments := rfl

theorem preSave_id (r : FeeRecord) : r.preSave.id = r.id := rfl

theorem findById_id {s : FeeStore} {id : ObjectId} {r : FeeRecord}
    (h : s.findById id = some r) : r.id = id := by
  have := List.find?_some h
  simpa using this

theorem findById_save {s : FeeStore} {id : ObjectId} {r doc : FeeRecord}
    (h : s.findById id = some r) (hd : doc.id = id) :
    (s.save doc).findById id = some doc.preSave := by
  induction s with
  | nil => simp [FeeStore.findById] at h
  | cons x xs ih =>
    simp only [FeeStore.findById, FeeStore.save, List.map_cons, List.find?_cons] at h ih ⊢
    by_cases hx : x.id = id
    · simp [hx, hd, preSave_id]
    · have hx' : (x.id == id) = false := by simpa using hx
      rw [hx'] at h
      have hne : ¬ x.id = doc.id := by rw [hd]; exact hx
      simp only [hne, if_false, hx']
      exact ih h

/-- Every request of `feeStep` that answers 200 leaves at `id` a record produced by the hook. -/
theorem feeStep_ok {s : FeeStore} {id : ObjectId} {step : Env × FeeOp}
    (h : (feeStep s id step).2.status = 200) :
    ∃ doc : FeeRecord, (feeStep s id step).1.findById id = some doc.preSave := by
  obtain ⟨env, op⟩ := step
  cases op with
  | payment body =>
    simp only [feeStep, recordPayment] at h ⊢
    split at h
    · simp [forbidden] at h
    · rename_i hauth
      rw [if_neg hauth]
      cases hf : FeeStore.findById s id with
      | none => rw [hf] at h; simp at h
      | some fee =>
        have hid : fee.id = id := findById_id hf
        rw [hf] at h
        dsimp only at h ⊢
        split at h
        · simp at h
        · rename_i hv
          rw [if_neg hv]
          exact ⟨_, findById_save hf hid⟩
  | waiver body =>
    simp only [feeStep, applyWaiver] at h ⊢
    split at h
    · simp [forbidden] at h
    · rename_i hauth
      rw [if_neg hauth]
      cases hf : FeeStore.findById s id with
      | none => rw [hf] at h; simp at h
      | some fee =>
        have hid : fee.id = id := findById_id hf
        rw [hf] at h
        dsimp only at h ⊢
        split at h
        · simp at h
        · rename_i hv
          rw [if_neg hv]
          exact ⟨_, findById_save hf hid⟩

/-- The `feeData` of the route has no `totalAmount`, so `Fee.create` throws on it. -/
theorem create_feeData (s : FeeStore) (id : ObjectId) (env : Env) (courses : List Course)
    (body : CreateFeeBody) (academicYear term : String) :
    s.create id (feeData env courses body academicYear term)
      = .error "Fee validation failed" := by
  simp [FeeStore.create, feeData]

/-- CreateRecord never writes. -/
theorem createRecord_unchanged (env : Env) (courses : List Course) (s : FeeStore)
    (body : CreateFeeBody) : (createRecord env courses s body).1 = s := by
  unfold createRecord
  split
  · rfl
  · dsimp only
    split
    · rfl
    · rw [create_feeData]

/-- A request that passes the role and duplicate checks is answered with 500. -/
theorem createRecord_fails {env : Env} {courses : List Course} {s : FeeStore}
    {body : CreateFeeBody}
    (hauth : authorize [.finance, .admin] env.user = true)
    (hnew : s.findOne body.student (body.academicYear.getD (getCurrentAcademicYear env.clock))
      (body.term.getD (getCurrentTerm env.clock)) = none) :
    createRecord env courses s body =
      (s, { status := 500, success := false, message := "Error creating fee record",
            receiptNumber := none, data := none }) := by
  simp only [createRecord, hauth, hnew, create_feeData]
  rfl

theorem generateReceiptNumber_ne_empty (c : Clock) (random : Nat) :
    generateReceiptNumber c random ≠ "" := by
  intro h
  have hl := congrArg String.length h
  have h4 : "RCP-".length = 4 := rfl
  have h0 : "".length = 0 := rfl
  simp only [generateReceiptNumber, String.length_append, h4, h0] at hl
  omega

/-- Pushing a payment keeps a valid document valid when the method is of the enum and the
reference is not empty. -/
theorem validate_push_payment {fee : FeeRecord} {p : Payment}
    (hfee : fee.validate = true) (hp : p.validate = true) :
    ({ fee with payments := fee.payments ++ [p] } : FeeRecord).validate = true := by
  simp only [FeeRecord.validate, Bool.and_eq_true, List.all_append, List.all_cons,
    List.all_nil, Bool.and_true] at hfee ⊢
  exact ⟨⟨⟨hfee.1.1.1, hfee.1.1.2⟩, hfee.1.2, hp⟩, hfee.2⟩

theorem recordPayment_found (env : Env) (body : PaymentBody) {s : FeeStore} {id : ObjectId}
    {fee : FeeRecord}
    (hauth : authorize [.finance, .admin] env.user = true)
    (hfee : s.findById id = some fee)
    (hstored : fee.validate = true)
    (hmethod : body.paymentMethod ∈ paymentMethodEnum)
    (href : body.referenceNumber ≠ "") :
    (recordPayment env s id body).2.status = 200 ∧
    (recordPayment env s id body).2.success = true ∧
    ∃ p : Payment, p.amount = body.amount ∧
      (recordPayment env s id body).1.findById id
        = some ({ fee with payments := fee.payments ++ [p] } : FeeRecord).preSave := by
  have hid : fee.id = id := findById_id hfee
  have hp : ({ amount := body.amount, paymentMethod := body.paymentMethod,
               referenceNumber := body.referenceNumber,
               receiptNumber := generateReceiptNumber env.clock env.random,
               receivedBy := env.user.id, paymentDate := env.clock.now,
               notes := body.notes } : Payment).validate = true := by
    simp [Payment.validate, hmethod, href, generateReceiptNumber_ne_empty]
  have hv := validate_push_payment hstored hp
  simp only [recordPayment, hauth, hfee, hv]
  exact ⟨rfl, rfl, _, rfl, findById_save hfee hid⟩

theorem derivePaymentStatus_neg {b t : Int} (h : b < 0) :
    derivePaymentStatus b t = .overpaid := by
  simp [derivePaymentStatus, h, le_of_lt h]

theorem mem_save {s : FeeStore} {doc r : FeeRecord} (h : r ∈ s.save doc) :
    r ∈ s ∨ r = doc.preSave := by
  simp only [FeeStore.save, List.mem_map] at h
  obtain ⟨x, hx, rfl⟩ := h
  by_cases hc : x.id = doc.id
  · right; simp [hc]
  · left; simpa [hc] using hx

theorem recordPayment_store (env : Env) (s : FeeStore) (id : ObjectId) (body : PaymentBody) :
    (recordPayment env s id body).1 = s ∨
      ∃ doc : FeeRecord, (recordPayment env s id body).1 = s.save doc := by
  unfold recordPayment
  split
  · exact Or.inl rfl
  · split
    · exact Or.inl rfl
    · dsimp only
      split
      · exact Or.inl rfl
      · exact Or.inr ⟨_, rfl⟩

theorem applyWaiver_store (env : Env) (s : FeeStore) (id : ObjectId) (body : WaiverBody) :
    (applyWaiver env s id body).1 = s ∨
      ∃ doc : FeeRecord, (applyWaiver env s id body).1 = s.save doc := by
  unfold applyWaiver
  split
  · exact Or.inl rfl
  · split
    · exact Or.inl rfl
    · dsimp only
      split
      · exact Or.inl rfl
      · exact Or.inr ⟨_, rfl⟩

theorem setGatepassOverride_store (env : Env) (s : FeeStore) (id : ObjectId)
    (body : GatepassOverrideBody) :
    (setGatepassOverride env s id body).1 = s ∨
      ∃ doc : FeeRecord, (setGatepassOverride env s id body).1 = s.save doc := by
  unfold setGatepassOverride
  split
  · exact Or.inl rfl
  · split
    · exact Or.inl rfl
    · exact Or.inr ⟨_, rfl⟩

theorem findById_mem {s : FeeStore} {id : ObjectId} {r : FeeRecord}
    (h : s.findById id = some r) : r ∈ s :=
  List.mem_of_find?_eq_some h

theorem createRecord_keys {env : Env} {courses : List Course} {s : FeeStore}
    {body : CreateFeeBody} (h : s.Pairwise (fun a b => a.key ≠ b.key)) :
    (createRecord env courses s body).1.Pairwise (fun a b => a.key ≠ b.key) := by
  rw [createRecord_unchanged]
  exact h

theorem runCreates_keys (reqs : List (Env × List Course × CreateFeeBody)) :
    ∀ s : FeeStore, s.Pairwise (fun a b => a.key ≠ b.key) →
      (runCreates s reqs).Pairwise (fun a b => a.key ≠ b.key) := by
  induction reqs with
  | nil => intro s hs; exact hs
  | cons req rest ih =>
    intro s hs
    exact ih _ (createRecord_keys hs)

/-! ## Lemmas on the gate-pass routes -/

theorem dayName_weekend (d : Fin 7) :
    (dayNames.getD d.val "" = "Sunday" ∨ dayNames.getD d.val "" = "Saturday")
      ↔ (d.val = 0 ∨ d.val = 6) := by
  revert d
  decide

theorem isOpen_iff (c : Clock) : (isWithinOperatingHours c).isOpen = true ↔ ¬ c.closed := by
  unfold isWithinOperatingHours Clock.closed
  split
  · rename_i h
    simp only [Bool.false_eq_true, false_iff, not_not]
    rcases h with h | h
    · exact Or.inl h
    · exact Or.inr (Or.inl h)
  · rename_i h
    split
    · rename_i h2
      simp only [true_iff]
      omega
    · rename_i h2
      simp only [Bool.false_eq_true, false_iff, not_not]
      omega

/-- The `gatepassData` of Verify fails the validation of `Gatepass.create`. -/
theorem build_verifyData (env : Env) (student : User) (fee : FeeRecord) :
    Gatepass.build env (verifyData env student fee) = .error "Gatepass validation failed" := by
  simp [Gatepass.build, GatepassData.validate, verifyData]

/-- The `gatepassData` of SelfServiceReceipt fails the validation of `Gatepass.create`. -/
theorem build_receiptData (env : Env) (fee : FeeRecord) :
    Gatepass.build env (receiptData env fee) = .error "Gatepass validation failed" := by
  simp [Gatepass.build, GatepassData.validate, receiptData]

/-- Verify once every check has passed: `Gatepass.create` throws and the answer is 500. -/
theorem verify_checked {env : Env} {users : List User} {fees : FeeStore} {g : GatepassStore}
    {adm : String} {student : User} {fee : FeeRecord}
    (hauth : authorize [.gatepass, .admin] env.user = true)
    (hopen : ¬ env.clock.closed)
    (hstudent : findStudent users adm = some student)
    (hrecent : g.findRecent student.id env.clock.now = none)
    (hfee : currentFee fees student.id env.clock = some fee) :
    verify env users fees g adm = (g, GateResponse.plain 500 "Error verifying student") := by
  have ho : (isWithinOperatingHours env.clock).isOpen = true := (isOpen_iff _).mpr hopen
  simp only [verify, hauth, ho, hstudent, hrecent, hfee, build_verifyData]
  rfl

/-- Verify never writes. -/
theorem verify_unchanged (env : Env) (users : List User) (fees : FeeStore) (g : GatepassStore)
    (adm : String) : (verify env users fees g adm).1 = g := by
  unfold verify
  split
  · rfl
  · dsimp only
    split
    · rfl
    · split
      · rfl
      · split
        · rfl
        · split
          · rfl
          · rw [build_verifyData]

/-- SelfServiceReceipt never writes. -/
theorem studentReceipt_unchanged (env : Env) (fees : FeeStore) (g : GatepassStore) :
    (studentReceipt env fees g).1 = g := by
  unfold studentReceipt
  split
  · rfl
  · dsimp only
    split
    · rfl
    · split
      · rfl
      · split
        · rfl
        · split
          · rfl
          · rw [build_receiptData]

/-- SelfServiceReceipt once every check has passed: `Gatepass.create` throws and the answer
is 500. -/
theorem studentReceipt_checked {env : Env} {fees : FeeStore} {g : GatepassStore}
    {fee : FeeRecord}
    (hauth : authorize [.student] env.user = true)
    (hopen : ¬ env.clock.closed)
    (hrecent : stillActive (g.findRecent env.user.id env.clock.now) env.clock.now = none)
    (hfee : currentFee fees env.user.id env.clock = some fee)
    (hallowed : ¬ (fee.paymentStatus = .unpaid ∧ fee.gatepassStatus.allowed = false)) :
    studentReceipt env fees g
      = (g, GateResponse.plain 500 "Error generating security receipt") := by
  have ho : (isWithinOperatingHours env.clock).isOpen = true := (isOpen_iff _).mpr hopen
  simp only [studentReceipt, hauth, ho, hrecent, hfee, build_receiptData, if_neg hallowed]
  rfl

theorem decision_verified_iff (env : Env) (student : User) (fee : FeeRecord) :
    (verifyDecision env student fee).verificationStatus = .verified ↔
      (fee.paymentStatus = .paid ∨ overrideActive fee env.clock.now) := by
  unfold verifyDecision overrideActive
  by_cases hp : fee.paymentStatus = .paid
  · simp [hp]
  · cases ha : fee.gatepassStatus.allowed with
    | false => simp [hp]
    | true =>
      cases hu : fee.gatepassStatus.allowedUntil with
      | none => simp [hp]
      | some t =>
        by_cases ht : t < env.clock.now
        · simp [hp, ht]
        · simp [hp, ht, not_lt.mp ht]

theorem decision_cases (env : Env) (student : User) (fee : FeeRecord) :
    (verifyDecision env student fee).verificationStatus = .verified ∨
      (verifyDecision env student fee).verificationStatus = .denied := by
  unfold verifyDecision
  split
  · exact Or.inl rfl
  · split
    · dsimp only
      split
      · split
        · exact Or.inr rfl
        · exact Or.inl rfl
      · exact Or.inl rfl
    · exact Or.inr rfl

theorem decision_expired (env : Env) (student : User) (fee : FeeRecord)
    (hp : fee.paymentStatus ≠ .paid) (he : overrideExpired fee env.clock.now) :
    (verifyDecision env student fee).message = "Gatepass permission has expired" := by
  obtain ⟨ha, t, hu, ht⟩ := he
  unfold verifyDecision
  simp [hp, ha, hu, ht]

theorem decision_unpaid (env : Env) (student : User) (fee : FeeRecord)
    (hp : fee.paymentStatus ≠ .paid) (ha : fee.gatepassStatus.allowed = false) :
    verifyDecision env student fee =
      { verificationStatus := .denied
        message := student.fullName ++ " - Verification denied: Unpaid fees (Balance: KES "
          ++ toString fee.balance ++ ")"
        allowedUntil := none } := by
  unfold verifyDecision
  simp [hp, ha]

theorem containsText_mid (a t b : String) : containsText (a ++ t ++ b) t := by
  unfold containsText
  exact ⟨a.data, b.data, by simp [String.data_append]⟩

/-! ## Claims -/

/-- C1: after every RecordPayment or ApplyWaiver request that is applied to a fee record
(answered 200), whatever sequence of such requests came before, the stored record has
`totalPaid` equal to the sum of its payment amounts and `balance` equal to
`totalAmount - totalPaid`. -/
theorem fee_totals_after_every_mutation (s : FeeStore) (id : ObjectId)
    (steps : List (Env × FeeOp)) (step : Env × FeeOp)
    (h : (feeStep (runFeeOps s id steps) id step).2.status = 200) :
    ∃ r : FeeRecord, (runFeeOps s id (steps ++ [step])).findById id = some r ∧
      r.totalPaid = r.sumPayments ∧ r.balance = r.totalAmount - r.totalPaid := by
  obtain ⟨doc, hdoc⟩ := feeStep_ok h
  refine ⟨doc.preSave, ?_, ?_, preSave_balance doc⟩
  · simpa [runFeeOps, List.foldl_append] using hdoc
  · rw [preSave_totalPaid]; rfl

/-- Witness for C1: a payment of 20000 then a waiver of 500 on the scenario's record. -/
theorem fee_totals_after_every_mutation_witness :
    (feeStep (runFeeOps scenarioStore 10 sampleSteps) 10 sampleWaiverStep).2.status = 200 ∧
    ∃ r : FeeRecord,
      (runFeeOps scenarioStore 10 (sampleSteps ++ [sampleWaiverStep])).findById 10 = some r ∧
      r.totalPaid = r.sumPayments ∧ r.balance = r.totalAmount - r.totalPaid :=
  ⟨by decide, fee_totals_after_every_mutation scenarioStore 10 sampleSteps sampleWaiverStep
    (by decide)⟩

/-- C2: for every saved fee record the payment status is determined by balance and total
paid: overpaid when balance < 0, paid when balance = 0, partial when balance > 0 and
totalPaid > 0, unpaid when balance > 0 and totalPaid <= 0. -/
theorem paymentStatus_derivation (r : FeeRecord) :
    r.preSave.paymentStatus = derivePaymentStatus r.preSave.balance r.preSave.totalPaid ∧
    (r.preSave.balance < 0 → r.preSave.paymentStatus = .overpaid) ∧
    (r.preSave.balance = 0 → r.preSave.paymentStatus = .paid) ∧
    (r.preSave.balance > 0 ∧ r.preSave.totalPaid > 0 → r.preSave.paymentStatus = .partly) ∧
    (r.preSave.balance > 0 ∧ r.preSave.totalPaid ≤ 0 → r.preSave.paymentStatus = .unpaid) := by
  have hst : r.preSave.paymentStatus
      = derivePaymentStatus r.preSave.balance r.preSave.totalPaid := rfl
  refine ⟨hst, ?_, ?_, ?_, ?_⟩
  · intro h
    rw [hst, derivePaymentStatus_neg h]
  · intro h
    rw [hst, h]
    simp [derivePaymentStatus]
  · rintro ⟨hb, ht⟩
    rw [hst]
    simp [derivePaymentStatus, not_le.mpr hb, ht]
  · rintro ⟨hb, ht⟩
    rw [hst]
    simp [derivePaymentStatus, not_le.mpr hb, not_lt.mpr ht]

/-- C3, the code at the failing input: a waiver of 500 on the scenario's record (whose
fee structure sums to 60500) answers 200 and appends the waiver, yet the stored totalAmount
is still 60500 and the balance 60500, while the fee structure minus the waivers is 60000. -/
theorem waiver_does_not_lower_totalAmount :
    (applyWaiver adminEnv scenarioStore 10 { amount := 500, reason := "bursary" }).2.status = 200 ∧
    ((applyWaiver adminEnv scenarioStore 10 { amount := 500, reason := "bursary" }).1.findById 10).map
      (fun r => (r.totalAmount, r.sumFeeStructure - r.sumWaivers, r.balance, r.paymentStatus))
      = some (60500, 60000, 60500, PaymentStatus.unpaid) := by
  decide

/-- C4, the code at the failing input: CreateRecord with the scenario's fee structure (its
components sum to 60500) for a student without a record answers 500 with "Error creating
fee record" and stores nothing, where the claim has a record with totalAmount 60500 stored.
The `feeData` handed to `Fee.create` has no `totalAmount`; the path is required, and only
the hook, which runs after validation, would set it (given any `totalAmount`, `Fee.create`
stores the record with totalAmount 60500, totalPaid 0 and status unpaid).  No CreateRecord
request ever writes. -/
theorem createRecord_answers_500 :
    (FeeStructure.ofInput (some scenarioStructure)).values.sum = 60500 ∧
    (feeData sampleEnv [] scenarioBody "2026" "Term 1").totalAmount = none ∧
    createRecord sampleEnv [] [] scenarioBody =
      ([], { status := 500, success := false, message := "Error creating fee record",
             receiptNumber := none, data := none }) ∧
    (match FeeStore.create [] 10
        { feeData sampleEnv [] scenarioBody "2026" "Term 1" with totalAmount := some 0 } with
      | .ok (s, fee) => some (s.length, fee.totalAmount, fee.totalPaid, fee.paymentStatus)
      | .error _ => none) = some (1, 60500, 0, PaymentStatus.unpaid) ∧
    ∀ (env : Env) (courses : List Course) (s : FeeStore) (body : CreateFeeBody),
      (createRecord env courses s body).1 = s ∧
      (createRecord env courses s body).2.status ≠ 201 := by
  refine ⟨by decide, rfl, by decide, by decide, ?_⟩
  intro env courses s body
  refine ⟨createRecord_unchanged env courses s body, ?_⟩
  unfold createRecord
  split
  · simp [forbidden]
  · dsimp only
    split
    · simp
    · rw [create_feeData]
      simp

/-- C5: on a stored record that satisfies the schema, RecordPayment by an authorised user
with a payment method of the enum and a reference number answers 200 whatever the amount
(zero, negative, or beyond the balance).  The stored record then has the old payments, in
order, followed by exactly one new payment of the given amount; totalPaid is the sum of the
old payment amounts plus the amount, which is the old totalPaid plus the amount when the
stored total was the sum of the payments; and the status is overpaid whenever totalPaid
exceeds totalAmount. -/
theorem recordPayment_any_amount (env : Env) (s : FeeStore) (id : ObjectId)
    (body : PaymentBody) (r : FeeRecord)
    (hauth : authorize [.finance, .admin] env.user = true)
    (hr : s.findById id = some r)
    (hstored : r.validate = true)
    (hmethod : body.paymentMethod ∈ paymentMethodEnum)
    (href : body.referenceNumber ≠ "") :
    (recordPayment env s id body).2.status = 200 ∧
    (recordPayment env s id body).2.success = true ∧
    (∀ amount : Int, (recordPayment env s id { body with amount := amount }).2.status = 200) ∧
    ∃ (p : Payment) (r2 : FeeRecord), p.amount = body.amount ∧
      (recordPayment env s id body).1.findById id = some r2 ∧
      r2.payments = r.payments ++ [p] ∧
      r2.totalPaid = r.sumPayments + body.amount ∧
      (r.totalPaid = r.sumPayments → r2.totalPaid = r.totalPaid + body.amount) ∧
      (r2.totalPaid > r2.totalAmount → r2.paymentStatus = .overpaid) := by
  obtain ⟨hst, hsucc, p, hp, hfind⟩ := recordPayment_found env body hauth hr hstored hmethod href
  have hany : ∀ amount : Int,
      (recordPayment env s id { body with amount := amount }).2.status = 200 := fun amount =>
    (recordPayment_found env { body with amount := amount } hauth hr hstored hmethod href).1
  have hsum : ({ r with payments := r.payments ++ [p] } : FeeRecord).preSave.totalPaid
      = r.sumPayments + body.amount := by
    rw [preSave_totalPaid]
    simp [FeeRecord.sumPayments, hp]
  refine ⟨hst, hsucc, hany, p, _, hp, hfind, rfl, hsum, ?_, ?_⟩
  · intro hold
    rw [hsum, hold]
  · intro hgt
    have hneg : ({ r with payments := r.payments ++ [p] } : FeeRecord).preSave.balance < 0 := by
      rw [preSave_balance]; omega
    exact derivePaymentStatus_neg hneg

/-- Witness for C5: a payment of -5 in cash on the scenario's record. -/
theorem recordPayment_any_amount_witness :
    (recordPayment sampleEnv scenarioStore 10 negativePayment).2.status = 200 ∧
    (recordPayment sampleEnv scenarioStore 10 negativePayment).2.success = true ∧
    (∀ amount : Int,
      (recordPayment sampleEnv scenarioStore 10
        { negativePayment with amount := amount }).2.status = 200) ∧
    ∃ (p : Payment) (r2 : FeeRecord), p.amount = negativePayment.amount ∧
      (recordPayment sampleEnv scenarioStore 10 negativePayment).1.findById 10 = some r2 ∧
      r2.payments = scenarioRecord.payments ++ [p] ∧
      r2.totalPaid = scenarioRecord.sumPayments + negativePayment.amount ∧
      (scenarioRecord.totalPaid = scenarioRecord.sumPayments →
        r2.totalPaid = scenarioRecord.totalPaid + negativePayment.amount) ∧
      (r2.totalPaid > r2.totalAmount → r2.paymentStatus = .overpaid) :=
  recordPayment_any_amount sampleEnv scenarioStore 10 negativePayment scenarioRecord
    (by decide) (by decide) (by decide) (by decide) (by decide)

/-- C6: a CreateRecord request by an authorised user whose (student, academicYear, term)
matches a stored record answers 400 and leaves the store unchanged; and after any sequence
of CreateRecord requests from the empty store no two records share that key. -/
theorem createRecord_rejects_duplicate :
    (∀ (env : Env) (courses : List Course) (s : FeeStore) (body : CreateFeeBody),
      authorize [.finance, .admin] env.user = true →
      (s.findOne body.student (body.academicYear.getD (getCurrentAcademicYear env.clock))
        (body.term.getD (getCurrentTerm env.clock))).isSome = true →
      (createRecord env courses s body).2.status = 400 ∧
      (createRecord env courses s body).2.success = false ∧
      (createRecord env courses s body).1 = s) ∧
    (∀ reqs : List (Env × List Course × CreateFeeBody),
      (runCreates [] reqs).Pairwise (fun a b => a.key ≠ b.key)) := by
  refine ⟨?_, fun reqs => runCreates_keys reqs [] List.Pairwise.nil⟩
  intro env courses s body hauth hdup
  obtain ⟨r, hr⟩ := Option.isSome_iff_exists.mp hdup
  simp only [createRecord, hauth, hr]
  exact ⟨rfl, rfl, rfl⟩

/-- Witness for C6: the scenario's request sent a second time. -/
theorem createRecord_rejects_duplicate_witness :
    (createRecord sampleEnv [] scenarioStore scenarioBody).2.status = 400 ∧
    (createRecord sampleEnv [] scenarioStore scenarioBody).2.success = false ∧
    (createRecord sampleEnv [] scenarioStore scenarioBody).1 = scenarioStore :=
  createRecord_rejects_duplicate.1 sampleEnv [] scenarioStore scenarioBody (by decide)
    (by decide)

/-- C7: when the clock of the request is on a Saturday or Sunday, or its hour is before 6
or from 17 on, Verify and SelfServiceReceipt both answer with a failure (400, or 403 for a
user of the wrong role) and leave the gate-pass store unchanged, whatever the admission
number, the users and the fee records. -/
theorem closed_hours_rejected (env : Env) (users : List User) (fees : FeeStore)
    (g : GatepassStore) (adm : String) (h : env.clock.closed) :
    (verify env users fees g adm).2.success = false ∧
    ((verify env users fees g adm).2.status = 400 ∨
      (verify env users fees g adm).2.status = 403) ∧
    (verify env users fees g adm).1 = g ∧
    (studentReceipt env fees g).2.success = false ∧
    ((studentReceipt env fees g).2.status = 400 ∨ (studentReceipt env fees g).2.status = 403) ∧
    (studentReceipt env fees g).1 = g := by
  have ho : (isWithinOperatingHours env.clock).isOpen = false := by
    cases hc : (isWithinOperatingHours env.clock).isOpen with
    | false => rfl
    | true => exact absurd h ((isOpen_iff _).mp hc)
  have hv : (verify env users fees g adm).2.success = false ∧
      ((verify env users fees g adm).2.status = 400 ∨
        (verify env users fees g adm).2.status = 403) ∧
      (verify env users fees g adm).1 = g := by
    unfold verify
    split
    · exact ⟨rfl, Or.inr rfl, rfl⟩
    · simp only [ho]
      exact ⟨rfl, Or.inl rfl, rfl⟩
  have hs : (studentReceipt env fees g).2.success = false ∧
      ((studentReceipt env fees g).2.status = 400 ∨
        (studentReceipt env fees g).2.status = 403) ∧
      (studentReceipt env fees g).1 = g := by
    unfold studentReceipt
    split
    · exact ⟨rfl, Or.inr rfl, rfl⟩
    · simp only [ho]
      exact ⟨rfl, Or.inl rfl, rfl⟩
  exact ⟨hv.1, hv.2.1, hv.2.2, hs.1, hs.2.1, hs.2.2⟩

/-- Witness for C7: Saturday at 10:00, for the student of the paid record. -/
theorem closed_hours_rejected_witness :
    saturdayEnv.clock.closed ∧
    (verify saturdayEnv [sampleStudent] paidStore [] "KTC/001").2.success = false ∧
    ((verify saturdayEnv [sampleStudent] paidStore [] "KTC/001").2.status = 400 ∨
      (verify saturdayEnv [sampleStudent] paidStore [] "KTC/001").2.status = 403) ∧
    (verify saturdayEnv [sampleStudent] paidStore [] "KTC/001").1 = [] ∧
    (studentReceipt saturdayEnv paidStore []).2.success = false ∧
    ((studentReceipt saturdayEnv paidStore []).2.status = 400 ∨
      (studentReceipt saturdayEnv paidStore []).2.status = 403) ∧
    (studentReceipt saturdayEnv paidStore []).1 = [] :=
  ⟨by decide, closed_hours_rejected saturdayEnv [sampleStudent] paidStore [] "KTC/001"
    (by decide)⟩

/-- C8, the code at the failing input: Verify for the student of the paid record on Tuesday
at 10:00 passes the operating-hours, student, duplicate and fee-record checks, and its
permission check decides verified; yet the answer is 500 with "Error verifying student",
it carries no gate-pass, and the store stays empty.  The `gatepassData` of the route has no
`verificationDay` and no `expiryTime`, both required, so `Gatepass.create` throws before
the hook that would set them.  Every request that passes the four checks is answered this
way, whatever the decision. -/
theorem verify_answers_500 :
    currentFee paidStore 7 gateEnv.clock = some paidRecord ∧
    (verifyDecision gateEnv sampleStudent paidRecord).verificationStatus = .verified ∧
    (verifyData gateEnv sampleStudent paidRecord).verificationDay = none ∧
    (verifyData gateEnv sampleStudent paidRecord).expiryTime = none ∧
    verify gateEnv [sampleStudent] paidStore [] "ktc/001"
      = ([], GateResponse.plain 500 "Error verifying student") ∧
    ∀ (env : Env) (users : List User) (fees : FeeStore) (g : GatepassStore) (adm : String)
      (student : User) (fee : FeeRecord),
      authorize [.gatepass, .admin] env.user = true → ¬ env.clock.closed →
      findStudent users adm = some student →
      g.findRecent student.id env.clock.now = none →
      currentFee fees student.id env.clock = some fee →
      verify env users fees g adm = (g, GateResponse.plain 500 "Error verifying student") := by
  refine ⟨by decide, by decide, rfl, rfl, by decide, ?_⟩
  intro env users fees g adm student fee hauth hopen hstudent hrecent hfee
  exact verify_checked hauth hopen hstudent hrecent hfee

/-- C9, the code at the failing input: Verify on Tuesday at 10:00 for the student of the
scenario's record, which is unpaid (balance 60500) with no override and no recent pass.
The permission check decides denied, but no denied record is persisted and the answer is
not the denial: it is 500 with "Error verifying student", and the store stays empty. -/
theorem verify_unpaid_answers_500 :
    currentFee scenarioStore 7 gateEnv.clock = some scenarioRecord ∧
    scenarioRecord.paymentStatus = .unpaid ∧ scenarioRecord.gatepassStatus.allowed = false ∧
    scenarioRecord.balance = 60500 ∧
    (verifyDecision gateEnv sampleStudent scenarioRecord).verificationStatus = .denied ∧
    (verify gateEnv [sampleStudent] scenarioStore [] "ktc/001").2.status = 500 ∧
    (verify gateEnv [sampleStudent] scenarioStore [] "ktc/001").2.message
      = "Error verifying student" ∧
    (verify gateEnv [sampleStudent] scenarioStore [] "ktc/001").2.gatepass = none ∧
    (verify gateEnv [sampleStudent] scenarioStore [] "ktc/001").1 = [] := by
  decide

/-- C10, the code at the failing input: on Tuesday at 10:00 neither Verify (for the paid
student) nor SelfServiceReceipt (by the paid student) creates a record, so no record gets
an expiry time at all; both answer 500.  The hook that sets `expiryTime` to two hours after
its clock reading does so only for data that already carries the required
`verificationDay` and `expiryTime`, which neither route supplies; no request to either
route ever writes. -/
theorem expiry_never_set :
    verify gateEnv [sampleStudent] paidStore [] "KTC/001"
      = ([], GateResponse.plain 500 "Error verifying student") ∧
    studentReceipt studentEnv paidStore []
      = ([], GateResponse.plain 500 "Error generating security receipt") ∧
    (match Gatepass.build gateEnv
        { verifyData gateEnv sampleStudent paidRecord with
          verificationDay := some "Tuesday", expiryTime := some 0 } with
      | .ok doc => some (doc.verificationTime, doc.expiryTime)
      | .error _ => none) = some (1772521200000, 1772521200000 + 7200000) ∧
    ∀ (env : Env) (users : List User) (fees : FeeStore) (g : GatepassStore) (adm : String),
      (verify env users fees g adm).1 = g ∧ (studentReceipt env fees g).1 = g := by
  refine ⟨by decide, by decide, by decide, ?_⟩
  intro env users fees g adm
  exact ⟨verify_unchanged env users fees g adm, studentReceipt_unchanged env fees g⟩

/-! ## Lemmas on MarkUsed and the duplicate check -/

theorem find?_of_unique {α : Type} (l : List α) (f : α → Bool) (p : α)
    (hp : p ∈ l) (hf : f p = true) (hu : ∀ r ∈ l, f r = true → r = p) :
    l.find? f = some p := by
  induction l with
  | nil => simp at hp
  | cons x xs ih =>
    by_cases hx : f x = true
    · have hxp : x = p := hu x (List.mem_cons_self x xs) hx
      subst hxp
      simp [List.find?_cons, hx]
    · have hne : p ≠ x := fun h => hx (h ▸ hf)
      have hp2 : p ∈ xs := by
        rcases List.mem_cons.mp hp with h | h
        · exact absurd h hne
        · exact h
      have hx2 : f x = false := by simpa using hx
      rw [List.find?_cons, hx2]
      exact ih hp2 (fun r hr => hu r (List.mem_cons_of_mem x hr))

theorem mem_gatepass_save {g : GatepassStore} {p doc : Gatepass} (hp : p ∈ g)
    (hid : p.id = doc.id) : doc ∈ g.save doc := by
  simp only [GatepassStore.save, List.mem_map]
  exact ⟨p, hp, by simp [hid]⟩

theorem findRecent_found {g : GatepassStore} {student : ObjectId} {now : Millis} {p : Gatepass}
    (hp : p ∈ g) (hs : p.student = student) (hv : p.verificationStatus = .verified)
    (ht : now - 7200000 ≤ p.verificationTime) :
    ∃ r : Gatepass, g.findRecent student now = some r := by
  have hsome : (g.findRecent student now).isSome = true := by
    unfold GatepassStore.findRecent
    rw [List.find?_isSome]
    refine ⟨p, hp, ?_⟩
    have ht2 : now ≤ p.verificationTime + 7200000 := sub_le_iff_le_add.mp ht
    simp [hs, hv, ht2]
  exact Option.isSome_iff_exists.mp hsome

/-- A successful MarkUsed found a verified, unused, unexpired record and stored it as used. -/
theorem markUsed_ok {env : Env} {g : GatepassStore} {code : String} {p : Gatepass}
    (hfound : g.findVerified code = some p) (hok : (markUsed env g code).2.status = 200) :
    (markUsed env g code).1
      = g.save { p with usedAt := some env.clock.now, verificationStatus := .used } := by
  unfold markUsed at hok ⊢
  split at hok
  · simp [gateForbidden, GateResponse.plain] at hok
  · rename_i hauth
    rw [if_neg hauth]
    simp only [hfound] at hok ⊢
    split at hok
    · simp [GateResponse.plain] at hok
    · rename_i hu
      rw [if_neg hu]
      split at hok
      · simp [GateResponse.plain] at hok
      · rename_i he
        rw [if_neg he]

theorem findRecent_after_use {g : GatepassStore} {p : Gatepass} {student : ObjectId}
    {now t : Millis}
    (hother : ∀ r ∈ g, r.id ≠ p.id →
      ¬ (r.student = student ∧ r.verificationStatus = .verified ∧
          now - 7200000 ≤ r.verificationTime)) :
    GatepassStore.findRecent
      (g.save { p with usedAt := some t, verificationStatus := .used }) student now = none := by
  unfold GatepassStore.findRecent GatepassStore.save
  rw [List.find?_eq_none]
  intro x hx
  rw [List.mem_map] at hx
  obtain ⟨r, hr, rfl⟩ := hx
  by_cases hid : r.id = p.id
  · simp [hid]
  · have hid2 : ¬ r.id = ({ p with usedAt := some t, verificationStatus := .used } : Gatepass).id :=
      hid
    rw [if_neg hid2]
    have h := hother r hr hid
    have h2 : (2 : Int) * 60 * 60 * 1000 = 7200000 := by norm_num
    simp only [h2, Bool.and_eq_true, beq_iff_eq, decide_eq_true_eq, ge_iff_le, not_and]
    intro hs hv
    exact h ⟨hs.1, hv, hs.2⟩

theorem expired_not_active {fee : FeeRecord} {now : Millis} (h : overrideExpired fee now) :
    ¬ overrideActive fee now := by
  obtain ⟨-, t, ht, hlt⟩ := h
  rintro ⟨-, h1 | ⟨u, hu, hle⟩⟩
  · rw [h1] at ht; cases ht
  · rw [hu] at ht
    cases ht
    exact absurd hlt (not_lt.mpr hle)

/-- Saving a document that is not verified does not raise the number of active passes. -/
theorem activePasses_save_le (g : GatepassStore) (doc : Gatepass) (student : ObjectId)
    (now : Millis) (h : doc.verificationStatus ≠ .verified) :
    (activePasses (g.save doc) student now).length ≤ (activePasses g student now).length := by
  have hd : (doc.student == student && decide (doc.active now)) = false := by
    simp [Gatepass.active, h]
  induction g with
  | nil => simp [GatepassStore.save, activePasses]
  | cons x xs ih =>
    simp only [GatepassStore.save, activePasses, List.map_cons, List.filter_cons] at ih ⊢
    by_cases hx : x.id = doc.id
    · rw [if_pos hx, hd]
      simp only [Bool.false_eq_true, if_false]
      split
      · simp only [List.length_cons]; omega
      · exact ih
    · rw [if_neg hx]
      split
      · simp only [List.length_cons]; omega
      · exact ih

/-- MarkUsed leaves the store as it is or saves a document that is not verified. -/
theorem markUsed_store (env : Env) (g : GatepassStore) (code : String) :
    (markUsed env g code).1 = g ∨
      ∃ doc : Gatepass, doc.verificationStatus ≠ .verified ∧
        (markUsed env g code).1 = g.save doc := by
  unfold markUsed
  split
  · exact Or.inl rfl
  · split
    · exact Or.inl rfl
    · split
      · exact Or.inl rfl
      · split
        · exact Or.inr ⟨_, by simp, rfl⟩
        · exact Or.inr ⟨_, by simp, rfl⟩

/-- Receipt lookup leaves the store as it is or saves a document that is not verified. -/
theorem getReceipt_store (env : Env) (g : GatepassStore) (code : String) :
    (getReceipt env g code).1 = g ∨
      ∃ doc : Gatepass, doc.verificationStatus ≠ .verified ∧
        (getReceipt env g code).1 = g.save doc := by
  unfold getReceipt
  split
  · exact Or.inl rfl
  · split
    · exact Or.inr ⟨_, by simp, rfl⟩
    · exact Or.inl rfl

/-- No request to the gate-pass verifier raises the number of active passes of a student. -/
theorem gateStep_active_le (users : List User) (fees : FeeStore) (g : GatepassStore)
    (step : Env × GateOp) (student : ObjectId) (now : Millis) :
    (activePasses (gateStep users fees g step).1 student now).length
      ≤ (activePasses g student now).length := by
  obtain ⟨env, op⟩ := step
  cases op with
  | verify adm =>
    simp only [gateStep]
    rw [verify_unchanged]
  | studentReceipt =>
    simp only [gateStep]
    rw [studentReceipt_unchanged]
  | markUsed code =>
    simp only [gateStep]
    rcases markUsed_store env g code with h | ⟨doc, hdoc, h⟩
    · rw [h]
    · rw [h]; exact activePasses_save_le g doc student now hdoc
  | getReceipt code =>
    simp only [gateStep]
    rcases getReceipt_store env g code with h | ⟨doc, hdoc, h⟩
    · rw [h]
    · rw [h]; exact activePasses_save_le g doc student now hdoc

theorem runGateOps_active_le (users : List User) (fees : FeeStore)
    (steps : List (Env × GateOp)) (student : ObjectId) (now : Millis) :
    ∀ g : GatepassStore,
      (activePasses (runGateOps users fees g steps) student now).length
        ≤ (activePasses g student now).length := by
  induction steps with
  | nil => intro g; exact le_refl _
  | cons step rest ih =>
    intro g
    exact le_trans (ih (gateStep users fees g step).1)
      (gateStep_active_le users fees g step student now)

/-! ## Claims C11 to C18 -/

/-- C11: in every state reached from the empty gate-pass store by any sequence of Verify,
SelfServiceReceipt, MarkUsed and receipt lookup requests, a student has at most one active
gate-pass record (verified, not used, expiring later than the time of observation).  More
is true: from any store, no sequence of requests raises the number of active records of a
student, since Verify and SelfServiceReceipt never write and the other two only store
records that are used or expired. -/
theorem at_most_one_active_pass (users : List User) (fees : FeeStore)
    (steps : List (Env × GateOp)) (student : ObjectId) (now : Millis) :
    (activePasses (runGateOps users fees [] steps) student now).length ≤ 1 ∧
    ∀ g : GatepassStore,
      (activePasses (runGateOps users fees g steps) student now).length
        ≤ (activePasses g student now).length := by
  refine ⟨?_, runGateOps_active_le users fees steps student now⟩
  have h := runGateOps_active_le users fees steps student now []
  have h0 : (activePasses [] student now).length = 0 := rfl
  omega

/-- C12: when a student has a verified gate-pass record whose verificationTime is within the
2 hours before the current time, Verify by an authorised user during operating hours answers
400 with 'A gatepass was already issued within the last 2 hours' and leaves the store
unchanged. -/
theorem verify_rejects_recent (env : Env) (users : List User) (fees : FeeStore)
    (g : GatepassStore) (adm : String) (student : User) (p : Gatepass)
    (hauth : authorize [.gatepass, .admin] env.user = true)
    (hopen : ¬ env.clock.closed)
    (hstudent : findStudent users adm = some student)
    (hp : p ∈ g) (hs : p.student = student.id)
    (hv : p.verificationStatus = .verified)
    (ht : env.clock.now - 7200000 ≤ p.verificationTime) :
    (verify env users fees g adm).2.status = 400 ∧
    (verify env users fees g adm).2.success = false ∧
    (verify env users fees g adm).2.message
      = "A gatepass was already issued within the last 2 hours" ∧
    (verify env users fees g adm).1 = g := by
  obtain ⟨r, hr⟩ := findRecent_found hp hs hv ht
  have ho : (isWithinOperatingHours env.clock).isOpen = true := (isOpen_iff _).mpr hopen
  simp only [verify, hauth, ho, hstudent, hr]
  exact ⟨rfl, rfl, rfl, rfl⟩

/-- Witness for C12: the sample pass of 10:00 and a Verify at 11:00. -/
theorem verify_rejects_recent_witness :
    (verify elevenEnv [sampleStudent] paidStore [samplePass] "KTC/001").2.status = 400 ∧
    (verify elevenEnv [sampleStudent] paidStore [samplePass] "KTC/001").2.success = false ∧
    (verify elevenEnv [sampleStudent] paidStore [samplePass] "KTC/001").2.message
      = "A gatepass was already issued within the last 2 hours" ∧
    (verify elevenEnv [sampleStudent] paidStore [samplePass] "KTC/001").1 = [samplePass] :=
  verify_rejects_recent elevenEnv [sampleStudent] paidStore [samplePass] "KTC/001"
    sampleStudent samplePass (by decide) (by decide) (by decide) (by decide) (by decide)
    (by decide) (by decide)

/-- C13, counterexample: a pass of the paid student, verified at 10:00, blocks a Verify at
11:00 with the duplicate answer; once it has been marked used at 10:01, the same Verify at
11:00, still within 2 hours of the verificationTime, is no longer rejected by the duplicate
check: the duplicate query finds nothing, and the request goes on past it (to the 500 of
`Gatepass.create`). -/
theorem used_pass_does_not_block :
    (verify elevenEnv [sampleStudent] paidStore [samplePass] "KTC/001").2.message
      = "A gatepass was already issued within the last 2 hours" ∧
    (markUsed tenOneEnv [samplePass] "3f2a9c1e").2.status = 200 ∧
    (markUsed tenOneEnv [samplePass] "3f2a9c1e").1.map
      (fun p => (p.student, p.verificationStatus, p.usedAt, p.verificationTime))
      = [(7, VerificationStatus.used, some 1772521260000, 1772521200000)] ∧
    elevenEnv.clock.now < 1772521200000 + 7200000 ∧
    GatepassStore.findRecent (markUsed tenOneEnv [samplePass] "3f2a9c1e").1 7
      elevenEnv.clock.now = none ∧
    (verify elevenEnv [sampleStudent] paidStore
      (markUsed tenOneEnv [samplePass] "3f2a9c1e").1 "KTC/001").2.message
      ≠ "A gatepass was already issued within the last 2 hours" ∧
    (verify elevenEnv [sampleStudent] paidStore
      (markUsed tenOneEnv [samplePass] "3f2a9c1e").1 "KTC/001").2.status = 500 := by
  decide

/-- C13 as amended: once MarkUsed has succeeded on a pass, the duplicate check of Verify no
longer matches that record (it matches records whose status is still verified); so a
further Verify that reaches the duplicate check, the student having no other verified
record within the 2 hours, is not answered with the duplicate rejection. -/
theorem verify_after_use (env1 env2 : Env) (users : List User) (fees : FeeStore)
    (g : GatepassStore) (code adm : String) (p : Gatepass) (student : User)
    (hfound : g.findVerified code = some p)
    (hused : (markUsed env1 g code).2.status = 200)
    (hauth : authorize [.gatepass, .admin] env2.user = true)
    (hopen : ¬ env2.clock.closed)
    (hstudent : findStudent users adm = some student)
    (hother : ∀ r ∈ g, r.id ≠ p.id →
      ¬ (r.student = student.id ∧ r.verificationStatus = .verified ∧
          env2.clock.now - 7200000 ≤ r.verificationTime)) :
    GatepassStore.findRecent (markUsed env1 g code).1 student.id env2.clock.now = none ∧
    (verify env2 users fees (markUsed env1 g code).1 adm).2.message
      ≠ "A gatepass was already issued within the last 2 hours" ∧
    (verify env2 users fees (markUsed env1 g code).1 adm).2.gatepass = none := by
  have hstore := markUsed_ok hfound hused
  have hrecent : GatepassStore.findRecent (markUsed env1 g code).1 student.id env2.clock.now
      = none := by
    rw [hstore]; exact findRecent_after_use hother
  refine ⟨hrecent, ?_⟩
  have ho : (isWithinOperatingHours env2.clock).isOpen = true := (isOpen_iff _).mpr hopen
  cases hfee : currentFee fees student.id env2.clock with
  | none =>
    simp [verify, hauth, ho, hstudent, hrecent, hfee, GateResponse.plain]
  | some fee =>
    rw [verify_checked hauth hopen hstudent hrecent hfee]
    simp [GateResponse.plain]

/-- Witness for C13 as amended: the sample pass marked used at 10:01, Verify at 11:00. -/
theorem verify_after_use_witness :
    GatepassStore.findRecent (markUsed tenOneEnv [samplePass] "3f2a9c1e").1 sampleStudent.id
      elevenEnv.clock.now = none ∧
    (verify elevenEnv [sampleStudent] paidStore
      (markUsed tenOneEnv [samplePass] "3f2a9c1e").1 "KTC/001").2.message
      ≠ "A gatepass was already issued within the last 2 hours" ∧
    (verify elevenEnv [sampleStudent] paidStore
      (markUsed tenOneEnv [samplePass] "3f2a9c1e").1 "KTC/001").2.gatepass = none :=
  verify_after_use tenOneEnv elevenEnv [sampleStudent] paidStore [samplePass] "3f2a9c1e"
    "KTC/001" samplePass sampleStudent (by decide) (by decide) (by decide)
    (by decide) (by decide) (by decide)

/-- C14: for a verified, unused record that MarkUsed finds by its code, an authorised
MarkUsed answers 400 'This gatepass has expired' and stores the record with status expired
and usedAt still unset when expiryTime is earlier than the current time; otherwise it
answers 200 and stores the record with usedAt set and status used. -/
theorem markUsed_outcome (env : Env) (g : GatepassStore) (code : String) (p : Gatepass)
    (hauth : authorize [.gatepass, .admin] env.user = true)
    (hp : p ∈ g) (hcode : p.verificationCode = toUpperCase code)
    (hv : p.verificationStatus = .verified) (hu : p.usedAt = none)
    (huniq : ∀ r ∈ g, r.verificationCode = p.verificationCode → r = p) :
    (p.expiryTime < env.clock.now →
      (markUsed env g code).2.status = 400 ∧
      (markUsed env g code).2.message = "This gatepass has expired" ∧
      (markUsed env g code).1 = g.save { p with verificationStatus := .expired } ∧
      ({ p with verificationStatus := .expired } : Gatepass) ∈ (markUsed env g code).1 ∧
      ({ p with verificationStatus := .expired } : Gatepass).usedAt = none) ∧
    (¬ p.expiryTime < env.clock.now →
      (markUsed env g code).2.status = 200 ∧
      (markUsed env g code).2.success = true ∧
      (markUsed env g code).1
        = g.save { p with usedAt := some env.clock.now, verificationStatus := .used } ∧
      ({ p with usedAt := some env.clock.now, verificationStatus := .used } : Gatepass)
        ∈ (markUsed env g code).1) := by
  have hfound : g.findVerified code = some p := by
    unfold GatepassStore.findVerified
    apply find?_of_unique g _ p hp
    · simp [hcode, hv]
    · intro r hr hf
      simp only [Bool.and_eq_true, beq_iff_eq] at hf
      exact huniq r hr (by rw [hf.1, hcode])
  have hu2 : p.usedAt.isSome = false := by rw [hu]; rfl
  constructor
  · intro hlt
    have hgt : env.clock.now > p.expiryTime := hlt
    have hstore : (markUsed env g code).1 = g.save { p with verificationStatus := .expired } := by
      simp [markUsed, hauth, hfound, hu2, hgt]
    refine ⟨?_, ?_, hstore, ?_, hu⟩
    · simp [markUsed, hauth, hfound, hu2, hgt, GateResponse.plain]
    · simp [markUsed, hauth, hfound, hu2, hgt, GateResponse.plain]
    · rw [hstore]; exact mem_gatepass_save hp rfl
  · intro hge
    have hgt : ¬ env.clock.now > p.expiryTime := hge
    have hstore : (markUsed env g code).1
        = g.save { p with usedAt := some env.clock.now, verificationStatus := .used } := by
      simp [markUsed, hauth, hfound, hu2, hgt]
    refine ⟨?_, ?_, hstore, ?_⟩
    · simp [markUsed, hauth, hfound, hu2, hgt]
    · simp [markUsed, hauth, hfound, hu2, hgt]
    · rw [hstore]; exact mem_gatepass_save hp rfl

/-- Witness for C14: the sample pass, valid until 12:00, marked used at 13:00 and at 10:01. -/
theorem markUsed_outcome_witness :
    samplePass.expiryTime < thirteenEnv.clock.now ∧ ¬ samplePass.expiryTime < tenOneEnv.clock.now ∧
    (markUsed thirteenEnv [samplePass] "3f2a9c1e").2.status = 400 ∧
    (markUsed thirteenEnv [samplePass] "3f2a9c1e").1
      = GatepassStore.save [samplePass] { samplePass with verificationStatus := .expired } ∧
    (markUsed tenOneEnv [samplePass] "3f2a9c1e").2.status = 200 ∧
    (markUsed tenOneEnv [samplePass] "3f2a9c1e").1
      = GatepassStore.save [samplePass]
          { samplePass with usedAt := some tenOneEnv.clock.now, verificationStatus := .used } :=
  ⟨by decide, by decide,
    ((markUsed_outcome thirteenEnv [samplePass] "3f2a9c1e" samplePass (by decide) (by decide)
      (by decide) (by decide) (by decide) (by decide)).1 (by decide)).1,
    ((markUsed_outcome thirteenEnv [samplePass] "3f2a9c1e" samplePass (by decide) (by decide)
      (by decide) (by decide) (by decide) (by decide)).1 (by decide)).2.2.1,
    ((markUsed_outcome tenOneEnv [samplePass] "3f2a9c1e" samplePass (by decide) (by decide)
      (by decide) (by decide) (by decide) (by decide)).2 (by decide)).1,
    ((markUsed_outcome tenOneEnv [samplePass] "3f2a9c1e" samplePass (by decide) (by decide)
      (by decide) (by decide) (by decide) (by decide)).2 (by decide)).2.2.1⟩

/-- C15, the code at the failing input: a verified pass of the paid student, issued at
10:00, is marked used at 10:01 (usedAt is set, the status is used); a second MarkUsed on
the same code at 11:00 answers 404 'Valid gatepass not found', not the 400 'already used'
answer. -/
theorem second_markUsed_not_found :
    (markUsed tenOneEnv [samplePass] "3f2a9c1e").2.status = 200 ∧
    (markUsed tenOneEnv [samplePass] "3f2a9c1e").1.map
      (fun p => (p.verificationCode, p.verificationStatus, p.usedAt))
      = [("3F2A9C1E", VerificationStatus.used, some 1772521260000)] ∧
    (markUsed elevenEnv (markUsed tenOneEnv [samplePass] "3f2a9c1e").1
      "3f2a9c1e").2.status = 404 ∧
    (markUsed elevenEnv (markUsed tenOneEnv [samplePass] "3f2a9c1e").1
      "3f2a9c1e").2.message = "Valid gatepass not found" := by
  decide

/-- C16, the code at the failing input: a used record (issued at 10:00, used at 10:01) and
a denied record (issued at 10:00) both have status expired after a receipt lookup by code at
13:00, once their expiryTime has passed. -/
theorem lookup_expires_terminal_records :
    (markUsed tenOneEnv [samplePass] "3f2a9c1e").1.map
      (fun p => p.verificationStatus) = [VerificationStatus.used] ∧
    (getReceipt thirteenEnv (markUsed tenOneEnv [samplePass] "3f2a9c1e").1
      "3f2a9c1e").1.map (fun p => (p.verificationStatus, p.usedAt))
      = [(VerificationStatus.expired, some 1772521260000)] ∧
    [deniedPass].map (fun p => p.verificationStatus) = [VerificationStatus.denied] ∧
    (getReceipt thirteenEnv [deniedPass] "7b0d4e2a").2.status = 400 ∧
    (getReceipt thirteenEnv [deniedPass] "7b0d4e2a").1.map (fun p => p.verificationStatus)
      = [VerificationStatus.expired] := by
  decide

/-- C17, the code at the failing input: SelfServiceReceipt by the student of the paid record
on Tuesday at 10:00, with no active receipt: the claim has one verified record persisted,
but the answer is 500 with "Error generating security receipt" and the store stays empty,
because the `gatepassData` of the route lacks the required `verificationDay` and
`expiryTime`.  Under a lapsed override on an unpaid record the request is not denied with
403 either: the route does not look at `allowedUntil`, goes on to `Gatepass.create`, and
answers 500.  Every request that gets past the unpaid check is answered 500. -/
theorem studentReceipt_answers_500 :
    currentFee paidStore sampleStudent.id studentEnv.clock = some paidRecord ∧
    paidRecord.paymentStatus = .paid ∧
    studentReceipt studentEnv paidStore []
      = ([], GateResponse.plain 500 "Error generating security receipt") ∧
    currentFee lapsedOverrideStore sampleStudent.id studentEnv.clock = some lapsedRecord ∧
    lapsedRecord.paymentStatus = .unpaid ∧
    ¬ overrideActive lapsedRecord studentEnv.clock.now ∧
    studentReceipt studentEnv lapsedOverrideStore []
      = ([], GateResponse.plain 500 "Error generating security receipt") ∧
    ∀ (env : Env) (fees : FeeStore) (g : GatepassStore) (fee : FeeRecord),
      authorize [.student] env.user = true → ¬ env.clock.closed →
      stillActive (g.findRecent env.user.id env.clock.now) env.clock.now = none →
      currentFee fees env.user.id env.clock = some fee →
      ¬ (fee.paymentStatus = .unpaid ∧ fee.gatepassStatus.allowed = false) →
      studentReceipt env fees g
        = (g, GateResponse.plain 500 "Error generating security receipt") := by
  refine ⟨by decide, by decide, by decide, by decide, by decide,
    expired_not_active ⟨by decide, 1772434800000, by decide, by decide⟩, by decide, ?_⟩
  intro env fees g fee hauth hopen hrecent hfee hallowed
  exact studentReceipt_checked hauth hopen hrecent hfee hallowed

/-- C18: for every month, the term under which Verify and SelfServiceReceipt look up the fee
record is the term `getCurrentTerm` returns: Term 1 for months 1 to 4, Term 2 for 5 to 8,
Term 3 for 9 to 12; and the lookup uses the year and term CreateRecord stores by default. -/
theorem gatepassTerm_eq_getCurrentTerm (c : Clock) :
    gatepassTerm c = getCurrentTerm c ∧
    (c.month.val + 1 ≤ 4 → gatepassTerm c = "Term 1") ∧
    (5 ≤ c.month.val + 1 ∧ c.month.val + 1 ≤ 8 → gatepassTerm c = "Term 2") ∧
    (9 ≤ c.month.val + 1 → gatepassTerm c = "Term 3") ∧
    (∀ (fees : FeeStore) (student : ObjectId),
      currentFee fees student c
        = fees.findOne student (getCurrentAcademicYear c) (getCurrentTerm c)) := by
  have key : ∀ m : Fin 12,
      ("Term " ++ toString (m.val / 4 + 1)
          = (if 1 ≤ m.val + 1 ∧ m.val + 1 ≤ 4 then "Term 1"
             else if 5 ≤ m.val + 1 ∧ m.val + 1 ≤ 8 then "Term 2"
             else if 9 ≤ m.val + 1 ∧ m.val + 1 ≤ 12 then "Term 3"
             else "Term 1")) ∧
      (m.val + 1 ≤ 4 → "Term " ++ toString (m.val / 4 + 1) = "Term 1") ∧
      (5 ≤ m.val + 1 ∧ m.val + 1 ≤ 8 → "Term " ++ toString (m.val / 4 + 1) = "Term 2") ∧
      (9 ≤ m.val + 1 → "Term " ++ toString (m.val / 4 + 1) = "Term 3") := by
    decide
  obtain ⟨h0, h1, h2, h3⟩ := key c.month
  have heq : gatepassTerm c = getCurrentTerm c := h0
  refine ⟨heq, h1, h2, h3, ?_⟩
  intro fees student
  have hy : getCurrentAcademicYear c = toString c.year := by
    unfold getCurrentAcademicYear
    simp
  rw [currentFee, heq, hy]

/-! ## Lemmas on the exam results -/

theorem calculateGrade_band (p : ℚ) : gradeBand p (calculateGrade p) := by
  unfold calculateGrade
  split_ifs with h1 h2 h3 h4 h5
  · exact h1
  · exact ⟨h2, not_le.mp h1⟩
  · exact ⟨h3, not_le.mp h2⟩
  · exact ⟨h4, not_le.mp h3⟩
  · exact ⟨h5, not_le.mp h4⟩
  · exact not_le.mp h5

theorem gradeBand_unique (p : ℚ) (g : Grade) (h : gradeBand p g) : calculateGrade p = g := by
  unfold calculateGrade
  cases g <;> simp only [gradeBand] at h <;> split_ifs <;> first | rfl | (exfalso; linarith [h.1, h.2]) | (exfalso; linarith)

theorem upsertResult_nil (env : Env) (tm : ℚ) (i : ResultInput) :
    ∃ r : ExamResult, upsertResult env tm [] i = [r] ∧ r.student = i.studentId ∧
      r.score = i.score ∧ r.consistent tm := by
  refine ⟨_, rfl, rfl, rfl, rfl, rfl⟩

theorem upsertResult_cons (env : Env) (tm : ℚ) (x : ExamResult) (xs : List ExamResult)
    (i : ResultInput) :
    upsertResult env tm (x :: xs) i =
      if x.student == i.studentId then
        ({ x with
          student := i.studentId
          score := i.score
          percentage := some (i.score / tm * 100)
          grade := some (calculateGrade (i.score / tm * 100))
          remarks := i.remarks
          markedBy := some env.user.id
          markedAt := some env.clock.now } : ExamResult) :: xs
      else x :: upsertResult env tm xs i := by
  unfold upsertResult
  dsimp only
  rw [List.findIdx?_cons]
  by_cases hx : (x.student == i.studentId) = true
  · simp only [hx, if_true]
    rfl
  · have hx2 : (x.student == i.studentId) = false := by simpa using hx
    simp only [hx2, Bool.false_eq_true, if_false]
    rw [List.findIdx?_succ]
    cases hfind : List.findIdx? (fun r => r.student == i.studentId) xs 0 with
    | none => rfl
    | some k => rfl

/-- After one iteration the first result of the submitted student is the written one. -/
theorem upsertResult_written (env : Env) (tm : ℚ) (results : List ExamResult)
    (i : ResultInput) :
    ∃ r : ExamResult,
      (upsertResult env tm results i).find? (fun r => r.student == i.studentId) = some r ∧
      r.score = i.score ∧ r.consistent tm := by
  induction results with
  | nil =>
    obtain ⟨r, hr, hs, hsc, hc⟩ := upsertResult_nil env tm i
    exact ⟨r, by simp [hr, hs], hsc, hc⟩
  | cons x xs ih =>
    rw [upsertResult_cons]
    by_cases hx : (x.student == i.studentId) = true
    · rw [if_pos hx]
      refine ⟨({ x with
          student := i.studentId
          score := i.score
          percentage := some (i.score / tm * 100)
          grade := some (calculateGrade (i.score / tm * 100))
          remarks := i.remarks
          markedBy := some env.user.id
          markedAt := some env.clock.now } : ExamResult), ?_, rfl, rfl, rfl⟩
      simp [List.find?_cons]
    · have hx2 : (x.student == i.studentId) = false := by simpa using hx
      rw [if_neg hx]
      obtain ⟨r, hr, hsc, hc⟩ := ih
      exact ⟨r, by rw [List.find?_cons, hx2]; exact hr, hsc, hc⟩

/-- One iteration leaves the first result of every other student as it was. -/
theorem upsertResult_other (env : Env) (tm : ℚ) (results : List ExamResult)
    (i : ResultInput) (s : ObjectId) (hs : i.studentId ≠ s) :
    (upsertResult env tm results i).find? (fun r => r.student == s)
      = results.find? (fun r => r.student == s) := by
  induction results with
  | nil =>
    obtain ⟨r, hr, hst, -⟩ := upsertResult_nil env tm i
    rw [hr]
    have : (r.student == s) = false := by rw [hst]; simpa using hs
    simp [List.find?_cons, this]
  | cons x xs ih =>
    rw [upsertResult_cons]
    by_cases hx : (x.student == i.studentId) = true
    · rw [if_pos hx]
      have hxs : x.student = i.studentId := by simpa using hx
      have h1 : (x.student == s) = false := by rw [hxs]; simpa using hs
      have h2 : (i.studentId == s) = false := by simpa using hs
      simp only [List.find?_cons, h1, h2]
    · rw [if_neg hx]
      simp only [List.find?_cons]
      rw [ih]

theorem foldl_upsert_other (env : Env) (tm : ℚ) (inputs : List ResultInput) (s : ObjectId)
    (hs : ∀ j ∈ inputs, j.studentId ≠ s) :
    ∀ results : List ExamResult,
      (inputs.foldl (upsertResult env tm) results).find? (fun r => r.student == s)
        = results.find? (fun r => r.student == s) := by
  induction inputs with
  | nil => intro results; rfl
  | cons i rest ih =>
    intro results
    rw [List.foldl_cons, ih (fun j hj => hs j (List.mem_cons_of_mem i hj))]
    exact upsertResult_other env tm results i s (hs i (List.mem_cons_self i rest))

/-- After the whole loop, the first result of every submitted student is consistent. -/
theorem foldl_upsert_consistent (env : Env) (tm : ℚ) (inputs : List ResultInput) :
    ∀ results : List ExamResult, ∀ i ∈ inputs, ∃ r : ExamResult,
      (inputs.foldl (upsertResult env tm) results).find? (fun r => r.student == i.studentId)
        = some r ∧ r.consistent tm := by
  induction inputs with
  | nil => intro results i hi; simp at hi
  | cons j rest ih =>
    intro results i hi
    rw [List.foldl_cons]
    by_cases hlater : ∃ k ∈ rest, k.studentId = i.studentId
    · obtain ⟨k, hk, hks⟩ := hlater
      obtain ⟨r, hr, hc⟩ := ih (upsertResult env tm results j) k hk
      exact ⟨r, by rw [← hks]; exact hr, hc⟩
    · have hnone : ∀ k ∈ rest, k.studentId ≠ i.studentId := fun k hk hks => hlater ⟨k, hk, hks⟩
      rcases List.mem_cons.mp hi with h | h
      · subst h
        rw [foldl_upsert_other env tm rest i.studentId hnone]
        obtain ⟨r, hr, -, hc⟩ := upsertResult_written env tm results i
        exact ⟨r, hr, hc⟩
      · exact absurd rfl (hnone i h)

theorem modifyFirst_find {α : Type} (p : α → Bool) (f : α → α) (hf : ∀ x, p (f x) = p x)
    (l : List α) : (modifyFirst p f l).find? p = (l.find? p).map f := by
  induction l with
  | nil => rfl
  | cons x xs ih =>
    unfold modifyFirst
    by_cases hx : p x = true
    · simp [hx, List.find?_cons, hf]
    · have hx2 : p x = false := by simpa using hx
      simp [hx2, List.find?_cons, ih]

theorem validate_iff (exam : Exam) :
    exam.validate = true ↔ ∀ r ∈ exam.results, 0 ≤ r.score := by
  simp [Exam.validate, List.all_eq_true]

/-- One iteration keeps the scores non-negative when the submitted score is. -/
theorem upsertResult_scores (env : Env) (tm : ℚ) (xs : List ExamResult) (i : ResultInput)
    (hxs : ∀ r ∈ xs, 0 ≤ r.score) (hi : 0 ≤ i.score) :
    ∀ r ∈ upsertResult env tm xs i, 0 ≤ r.score := by
  induction xs with
  | nil =>
    obtain ⟨r0, hr, -, hsc, -⟩ := upsertResult_nil env tm i
    rw [hr]
    intro r hmem
    rw [List.mem_singleton] at hmem
    rw [hmem, hsc]
    exact hi
  | cons x xs ih =>
    rw [upsertResult_cons]
    by_cases hx : (x.student == i.studentId) = true
    · rw [if_pos hx]
      intro r hmem
      rcases List.mem_cons.mp hmem with h | h
      · rw [h]; exact hi
      · exact hxs r (List.mem_cons_of_mem x h)
    · rw [if_neg hx]
      intro r hmem
      rcases List.mem_cons.mp hmem with h | h
      · rw [h]; exact hxs x (List.mem_cons_self x xs)
      · exact ih (fun r hr => hxs r (List.mem_cons_of_mem x hr)) r h

theorem foldl_upsert_scores (env : Env) (tm : ℚ) (inputs : List ResultInput)
    (hi : ∀ i ∈ inputs, 0 ≤ i.score) :
    ∀ results : List ExamResult, (∀ r ∈ results, 0 ≤ r.score) →
      ∀ r ∈ inputs.foldl (upsertResult env tm) results, 0 ≤ r.score := by
  induction inputs with
  | nil => intro results h; exact h
  | cons i rest ih =>
    intro results h
    rw [List.foldl_cons]
    exact ih (fun j hj => hi j (List.mem_cons_of_mem i hj)) _
      (upsertResult_scores env tm results i h (hi i (List.mem_cons_self i rest)))

theorem resolveInResult_score (env : Env) (tm : ℚ) (misprintId : ObjectId) (body : ResolveBody)
    (r : ExamResult) (hr : 0 ≤ r.score) (hnew : ∀ n : ℚ, body.newScore = some n → 0 ≤ n) :
    0 ≤ (resolveInResult env tm misprintId body r).score := by
  by_cases hm : r.hasMisprint misprintId = true
  · cases hb : body.newScore with
    | none => simpa [resolveInResult, hm, hb] using hr
    | some n => simpa [resolveInResult, hm, hb] using hnew n hb
  · simpa [resolveInResult, hm] using hr

/-- Bulk upsert of non-negative scores on an exam with non-negative scores is saved. -/
theorem postResults_ok {env : Env} {s : ExamStore} {id : ObjectId} {exam : Exam}
    (inputs : List ResultInput)
    (hauth : authorize [.teacher, .admin] env.user = true)
    (hexam : s.findById id = some exam)
    (hown : notOwner env.user exam = false)
    (hstored : ∀ r ∈ exam.results, 0 ≤ r.score)
    (hinputs : ∀ i ∈ inputs, 0 ≤ i.score) :
    (postResults env s id inputs).2.status = 200 ∧
    (postResults env s id inputs).1 = s.save { exam with
      results := inputs.foldl (upsertResult env exam.totalMarks) exam.results,
      status := .marked } := by
  have hv : ({ exam with
      results := inputs.foldl (upsertResult env exam.totalMarks) exam.results,
      status := .marked } : Exam).validate = true :=
    (validate_iff _).mpr (foldl_upsert_scores env exam.totalMarks inputs hinputs _ hstored)
  simp [postResults, hauth, hexam, hown, hv]

/-- A resolution with a non-negative new score on an exam with non-negative scores is
saved. -/
theorem resolveMisprint_ok {env : Env} {s : ExamStore} {id misprintId : ObjectId}
    {exam : Exam} (body : ResolveBody)
    (hauth : authorize [.teacher, .admin] env.user = true)
    (hexam : s.findById id = some exam)
    (hown : notOwner env.user exam = false)
    (hfound : exam.results.any (fun result => result.hasMisprint misprintId) = true)
    (hstored : ∀ r ∈ exam.results, 0 ≤ r.score)
    (hnew : ∀ n : ℚ, body.newScore = some n → 0 ≤ n) :
    (resolveMisprint env s id misprintId body).2.status = 200 ∧
    (resolveMisprint env s id misprintId body).1 = s.save { exam with
      results := exam.results.map (resolveInResult env exam.totalMarks misprintId body) } := by
  have hv : ({ exam with
      results := exam.results.map (resolveInResult env exam.totalMarks misprintId body) }
        : Exam).validate = true := by
    rw [validate_iff]
    intro r hr
    obtain ⟨r0, hr0, rfl⟩ := List.mem_map.mp hr
    exact resolveInResult_score env exam.totalMarks misprintId body r0 (hstored r0 hr0) hnew
  simp [resolveMisprint, hauth, hexam, hown, hfound, hv]

/-! ## Claims C19 and C20 -/

/-- C19: for every percentage p, `calculateGrade` and `getGradeFromPercentage` agree and
return the grade of the band p lies in (A from 80, B from 70, C from 60, D from 50, E from
40, F below); in particular 80 gives A, 79.9 B, 50 D, 49.9 E and 39.9 F. -/
theorem grade_bands (p : ℚ) :
    calculateGrade p = getGradeFromPercentage p ∧
    gradeBand p (calculateGrade p) ∧
    (∀ g : Grade, gradeBand p g → calculateGrade p = g ∧ getGradeFromPercentage p = g) ∧
    calculateGrade 80 = .A ∧ calculateGrade (799 / 10) = .B ∧ calculateGrade 50 = .D ∧
    calculateGrade (499 / 10) = .E ∧ calculateGrade (399 / 10) = .F := by
  have hsame : ∀ q : ℚ, calculateGrade q = getGradeFromPercentage q := fun _ => rfl
  refine ⟨hsame p, calculateGrade_band p, ?_, ?_, ?_, ?_, ?_, ?_⟩
  · intro g hg
    exact ⟨gradeBand_unique p g hg, by rw [← hsame]; exact gradeBand_unique p g hg⟩
  · exact gradeBand_unique 80 .A (by norm_num [gradeBand])
  · exact gradeBand_unique _ .B (by norm_num [gradeBand])
  · exact gradeBand_unique 50 .D (by norm_num [gradeBand])
  · exact gradeBand_unique _ .E (by norm_num [gradeBand])
  · exact gradeBand_unique _ .F (by norm_num [gradeBand])

/-- C20: for an exam with totalMarks > 0 whose stored scores satisfy the schema (none is
negative) and a caller allowed to mutate it, (a) bulk upsert of non-negative scores answers
200 and saves the exam with status marked, the result of every submitted student having
percentage = score / totalMarks * 100 and grade = calculateGrade(percentage); (b) a
misprint resolution that finds the misprint, with no newScore or a non-negative one,
answers 200 and saves the exam; with a newScore the result holding the misprint gets that
score with percentage and grade recomputed from it, without a newScore every result keeps
score, percentage and grade, and in both cases the misprint is marked resolved. -/
theorem results_stay_consistent (env : Env) (s : ExamStore) (id misprintId : ObjectId)
    (exam : Exam) (inputs : List ResultInput) (body : ResolveBody)
    (hauth : authorize [.teacher, .admin] env.user = true)
    (hexam : s.findById id = some exam)
    (hown : notOwner env.user exam = false)
    (htm : 0 < exam.totalMarks)
    (hstored : ∀ r ∈ exam.results, 0 ≤ r.score)
    (hinputs : ∀ i ∈ inputs, 0 ≤ i.score)
    (hnew : ∀ n : ℚ, body.newScore = some n → 0 ≤ n) :
    ((postResults env s id inputs).2.status = 200 ∧
      ∃ saved : Exam, (postResults env s id inputs).1 = s.save saved ∧
        saved.id = exam.id ∧ saved.totalMarks = exam.totalMarks ∧ saved.status = .marked ∧
        ∀ i ∈ inputs, ∃ r : ExamResult,
          saved.results.find? (fun r => r.student == i.studentId) = some r ∧
          r.consistent exam.totalMarks) ∧
    ((∃ r ∈ exam.results, r.hasMisprint misprintId = true) →
      (resolveMisprint env s id misprintId body).2.status = 200 ∧
      (resolveMisprint env s id misprintId body).1 = s.save { exam with
        results := exam.results.map (resolveInResult env exam.totalMarks misprintId body) } ∧
      ∀ r ∈ exam.results,
        (r.hasMisprint misprintId = true → ∀ newScore : ℚ, body.newScore = some newScore →
          (resolveInResult env exam.totalMarks misprintId body r).score = newScore ∧
          (resolveInResult env exam.totalMarks misprintId body r).consistent exam.totalMarks) ∧
        (body.newScore = none →
          (resolveInResult env exam.totalMarks misprintId body r).score = r.score ∧
          (resolveInResult env exam.totalMarks misprintId body r).percentage = r.percentage ∧
          (resolveInResult env exam.totalMarks misprintId body r).grade = r.grade) ∧
        (r.hasMisprint misprintId = true → ∃ m : Misprint,
          (resolveInResult env exam.totalMarks misprintId body r).misprints.find?
            (fun m => m.id == misprintId) = some m ∧ m.resolved = true)) := by
  have _ := htm
  constructor
  · obtain ⟨hst, hstore⟩ := postResults_ok inputs hauth hexam hown hstored hinputs
    refine ⟨hst, { exam with
        results := inputs.foldl (upsertResult env exam.totalMarks) exam.results,
        status := .marked }, hstore, rfl, rfl, rfl, ?_⟩
    exact foldl_upsert_consistent env exam.totalMarks inputs exam.results
  · rintro ⟨r0, hr0, hm0⟩
    have hany : exam.results.any (fun result => result.hasMisprint misprintId) = true :=
      List.any_eq_true.mpr ⟨r0, hr0, hm0⟩
    obtain ⟨hst, hstore⟩ := resolveMisprint_ok body hauth hexam hown hany hstored hnew
    refine ⟨hst, hstore, ?_⟩
    · intro r _
      refine ⟨?_, ?_, ?_⟩
      · intro hm newScore hn
        simp [resolveInResult, hm, hn, ExamResult.consistent]
      · intro hn
        by_cases hm : r.hasMisprint misprintId = true
        · simp [resolveInResult, hm, hn]
        · simp [resolveInResult, hm]
      · intro hm
        have hfind : ∃ m0 : Misprint,
            r.misprints.find? (fun m => m.id == misprintId) = some m0 :=
          Option.isSome_iff_exists.mp hm
        obtain ⟨m0, hm0find⟩ := hfind
        have hmod := modifyFirst_find (fun m : Misprint => m.id == misprintId)
          (fun misprint => { misprint with
            resolved := true
            resolvedBy := some env.user.id
            resolvedAt := some env.clock.now
            resolution := body.resolution })
          (fun _ => rfl) r.misprints
        rw [hm0find] at hmod
        refine ⟨{ m0 with
            resolved := true
            resolvedBy := some env.user.id
            resolvedAt := some env.clock.now
            resolution := body.resolution }, ?_, rfl⟩
        · simp only [resolveInResult, hm, if_true]
          cases body.newScore with
          | none => exact hmod
          | some newScore => exact hmod

/-- Witness for C20: the teacher's exam out of 80 marks; scores for students 7 and 8 are
submitted, and misprint 40 is resolved with a new score of 48. -/
theorem results_stay_consistent_witness :
    (0 : ℚ) < sampleExam.totalMarks ∧
    (postResults teacherEnv [sampleExam] 50 sampleInputs).2.status = 200 ∧
    (resolveMisprint teacherEnv [sampleExam] 50 40 sampleResolve).2.status = 200 ∧
    (resolveMisprint teacherEnv [sampleExam] 50 40 sampleResolve).1
      = ExamStore.save [sampleExam] { sampleExam with
          results := sampleExam.results.map
            (resolveInResult teacherEnv sampleExam.totalMarks 40 sampleResolve) } :=
  ⟨by simp [sampleExam],
    (results_stay_consistent teacherEnv [sampleExam] 50 40 sampleExam sampleInputs sampleResolve
      (by decide) rfl (by decide) (by simp [sampleExam]) (by simp [sampleExam])
      (by simp [sampleInputs]) (by simp [sampleResolve])).1.1,
    ((results_stay_consistent teacherEnv [sampleExam] 50 40 sampleExam sampleInputs sampleResolve
      (by decide) rfl (by decide) (by simp [sampleExam]) (by simp [sampleExam])
      (by simp [sampleInputs]) (by simp [sampleResolve])).2
        ⟨_, List.Mem.head _, rfl⟩).1,
    ((results_stay_consistent teacherEnv [sampleExam] 50 40 sampleExam sampleInputs sampleResolve
      (by decide) rfl (by decide) (by simp [sampleExam]) (by simp [sampleExam])
      (by simp [sampleInputs]) (by simp [sampleResolve])).2
        ⟨_, List.Mem.head _, rfl⟩).2.1⟩

/-! ## Lemmas on bulk upsert: students, positions, last score -/

theorem upsertResult_student_mem (env : Env) (tm : ℚ) (xs : List ExamResult) (i : ResultInput)
    (s : ObjectId) (h : s ∈ (upsertResult env tm xs i).map (fun r => r.student)) :
    s ∈ xs.map (fun r => r.student) ∨ s = i.studentId := by
  induction xs with
  | nil =>
    obtain ⟨r, hr, hst, -⟩ := upsertResult_nil env tm i
    rw [hr] at h
    simp only [List.map_cons, List.map_nil, List.mem_singleton] at h
    exact Or.inr (by rw [h, hst])
  | cons x xs ih =>
    rw [upsertResult_cons] at h
    by_cases hx : (x.student == i.studentId) = true
    · rw [if_pos hx] at h
      simp only [List.map_cons, List.mem_cons] at h ⊢
      rcases h with h | h
      · exact Or.inr h
      · exact Or.inl (Or.inr h)
    · rw [if_neg hx] at h
      simp only [List.map_cons, List.mem_cons] at h ⊢
      rcases h with h | h
      · exact Or.inl (Or.inl h)
      · rcases ih h with h2 | h2
        · exact Or.inl (Or.inr h2)
        · exact Or.inr h2

theorem upsertResult_nodup (env : Env) (tm : ℚ) (xs : List ExamResult) (i : ResultInput)
    (h : (xs.map (fun r => r.student)).Nodup) :
    ((upsertResult env tm xs i).map (fun r => r.student)).Nodup := by
  induction xs with
  | nil =>
    obtain ⟨r, hr, -⟩ := upsertResult_nil env tm i
    rw [hr]
    simp
  | cons x xs ih =>
    rw [upsertResult_cons]
    simp only [List.map_cons, List.nodup_cons] at h
    by_cases hx : (x.student == i.studentId) = true
    · rw [if_pos hx]
      have hxs : x.student = i.studentId := by simpa using hx
      simp only [List.map_cons, List.nodup_cons]
      exact ⟨by rw [← hxs]; exact h.1, h.2⟩
    · rw [if_neg hx]
      have hxs : x.student ≠ i.studentId := by simpa using hx
      simp only [List.map_cons, List.nodup_cons]
      refine ⟨?_, ih h.2⟩
      intro hmem
      rcases upsertResult_student_mem env tm xs i x.student hmem with h2 | h2
      · exact h.1 h2
      · exact hxs h2

theorem foldl_upsert_nodup (env : Env) (tm : ℚ) (inputs : List ResultInput) :
    ∀ results : List ExamResult, (results.map (fun r => r.student)).Nodup →
      ((inputs.foldl (upsertResult env tm) results).map (fun r => r.student)).Nodup := by
  induction inputs with
  | nil => intro results h; exact h
  | cons i rest ih =>
    intro results h
    rw [List.foldl_cons]
    exact ih _ (upsertResult_nodup env tm results i h)

theorem upsertResult_getElem (env : Env) (tm : ℚ) (xs : List ExamResult) (i : ResultInput)
    (k : Nat) (r : ExamResult) (hk : xs[k]? = some r) (hs : i.studentId ≠ r.student) :
    (upsertResult env tm xs i)[k]? = some r := by
  induction xs generalizing k with
  | nil => simp at hk
  | cons x xs ih =>
    rw [upsertResult_cons]
    cases k with
    | zero =>
      simp only [List.getElem?_cons_zero, Option.some.injEq] at hk
      subst hk
      have hx : ¬ (x.student == i.studentId) = true := by
        simpa using fun h => hs h.symm
      rw [if_neg hx]
      simp
    | succ k =>
      simp only [List.getElem?_cons_succ] at hk
      by_cases hx : (x.student == i.studentId) = true
      · rw [if_pos hx]
        simpa using hk
      · rw [if_neg hx]
        simpa using ih k hk

theorem foldl_upsert_getElem (env : Env) (tm : ℚ) (inputs : List ResultInput) (k : Nat)
    (r : ExamResult) (hs : ∀ i ∈ inputs, i.studentId ≠ r.student) :
    ∀ results : List ExamResult, results[k]? = some r →
      (inputs.foldl (upsertResult env tm) results)[k]? = some r := by
  induction inputs with
  | nil => intro results h; exact h
  | cons i rest ih =>
    intro results h
    rw [List.foldl_cons]
    exact ih (fun j hj => hs j (List.mem_cons_of_mem i hj)) _
      (upsertResult_getElem env tm results i k r h (hs i (List.mem_cons_self i rest)))

/-- The result of a student carries the score of the last entry submitted for them. -/
theorem foldl_upsert_last (env : Env) (tm : ℚ) (pre post : List ResultInput) (i : ResultInput)
    (results : List ExamResult) (hpost : ∀ j ∈ post, j.studentId ≠ i.studentId) :
    ∃ r ∈ (pre ++ i :: post).foldl (upsertResult env tm) results,
      r.student = i.studentId ∧ r.score = i.score := by
  rw [List.foldl_append, List.foldl_cons]
  obtain ⟨r, hr, hsc, -⟩ := upsertResult_written env tm (pre.foldl (upsertResult env tm) results) i
  have hkeep := foldl_upsert_other env tm post i.studentId hpost
    (upsertResult env tm (pre.foldl (upsertResult env tm) results) i)
  rw [hr] at hkeep
  refine ⟨r, List.mem_of_find?_eq_some hkeep, ?_, hsc⟩
  have := List.find?_some hkeep
  simpa using this

theorem exam_findById_id {s : ExamStore} {id : ObjectId} {exam : Exam}
    (h : s.findById id = some exam) : exam.id = id := by
  have := List.find?_some h
  simpa using this

theorem exam_findById_save {s : ExamStore} {id : ObjectId} {exam doc : Exam}
    (h : s.findById id = some exam) (hd : doc.id = id) :
    (s.save doc).findById id = some doc := by
  induction s with
  | nil => simp [ExamStore.findById] at h
  | cons x xs ih =>
    simp only [ExamStore.findById, ExamStore.save, List.map_cons, List.find?_cons] at h ih ⊢
    by_cases hx : x.id = id
    · simp [hx, hd]
    · have hx2 : (x.id == id) = false := by simpa using hx
      rw [hx2] at h
      have hne : ¬ x.id = doc.id := by rw [hd]; exact hx
      simp only [hne, if_false, hx2]
      exact ih h

/-! ## Claims C21 and C22 -/

/-- C21, counterexample: a submission with the score -5 for student 8 on the sample exam is
answered 500 with "Error adding results" and nothing is stored: the exam keeps its one
result, and there is no result carrying the submitted score. -/
theorem upsert_rejects_negative_score :
    (postResults teacherEnv [sampleExam] 50 negativeInput).2.status = 500 ∧
    (postResults teacherEnv [sampleExam] 50 negativeInput).2.message = "Error adding results" ∧
    (postResults teacherEnv [sampleExam] 50 negativeInput).1 = [sampleExam] ∧
    ¬ ∃ saved : Exam,
      (postResults teacherEnv [sampleExam] 50 negativeInput).1.findById 50 = some saved ∧
      ∃ r ∈ saved.results, r.student = 8 ∧ r.score = -5 := by
  have hv : ({ sampleExam with
      results := negativeInput.foldl (upsertResult teacherEnv sampleExam.totalMarks)
        sampleExam.results,
      status := .marked } : Exam).validate = false := by
    simp [Exam.validate, negativeInput, sampleExam, upsertResult, List.findIdx?_cons]
  have hpost : postResults teacherEnv [sampleExam] 50 negativeInput
      = ([sampleExam], ExamResponse.plain 500 "Error adding results") := by
    have hauth : authorize [.teacher, .admin] teacherEnv.user = true := by decide
    have hexam : ExamStore.findById [sampleExam] 50 = some sampleExam := rfl
    have hown : notOwner teacherEnv.user sampleExam = false := by decide
    simp [postResults, hauth, hexam, hown, hv]
  rw [hpost]
  refine ⟨rfl, rfl, rfl, ?_⟩
  rintro ⟨saved, hsaved, r, hr, hs, -⟩
  have hsaved2 : saved = sampleExam := by
    have h : ExamStore.findById [sampleExam] 50 = some sampleExam := rfl
    rw [h] at hsaved
    exact (Option.some.inj hsaved).symm
  subst hsaved2
  simp [sampleExam] at hr
  rw [hr] at hs
  simp at hs

/-- C21 as amended: on an exam with at most one result per student and no negative stored
score, bulk upsert of a list whose scores are all non-negative by a permitted caller
answers 200 and saves the exam with status marked and a results list that still has at
most one result per student, holds for every submitted student a result carrying the score
of the last entry submitted for them, and keeps every result of a student outside the
submission unchanged at its position. -/
theorem upsert_one_result_per_student (env : Env) (s : ExamStore) (id : ObjectId)
    (exam : Exam) (inputs : List ResultInput)
    (hauth : authorize [.teacher, .admin] env.user = true)
    (hexam : s.findById id = some exam)
    (hown : notOwner env.user exam = false)
    (hnodup : (exam.results.map (fun r => r.student)).Nodup)
    (hstored : ∀ r ∈ exam.results, 0 ≤ r.score)
    (hinputs : ∀ i ∈ inputs, 0 ≤ i.score) :
    (postResults env s id inputs).2.status = 200 ∧
    ∃ saved : Exam, (postResults env s id inputs).1.findById id = some saved ∧
      saved.status = .marked ∧
      (saved.results.map (fun r => r.student)).Nodup ∧
      (∀ (pre post : List ResultInput) (i : ResultInput), inputs = pre ++ i :: post →
        (∀ j ∈ post, j.studentId ≠ i.studentId) →
        ∃ r ∈ saved.results, r.student = i.studentId ∧ r.score = i.score) ∧
      (∀ (k : Nat) (r : ExamResult), exam.results[k]? = some r →
        (∀ i ∈ inputs, i.studentId ≠ r.student) → saved.results[k]? = some r) := by
  obtain ⟨hst, hstore⟩ := postResults_ok inputs hauth hexam hown hstored hinputs
  refine ⟨hst, { exam with
      results := inputs.foldl (upsertResult env exam.totalMarks) exam.results,
      status := .marked }, ?_, rfl, ?_, ?_, ?_⟩
  · rw [hstore]
    have hid : exam.id = id := exam_findById_id hexam
    exact exam_findById_save hexam hid
  · exact foldl_upsert_nodup env exam.totalMarks inputs exam.results hnodup
  · intro pre post i hin hpost
    subst hin
    exact foldl_upsert_last env exam.totalMarks pre post i exam.results hpost
  · intro k r hk hs
    exact foldl_upsert_getElem env exam.totalMarks inputs k r hs exam.results hk

/-- Witness for C21 as amended: scores for students 7 (twice) and 8 on the sample exam. -/
theorem upsert_one_result_per_student_witness :
    (postResults teacherEnv [sampleExam] 50 sampleInputs).2.status = 200 ∧
    ∃ saved : Exam, (postResults teacherEnv [sampleExam] 50 sampleInputs).1.findById 50
        = some saved ∧
      saved.status = .marked ∧
      (saved.results.map (fun r => r.student)).Nodup ∧
      (∀ (pre post : List ResultInput) (i : ResultInput), sampleInputs = pre ++ i :: post →
        (∀ j ∈ post, j.studentId ≠ i.studentId) →
        ∃ r ∈ saved.results, r.student = i.studentId ∧ r.score = i.score) ∧
      (∀ (k : Nat) (r : ExamResult), sampleExam.results[k]? = some r →
        (∀ i ∈ sampleInputs, i.studentId ≠ r.student) → saved.results[k]? = some r) :=
  upsert_one_result_per_student teacherEnv [sampleExam] 50 sampleExam sampleInputs
    (by decide) rfl (by decide) (by decide) (by simp [sampleExam]) (by simp [sampleInputs])

/-- C22: whenever publish answers 200, the stored exam is the exam that was found with its
status set to published and each of its results, in order, given published = true and
publishedAt = the time of the request, nothing else changed; so it has as many results as
before, and every one of them has published = true and publishedAt set. -/
theorem publish_marks_every_result (env : Env) (s : ExamStore) (id : ObjectId)
    (hok : (publish env s id).2.status = 200) :
    (publish env s id).2.success = true ∧
    ∃ exam saved : Exam, s.findById id = some exam ∧
      (publish env s id).1 = s.save saved ∧
      (publish env s id).1.findById id = some saved ∧
      saved = { exam with
        results := exam.results.map (fun (result : ExamResult) =>
          { result with published := true, publishedAt := some env.clock.now }),
        status := .published } ∧
      saved.status = .published ∧
      saved.results.length = exam.results.length ∧
      ∀ r ∈ saved.results, r.published = true ∧ r.publishedAt = some env.clock.now := by
  unfold publish at hok ⊢
  split at hok
  · simp [ExamResponse.plain] at hok
  · rename_i hauth
    rw [if_neg hauth]
    cases hexam : s.findById id with
    | none => rw [hexam] at hok; simp [ExamResponse.plain] at hok
    | some exam =>
      rw [hexam] at hok
      simp only at hok ⊢
      split at hok
      · simp [ExamResponse.plain] at hok
      · rename_i hown
        rw [if_neg hown]
        have hid : exam.id = id := exam_findById_id hexam
        refine ⟨rfl, exam, _, rfl, rfl, exam_findById_save hexam hid, rfl, rfl, ?_, ?_⟩
        · simp
        · intro r hr
          simp only [List.mem_map] at hr
          obtain ⟨r0, -, rfl⟩ := hr
          exact ⟨rfl, rfl⟩

/-- Witness for C22: the teacher publishes the draft exam. -/
theorem publish_marks_every_result_witness :
    (publish teacherEnv [draftExam] 51).2.success = true ∧
    ∃ exam saved : Exam, ExamStore.findById [draftExam] 51 = some exam ∧
      (publish teacherEnv [draftExam] 51).1 = ExamStore.save [draftExam] saved ∧
      (publish teacherEnv [draftExam] 51).1.findById 51 = some saved ∧
      saved = { exam with
        results := exam.results.map (fun (result : ExamResult) =>
          { result with published := true, publishedAt := some teacherEnv.clock.now }),
        status := .published } ∧
      saved.status = .published ∧
      saved.results.length = exam.results.length ∧
      ∀ r ∈ saved.results, r.published = true ∧ r.publishedAt = some teacherEnv.clock.now :=
  publish_marks_every_result teacherEnv [draftExam] 51 (by decide)

/-! ## Lemmas on publication flags, filing and resolution -/

theorem modify_at_findIdx {α : Type} (p : α → Bool) (f : α → α) (l : List α) :
    ∀ k : Nat, l.findIdx? p = some k →
      ∃ (pre : List α) (x : α) (post : List α), l = pre ++ x :: post ∧
        (∀ y ∈ pre, p y = false) ∧ p x = true ∧ l.modify f k = pre ++ f x :: post := by
  induction l with
  | nil => intro k h; simp at h
  | cons a as ih =>
    intro k h
    rw [List.findIdx?_cons] at h
    by_cases ha : p a = true
    · rw [if_pos ha] at h
      have hk : k = 0 := by
        have := Option.some.inj h
        omega
      subst hk
      exact ⟨[], a, as, rfl, by simp, ha, rfl⟩
    · rw [if_neg ha, List.findIdx?_succ] at h
      cases hfind : List.findIdx? p as 0 with
      | none => rw [hfind] at h; simp at h
      | some j =>
        rw [hfind] at h
        have hk : k = j + 1 := by
          simp only [Option.map_some', Option.some.injEq] at h
          omega
        subst hk
        obtain ⟨pre, x, post, hl, hpre, hx, hmod⟩ := ih j hfind
        refine ⟨a :: pre, x, post, by rw [hl]; rfl, ?_, hx, ?_⟩
        · intro y hy
          rcases List.mem_cons.mp hy with h1 | h1
          · rw [h1]; simpa using ha
          · exact hpre y h1
        · rw [List.modify_succ_cons, hmod]; rfl

theorem findIdx?_of_mem {α : Type} (p : α → Bool) (l : List α) (x : α) (hx : x ∈ l)
    (hp : p x = true) : ∃ k : Nat, l.findIdx? p = some k := by
  cases h : l.findIdx? p with
  | some k => exact ⟨k, rfl⟩
  | none =>
    have := List.findIdx?_eq_none_iff.mp h x hx
    rw [hp] at this
    cases this

theorem reportMisprint_found {env : Env} {s : ExamStore} {id : ObjectId} {exam : Exam}
    (issue : String) {r0 : ExamResult}
    (hauth : authorize [.student] env.user = true)
    (hexam : s.findById id = some exam)
    (hr0 : r0 ∈ exam.results) (hs0 : r0.student = env.user.id) :
    (reportMisprint env s id issue).2.status = 200 ∧
    ∃ (pre : List ExamResult) (r : ExamResult) (post : List ExamResult),
      exam.results = pre ++ r :: post ∧ (∀ x ∈ pre, x.student ≠ env.user.id) ∧
      r.student = env.user.id ∧
      (reportMisprint env s id issue).1 = s.save { exam with
        results := pre ++ { r with misprints := r.misprints ++ [newMisprint env issue] }
          :: post } := by
  obtain ⟨k, hk⟩ := findIdx?_of_mem (fun r => r.student == env.user.id) exam.results r0 hr0
    (by simp [hs0])
  obtain ⟨pre, r, post, hl, hpre, hr, hmod⟩ := modify_at_findIdx
    (fun r => r.student == env.user.id)
    (fun r => { r with misprints := r.misprints ++ [newMisprint env issue] }) exam.results k hk
  have hst : (reportMisprint env s id issue).2.status = 200 := by
    simp [reportMisprint, hauth, hexam, hk]
  refine ⟨hst, pre, r, post, hl, ?_, by simpa using hr, ?_⟩
  · intro x hx
    simpa using hpre x hx
  · simp only [reportMisprint, hauth, hexam, hk]
    rw [← hmod]
    rfl

theorem reportMisprint_of_ok {env : Env} {s : ExamStore} {id : ObjectId} {exam : Exam}
    {issue : String} (hexam : s.findById id = some exam)
    (hok : (reportMisprint env s id issue).2.status = 200) :
    ∃ k : Nat, (reportMisprint env s id issue).1 = s.save { exam with
      results := exam.results.modify
        (fun r => { r with misprints := r.misprints ++ [newMisprint env issue] }) k } := by
  unfold reportMisprint at hok ⊢
  split at hok
  · simp [ExamResponse.plain] at hok
  · rename_i hauth
    rw [if_neg hauth]
    simp only [hexam] at hok ⊢
    cases hk : List.findIdx? (fun r => r.student == env.user.id) exam.results with
    | none => rw [hk] at hok; simp [ExamResponse.plain] at hok
    | some k => exact ⟨k, rfl⟩

theorem resolveMisprint_of_ok {env : Env} {s : ExamStore} {id misprintId : ObjectId}
    {exam : Exam} {body : ResolveBody} (hexam : s.findById id = some exam)
    (hok : (resolveMisprint env s id misprintId body).2.status = 200) :
    (resolveMisprint env s id misprintId body).1 = s.save { exam with
      results := exam.results.map (resolveInResult env exam.totalMarks misprintId body) } := by
  unfold resolveMisprint at hok ⊢
  split at hok
  · simp [ExamResponse.plain] at hok
  · rename_i hauth
    rw [if_neg hauth]
    simp only [hexam] at hok ⊢
    split at hok
    · simp [ExamResponse.plain] at hok
    · rename_i hown
      rw [if_neg hown]
      split at hok
      · simp [ExamResponse.plain] at hok
      · rename_i hfound
        rw [if_neg hfound]
        split at hok
        · simp [ExamResponse.plain] at hok
        · rename_i hv
          rw [if_neg hv]

theorem postResults_of_ok {env : Env} {s : ExamStore} {id : ObjectId} {exam : Exam}
    {inputs : List ResultInput} (hexam : s.findById id = some exam)
    (hok : (postResults env s id inputs).2.status = 200) :
    (postResults env s id inputs).1 = s.save { exam with
      results := inputs.foldl (upsertResult env exam.totalMarks) exam.results,
      status := .marked } := by
  unfold postResults at hok ⊢
  split at hok
  · simp [ExamResponse.plain] at hok
  · rename_i hauth
    rw [if_neg hauth]
    simp only [hexam] at hok ⊢
    split at hok
    · simp [ExamResponse.plain] at hok
    · rename_i hown
      rw [if_neg hown]
      split at hok
      · simp [ExamResponse.plain] at hok
      · rename_i hv
        rw [if_neg hv]

theorem modify_map_eq {α β : Type} (g : α → β) (f : α → α) (hf : ∀ x, g (f x) = g x)
    (l : List α) : ∀ k : Nat, (l.modify f k).map g = l.map g := by
  induction l with
  | nil => intro k; simp
  | cons a as ih =>
    intro k
    cases k with
    | zero => simp [hf]
    | succ k => simp [ih k]

theorem resolveInResult_published (env : Env) (tm : ℚ) (misprintId : ObjectId)
    (body : ResolveBody) (r : ExamResult) :
    (resolveInResult env tm misprintId body r).published = r.published := by
  unfold resolveInResult
  split
  · dsimp only
    split <;> rfl
  · rfl

theorem upsertResult_mem (env : Env) (tm : ℚ) (xs : List ExamResult) (i : ResultInput)
    (r : ExamResult) (h : r ∈ upsertResult env tm xs i) :
    r ∈ xs ∨ (∃ x ∈ xs, x.student = r.student ∧ x.published = r.published) ∨
      (r.student = i.studentId ∧ i.studentId ∉ xs.map (fun x => x.student)) := by
  induction xs with
  | nil =>
    obtain ⟨r1, hr1, hst, -⟩ := upsertResult_nil env tm i
    rw [hr1, List.mem_singleton] at h
    subst h
    exact Or.inr (Or.inr ⟨hst, by simp⟩)
  | cons x xs ih =>
    rw [upsertResult_cons] at h
    by_cases hx : (x.student == i.studentId) = true
    · rw [if_pos hx] at h
      have hxs : x.student = i.studentId := by simpa using hx
      rcases List.mem_cons.mp h with h1 | h1
      · refine Or.inr (Or.inl ⟨x, List.mem_cons_self x xs, ?_, ?_⟩)
        · rw [h1]; exact hxs
        · rw [h1]
      · exact Or.inl (List.mem_cons_of_mem x h1)
    · rw [if_neg hx] at h
      have hxs : x.student ≠ i.studentId := by simpa using hx
      rcases List.mem_cons.mp h with h1 | h1
      · exact Or.inl (by rw [h1]; exact List.mem_cons_self x xs)
      · rcases ih h1 with h2 | ⟨y, hy, h2⟩ | ⟨h2, h3⟩
        · exact Or.inl (List.mem_cons_of_mem x h2)
        · exact Or.inr (Or.inl ⟨y, List.mem_cons_of_mem x hy, h2⟩)
        · refine Or.inr (Or.inr ⟨h2, ?_⟩)
          simp only [List.map_cons, List.mem_cons, not_or]
          exact ⟨fun h4 => hxs h4.symm, h3⟩

theorem upsertResult_student_keep (env : Env) (tm : ℚ) (xs : List ExamResult)
    (i : ResultInput) (s : ObjectId) (h : s ∈ xs.map (fun r => r.student)) :
    s ∈ (upsertResult env tm xs i).map (fun r => r.student) := by
  induction xs with
  | nil => simp at h
  | cons x xs ih =>
    rw [upsertResult_cons]
    simp only [List.map_cons, List.mem_cons] at h
    by_cases hx : (x.student == i.studentId) = true
    · rw [if_pos hx]
      have hxs : x.student = i.studentId := by simpa using hx
      simp only [List.map_cons, List.mem_cons]
      rcases h with h1 | h1
      · exact Or.inl (by rw [h1, hxs])
      · exact Or.inr h1
    · rw [if_neg hx]
      simp only [List.map_cons, List.mem_cons]
      rcases h with h1 | h1
      · exact Or.inl h1
      · exact Or.inr (ih h1)

/-- Bulk upsert keeps the published flag of the results of students who already had one. -/
theorem foldl_upsert_published (env : Env) (tm : ℚ) (old : List ObjectId)
    (inputs : List ResultInput) :
    ∀ cur : List ExamResult,
      (∀ r ∈ cur, r.student ∈ old → r.published = true) →
      (∀ s ∈ old, s ∈ cur.map (fun r => r.student)) →
      ∀ r ∈ inputs.foldl (upsertResult env tm) cur, r.student ∈ old → r.published = true := by
  induction inputs with
  | nil => intro cur hP _; exact hP
  | cons i rest ih =>
    intro cur hP hQ
    rw [List.foldl_cons]
    apply ih
    · intro r hr hold
      rcases upsertResult_mem env tm cur i r hr with h1 | ⟨x, hx, hxs, hxp⟩ | ⟨h2, h3⟩
      · exact hP r h1 hold
      · rw [← hxp]
        exact hP x hx (by rw [hxs]; exact hold)
      · exact absurd (hQ _ (by rw [← h2]; exact hold)) h3
    · intro s hs
      exact upsertResult_student_keep env tm cur i s (hQ s hs)

theorem upsertResult_mem_unpublished (env : Env) (tm : ℚ) (xs : List ExamResult)
    (i : ResultInput) (r : ExamResult) (h : r ∈ upsertResult env tm xs i) :
    r ∈ xs ∨ (∃ x ∈ xs, x.student = r.student ∧ x.published = r.published) ∨
      r.published = false := by
  induction xs with
  | nil =>
    simp only [upsertResult, List.findIdx?_nil, List.nil_append, List.mem_singleton] at h
    exact Or.inr (Or.inr (by rw [h]))
  | cons x xs ih =>
    rw [upsertResult_cons] at h
    by_cases hx : (x.student == i.studentId) = true
    · rw [if_pos hx] at h
      have hxs : x.student = i.studentId := by simpa using hx
      rcases List.mem_cons.mp h with h1 | h1
      · refine Or.inr (Or.inl ⟨x, List.mem_cons_self x xs, ?_, ?_⟩)
        · rw [h1]; exact hxs
        · rw [h1]
      · exact Or.inl (List.mem_cons_of_mem x h1)
    · rw [if_neg hx] at h
      rcases List.mem_cons.mp h with h1 | h1
      · exact Or.inl (by rw [h1]; exact List.mem_cons_self x xs)
      · rcases ih h1 with h2 | ⟨y, hy, h2⟩ | h2
        · exact Or.inl (List.mem_cons_of_mem x h2)
        · exact Or.inr (Or.inl ⟨y, List.mem_cons_of_mem x hy, h2⟩)
        · exact Or.inr (Or.inr h2)

/-- Bulk upsert leaves the results of students who had none before unpublished. -/
theorem foldl_upsert_unpublished (env : Env) (tm : ℚ) (old : List ObjectId)
    (inputs : List ResultInput) :
    ∀ cur : List ExamResult,
      (∀ r ∈ cur, r.student ∉ old → r.published = false) →
      ∀ r ∈ inputs.foldl (upsertResult env tm) cur, r.student ∉ old → r.published = false := by
  induction inputs with
  | nil => intro cur hP; exact hP
  | cons i rest ih =>
    intro cur hP
    rw [List.foldl_cons]
    apply ih
    intro r hr hnew
    rcases upsertResult_mem_unpublished env tm cur i r hr with h1 | ⟨x, hx, hxs, hxp⟩ | h3
    · exact hP r h1 hnew
    · rw [← hxp]
      exact hP x hx (by rw [hxs]; exact hnew)
    · exact h3

/-! ## Claims C23 to C27 -/

/-- C23, counterexample: the sample exam is published with its one result published; a bulk
upsert by its teacher with a score for student 8 answers 200 and stores the exam with
status marked and an unpublished result for student 8. -/
theorem upsert_undoes_publication :
    sampleExam.status = .published ∧
    sampleExam.results.map (fun r => (r.student, r.published)) = [(7, true)] ∧
    (postResults teacherEnv [sampleExam] 50 newStudentInput).2.status = 200 ∧
    (postResults teacherEnv [sampleExam] 50 newStudentInput).1.map
        (fun e => (e.status, e.results.map (fun r => (r.student, r.published))))
      = [(ExamStatus.marked, [(7, true), (8, false)])] := by
  decide

/-- C23 as amended: on a published exam whose results are all published, a successful
misprint filing and a successful misprint resolution leave the status published and every
result published; a successful bulk upsert stores the status marked, keeps
published = true on the result of every student who already had one, and gives
published = false to the results it adds for other students. -/
theorem published_exam_after_operations (envS envT : Env) (s : ExamStore)
    (id misprintId : ObjectId) (exam : Exam) (issue : String) (body : ResolveBody)
    (inputs : List ResultInput)
    (hexam : s.findById id = some exam)
    (hstatus : exam.status = .published)
    (hall : ∀ r ∈ exam.results, r.published = true) :
    ((reportMisprint envS s id issue).2.status = 200 →
      ∃ saved : Exam, (reportMisprint envS s id issue).1.findById id = some saved ∧
        saved.status = .published ∧ ∀ r ∈ saved.results, r.published = true) ∧
    ((resolveMisprint envT s id misprintId body).2.status = 200 →
      ∃ saved : Exam, (resolveMisprint envT s id misprintId body).1.findById id = some saved ∧
        saved.status = .published ∧ ∀ r ∈ saved.results, r.published = true) ∧
    ((postResults envT s id inputs).2.status = 200 →
      ∃ saved : Exam, (postResults envT s id inputs).1.findById id = some saved ∧
        saved.status = .marked ∧
        (∀ r ∈ saved.results, r.student ∈ exam.results.map (fun x => x.student) →
          r.published = true) ∧
        (∀ r ∈ saved.results, r.student ∉ exam.results.map (fun x => x.student) →
          r.published = false)) := by
  have hid : exam.id = id := exam_findById_id hexam
  have hflags : ∀ l : List ExamResult,
      l.map (fun r => r.published) = exam.results.map (fun r => r.published) →
      ∀ r ∈ l, r.published = true := by
    intro l hl r hr
    have h1 : r.published ∈ l.map (fun r => r.published) := List.mem_map_of_mem _ hr
    rw [hl, List.mem_map] at h1
    obtain ⟨x, hx, hxp⟩ := h1
    rw [← hxp]
    exact hall x hx
  refine ⟨?_, ?_, ?_⟩
  · intro hok
    obtain ⟨k, hstore⟩ := reportMisprint_of_ok hexam hok
    have hfind : (reportMisprint envS s id issue).1.findById id = some { exam with
        results := exam.results.modify
          (fun r => { r with misprints := r.misprints ++ [newMisprint envS issue] }) k } := by
      rw [hstore]; exact exam_findById_save hexam hid
    refine ⟨_, hfind, hstatus, ?_⟩
    exact hflags _ (modify_map_eq (fun r => r.published)
      (fun r => { r with misprints := r.misprints ++ [newMisprint envS issue] })
      (fun _ => rfl) exam.results k)
  · intro hok
    have hstore := resolveMisprint_of_ok hexam hok
    have hfind : (resolveMisprint envT s id misprintId body).1.findById id = some { exam with
        results := exam.results.map (resolveInResult envT exam.totalMarks misprintId body) } := by
      rw [hstore]; exact exam_findById_save hexam hid
    refine ⟨_, hfind, hstatus, ?_⟩
    apply hflags
    show List.map (fun r => r.published)
        (exam.results.map (resolveInResult envT exam.totalMarks misprintId body))
      = exam.results.map (fun r => r.published)
    rw [List.map_map]
    apply List.map_congr_left
    intro r _
    exact resolveInResult_published envT exam.totalMarks misprintId body r
  · intro hok
    have hstore := postResults_of_ok hexam hok
    have hfind : (postResults envT s id inputs).1.findById id = some { exam with
        results := inputs.foldl (upsertResult envT exam.totalMarks) exam.results,
        status := .marked } := by
      rw [hstore]; exact exam_findById_save hexam hid
    refine ⟨_, hfind, rfl, ?_, ?_⟩
    · exact foldl_upsert_published envT exam.totalMarks (exam.results.map (fun x => x.student))
        inputs exam.results (fun r hr _ => hall r hr) (fun _ hs => hs)
    · exact foldl_upsert_unpublished envT exam.totalMarks
        (exam.results.map (fun x => x.student)) inputs exam.results
        (fun r hr hnew => absurd (List.mem_map_of_mem (fun x => x.student) hr) hnew)

/-- Witness for C23 as amended: the published sample exam, student 7 filing, the teacher
resolving with a new score of 48 and upserting a score for student 8; all three requests
are answered 200. -/
theorem published_exam_after_operations_witness :
    (reportMisprint studentEnv [sampleExam] 50 "wrong total").2.status = 200 ∧
    (resolveMisprint teacherEnv [sampleExam] 50 40 sampleResolve).2.status = 200 ∧
    (postResults teacherEnv [sampleExam] 50 newStudentInput).2.status = 200 ∧
    (∃ saved : Exam, (reportMisprint studentEnv [sampleExam] 50 "wrong total").1.findById 50
          = some saved ∧
        saved.status = .published ∧ ∀ r ∈ saved.results, r.published = true) ∧
    (∃ saved : Exam, (resolveMisprint teacherEnv [sampleExam] 50 40 sampleResolve).1.findById 50
          = some saved ∧
        saved.status = .published ∧ ∀ r ∈ saved.results, r.published = true) ∧
    (∃ saved : Exam, (postResults teacherEnv [sampleExam] 50 newStudentInput).1.findById 50
          = some saved ∧
        saved.status = .marked ∧
        (∀ r ∈ saved.results, r.student ∈ sampleExam.results.map (fun x => x.student) →
          r.published = true) ∧
        (∀ r ∈ saved.results, r.student ∉ sampleExam.results.map (fun x => x.student) →
          r.published = false)) :=
  have hfile : (reportMisprint studentEnv [sampleExam] 50 "wrong total").2.status = 200 := by
    decide
  have hauth : authorize [.teacher, .admin] teacherEnv.user = true := by decide
  have hexam : ExamStore.findById [sampleExam] 50 = some sampleExam := rfl
  have hown : notOwner teacherEnv.user sampleExam = false := by decide
  have hany : sampleExam.results.any (fun result => result.hasMisprint 40) = true := by decide
  have hstored : ∀ r ∈ sampleExam.results, 0 ≤ r.score := by simp [sampleExam]
  have hresolve : (resolveMisprint teacherEnv [sampleExam] 50 40 sampleResolve).2.status = 200 :=
    (resolveMisprint_ok sampleResolve hauth hexam hown hany hstored
      (by simp [sampleResolve])).1
  have hupsert : (postResults teacherEnv [sampleExam] 50 newStudentInput).2.status = 200 :=
    (postResults_ok newStudentInput hauth hexam hown hstored (by simp [newStudentInput])).1
  ⟨hfile, hresolve, hupsert,
    (published_exam_after_operations studentEnv teacherEnv [sampleExam] 50 40 sampleExam
      "wrong total" sampleResolve newStudentInput rfl rfl
      (by intro r hr; rw [List.mem_singleton.mp hr])).1 hfile,
    (published_exam_after_operations studentEnv teacherEnv [sampleExam] 50 40 sampleExam
      "wrong total" sampleResolve newStudentInput rfl rfl
      (by intro r hr; rw [List.mem_singleton.mp hr])).2.1 hresolve,
    (published_exam_after_operations studentEnv teacherEnv [sampleExam] 50 40 sampleExam
      "wrong total" sampleResolve newStudentInput rfl rfl
      (by intro r hr; rw [List.mem_singleton.mp hr])).2.2 hupsert⟩

/-- C24, the code at the failing input: in the sample exam student 7 is published and student
8, added by a later bulk upsert, is not. The per-student read by student 8 returns that
exam with student 8's unpublished result (the single-exam read returns no result). The
same happens for student 7 in an exam holding two results of theirs, the first
unpublished. -/
theorem student_read_returns_unpublished :
    mixedStore.map (fun e => e.results.map (fun r => (r.student, r.published)))
      = [[(7, true), (8, false)]] ∧
    (getStudentResults secondStudentEnv mixedStore 8).status = 200 ∧
    (getStudentResults secondStudentEnv mixedStore 8).data.map
        (fun e => e.results.map (fun r => (r.student, r.published)))
      = [[(8, false)]] ∧
    (getExam secondStudentEnv mixedStore 50).data.map
        (fun e => e.results.map (fun r => (r.student, r.published)))
      = some [] ∧
    (getStudentResults studentEnv [doubledExam] 7).data.map
        (fun e => e.results.map (fun r => (r.student, r.published)))
      = [[(7, false)]] := by
  decide

/-- C25, counterexample: teacher 6 is assigned to course 3, the course of the sample exam,
which teacher 5 teaches; `checkOwnership` would accept teacher 6, yet update, bulk upsert,
publish and misprint resolution all answer 403. -/
theorem assigned_teacher_rejected :
    sampleExam.course ∈ assignedTeacher.assignedCourses ∧
    checkOwnership assignedTeacher sampleExam = true ∧
    (updateExam assignedTeacherEnv [sampleExam] 50
      { title := some "Databases CAT", course := none, teacher := none, totalMarks := none,
        results := none, status := none }).2.status = 403 ∧
    (postResults assignedTeacherEnv [sampleExam] 50 newStudentInput).2.status = 403 ∧
    (publish assignedTeacherEnv [sampleExam] 50).2.status = 403 ∧
    (resolveMisprint assignedTeacherEnv [sampleExam] 50 40 sampleResolve).2.status = 403 := by
  decide

/-- C25 as amended: for an existing exam, whatever the caller's assignedCourses, a teacher's
update, bulk upsert, publish and misprint resolution are rejected with 403 and change
nothing when the exam's teacher field differs from the caller's id, and are not rejected
with 403 when it equals it; an admin is never rejected with 403.  (Update and publish then
answer 200, and so does a bulk upsert of non-negative scores on an exam without negative
scores.) -/
theorem teacher_field_decides (env : Env) (s : ExamStore) (id misprintId : ObjectId)
    (exam : Exam) (update : ExamUpdateBody) (inputs : List ResultInput) (body : ResolveBody)
    (hexam : s.findById id = some exam) :
    (env.user.role = .teacher → exam.teacher ≠ env.user.id →
      updateExam env s id update = (s, ExamResponse.plain 403 "Not authorized to update this exam") ∧
      postResults env s id inputs
        = (s, ExamResponse.plain 403 "Not authorized to add results for this exam") ∧
      publish env s id
        = (s, ExamResponse.plain 403 "Not authorized to publish results for this exam") ∧
      resolveMisprint env s id misprintId body
        = (s, ExamResponse.plain 403 "Not authorized to resolve misprints for this exam")) ∧
    ((env.user.role = .teacher ∧ exam.teacher = env.user.id) ∨ env.user.role = .admin →
      (updateExam env s id update).2.status = 200 ∧
      (postResults env s id inputs).2.status ≠ 403 ∧
      ((∀ r ∈ exam.results, 0 ≤ r.score) → (∀ i ∈ inputs, 0 ≤ i.score) →
        (postResults env s id inputs).2.status = 200) ∧
      (publish env s id).2.status = 200 ∧
      (resolveMisprint env s id misprintId body).2.status ≠ 403) := by
  constructor
  · intro hrole hne
    have hauth : authorize [.teacher, .admin] env.user = true := by
      simp [authorize, hrole]
    have hown : notOwner env.user exam = true := by
      simp [notOwner, hrole, hne]
    refine ⟨?_, ?_, ?_, ?_⟩
    · simp [updateExam, hauth, hexam, hown]
    · simp [postResults, hauth, hexam, hown]
    · simp [publish, hauth, hexam, hown]
    · simp [resolveMisprint, hauth, hexam, hown]
  · intro h
    have hauth : authorize [.teacher, .admin] env.user = true := by
      rcases h with ⟨hrole, -⟩ | hrole <;> simp [authorize, hrole]
    have hown : notOwner env.user exam = false := by
      rcases h with ⟨hrole, heq⟩ | hrole
      · simp [notOwner, hrole, heq]
      · simp [notOwner, hrole]
    refine ⟨?_, ?_, ?_, ?_, ?_⟩
    · simp [updateExam, hauth, hexam, hown]
    · simp only [postResults, hauth, hexam, hown, Bool.not_true, Bool.false_eq_true,
        if_false]
      split <;> simp [ExamResponse.plain]
    · intro hstored hinputs
      exact (postResults_ok inputs hauth hexam hown hstored hinputs).1
    · simp [publish, hauth, hexam, hown]
    · simp only [resolveMisprint, hauth, hexam, hown, Bool.not_true, Bool.false_eq_true,
        if_false]
      split
      · simp [ExamResponse.plain]
      · split <;> simp [ExamResponse.plain]

/-- Witness for C25 as amended: the assigned teacher 6 and the teaching teacher 5 on the
sample exam. -/
theorem teacher_field_decides_witness :
    (postResults assignedTeacherEnv [sampleExam] 50 sampleInputs
        = ([sampleExam], ExamResponse.plain 403 "Not authorized to add results for this exam")) ∧
    (postResults teacherEnv [sampleExam] 50 sampleInputs).2.status = 200 :=
  ⟨((teacher_field_decides assignedTeacherEnv [sampleExam] 50 40 sampleExam
      { title := none, course := none, teacher := none, totalMarks := none, results := none,
        status := none } sampleInputs sampleResolve rfl).1 (by decide) (by decide)).2.1,
    ((teacher_field_decides teacherEnv [sampleExam] 50 40 sampleExam
      { title := none, course := none, teacher := none, totalMarks := none, results := none,
        status := none } sampleInputs sampleResolve rfl).2
      (Or.inl ⟨by decide, by decide⟩)).2.2.1 (by simp [sampleExam]) (by simp [sampleInputs])⟩

/-- C26: for a student caller and an existing exam, misprint filing answers 404 and leaves
the store unchanged when the caller has no result in the exam; otherwise it answers 200 and
saves the exam with one misprint (reportedBy the caller, unresolved) appended to the
misprints of the caller's result, every other field of that result, every other result and
the rest of the exam being as before. -/
theorem filing_appends_one_misprint (env : Env) (s : ExamStore) (id : ObjectId) (exam : Exam)
    (issue : String)
    (hauth : authorize [.student] env.user = true)
    (hexam : s.findById id = some exam) :
    ((∀ r ∈ exam.results, r.student ≠ env.user.id) →
      (reportMisprint env s id issue).2.status = 404 ∧
      (reportMisprint env s id issue).1 = s) ∧
    ((∃ r ∈ exam.results, r.student = env.user.id) →
      (reportMisprint env s id issue).2.status = 200 ∧
      (newMisprint env issue).reportedBy = env.user.id ∧
      (newMisprint env issue).resolved = false ∧
      ∃ (pre : List ExamResult) (r : ExamResult) (post : List ExamResult),
        exam.results = pre ++ r :: post ∧ (∀ x ∈ pre, x.student ≠ env.user.id) ∧
        r.student = env.user.id ∧
        (reportMisprint env s id issue).1 = s.save { exam with
          results := pre ++ { r with misprints := r.misprints ++ [newMisprint env issue] }
            :: post }) := by
  constructor
  · intro hnone
    have hk : List.findIdx? (fun r => r.student == env.user.id) exam.results = none := by
      rw [List.findIdx?_eq_none_iff]
      intro x hx
      simpa using hnone x hx
    simp [reportMisprint, hauth, hexam, hk, ExamResponse.plain]
  · rintro ⟨r0, hr0, hs0⟩
    obtain ⟨hst, hrest⟩ := reportMisprint_found issue hauth hexam hr0 hs0
    exact ⟨hst, rfl, rfl, hrest⟩

/-- Witness for C26: student 7 files against the sample exam; student 8 has no result in
it. -/
theorem filing_appends_one_misprint_witness :
    (reportMisprint secondStudentEnv [sampleExam] 50 "wrong total").2.status = 404 ∧
    (reportMisprint secondStudentEnv [sampleExam] 50 "wrong total").1 = [sampleExam] ∧
    (reportMisprint studentEnv [sampleExam] 50 "wrong total").2.status = 200 :=
  ⟨((filing_appends_one_misprint secondStudentEnv [sampleExam] 50 sampleExam "wrong total"
      (by decide) rfl).1 (by decide)).1,
    ((filing_appends_one_misprint secondStudentEnv [sampleExam] 50 sampleExam "wrong total"
      (by decide) rfl).1 (by decide)).2,
    ((filing_appends_one_misprint studentEnv [sampleExam] 50 sampleExam "wrong total"
      (by decide) rfl).2 ⟨_, List.Mem.head _, rfl⟩).1⟩

/-- C27, counterexample: student 7 has an unpublished result in the draft exam; their
misprint filing answers 200 and the stored result, still unpublished, carries the
misprint. -/
theorem filing_on_unpublished_result :
    draftExam.results.map (fun r => (r.student, r.published, r.misprints.length))
      = [(7, false, 0)] ∧
    (reportMisprint studentEnv [draftExam] 51 "wrong total").2.status = 200 ∧
    (reportMisprint studentEnv [draftExam] 51 "wrong total").1.map
        (fun e => e.results.map (fun r => (r.student, r.published, r.misprints.length)))
      = [[(7, false, 1)]] := by
  decide

/-- C27 as amended: misprint filing by a student who has a result in the exam is accepted
whether or not that result is published: it answers 200 and stores the caller's result
with the same published flag and the misprint appended. -/
theorem filing_ignores_published (env : Env) (s : ExamStore) (id : ObjectId) (exam : Exam)
    (issue : String) (r0 : ExamResult) (flag : Bool)
    (hauth : authorize [.student] env.user = true)
    (hexam : s.findById id = some exam)
    (hr0 : r0 ∈ exam.results) (hs0 : r0.student = env.user.id)
    (hflag : ∀ r ∈ exam.results, r.student = env.user.id → r.published = flag) :
    (reportMisprint env s id issue).2.status = 200 ∧
    (reportMisprint env s id issue).2.success = true ∧
    ∃ (saved : Exam) (r : ExamResult),
      (reportMisprint env s id issue).1.findById id = some saved ∧
      saved.results.find? (fun x => x.student == env.user.id) = some r ∧
      r.published = flag ∧
      ∃ before : List Misprint, r.misprints = before ++ [newMisprint env issue] := by
  obtain ⟨hst, pre, r, post, hl, hpre, hr, hstore⟩ :=
    reportMisprint_found issue hauth hexam hr0 hs0
  have hid : exam.id = id := exam_findById_id hexam
  have hsucc : (reportMisprint env s id issue).2.success = true := by
    obtain ⟨k, hk⟩ := findIdx?_of_mem (fun r => r.student == env.user.id) exam.results r0 hr0
      (by simp [hs0])
    simp [reportMisprint, hauth, hexam, hk]
  have hfind : (reportMisprint env s id issue).1.findById id = some { exam with
      results := pre ++ { r with misprints := r.misprints ++ [newMisprint env issue] }
        :: post } := by
    rw [hstore]; exact exam_findById_save hexam hid
  refine ⟨hst, hsucc, _, { r with misprints := r.misprints ++ [newMisprint env issue] }, hfind,
    ?_, ?_, r.misprints, rfl⟩
  · show (pre ++ { r with misprints := r.misprints ++ [newMisprint env issue] } :: post).find?
      (fun x => x.student == env.user.id) = _
    rw [List.find?_append]
    have hnone : pre.find? (fun x => x.student == env.user.id) = none := by
      rw [List.find?_eq_none]
      intro x hx
      simpa using hpre x hx
    rw [hnone]
    simp [List.find?_cons, hr]
  · exact hflag r (by rw [hl]; simp) hr

/-- Witness for C27 as amended: student 7 and the unpublished result of the draft exam. -/
theorem filing_ignores_published_witness :
    (reportMisprint studentEnv [draftExam] 51 "wrong total").2.status = 200 ∧
    (reportMisprint studentEnv [draftExam] 51 "wrong total").2.success = true ∧
    ∃ (saved : Exam) (r : ExamResult),
      (reportMisprint studentEnv [draftExam] 51 "wrong total").1.findById 51 = some saved ∧
      saved.results.find? (fun x => x.student == studentEnv.user.id) = some r ∧
      r.published = false ∧
      ∃ before : List Misprint,
        r.misprints = before ++ [newMisprint studentEnv "wrong total"] :=
  filing_ignores_published studentEnv [draftExam] 51 draftExam "wrong total" _ false
    (by decide) rfl (List.Mem.head _) rfl
    (by intro r hr _; rw [List.mem_singleton.mp hr])

/-! ## Claims C28 to C30 -/

theorem preSave_of_consistent (r : FeeRecord) (h : r.totalsConsistent) : r.preSave = r := by
  obtain ⟨h1, h2, h3, h4⟩ := h
  cases r
  simp only [FeeRecord.preSave] at h1 h2 h3 h4 ⊢
  subst h1 h2 h3 h4
  rfl

theorem unpaid_message_contains (name balance : String) :
    containsText (name ++ " - Verification denied: Unpaid fees (Balance: KES " ++ balance ++ ")")
      "Unpaid fees" := by
  have hlit : " - Verification denied: Unpaid fees (Balance: KES "
      = " - Verification denied: " ++ "Unpaid fees" ++ " (Balance: KES " := by decide
  have : name ++ " - Verification denied: Unpaid fees (Balance: KES " ++ balance ++ ")"
      = (name ++ " - Verification denied: ") ++ "Unpaid fees"
        ++ (" (Balance: KES " ++ balance ++ ")") := by
    rw [hlit]; simp only [String.append_assoc]
  rw [this]
  exact containsText_mid _ _ _

/-- C28: on a fee record whose stored totals agree with its fee structure and payments,
SetGatepassOverride by an authorised user answers 200 and stores the record with a new
gatepassStatus (allowed, reason, updatedBy, lastUpdated from the request) and every other
field as before, in particular feeStructure, payments, waivers, totalAmount, totalPaid,
balance and paymentStatus; when allowed is false the stored allowedUntil is null whatever
was supplied, and when allowed is true it is the supplied one. -/
theorem override_changes_only_gatepassStatus (env : Env) (s : FeeStore) (id : ObjectId)
    (body : GatepassOverrideBody) (r : FeeRecord)
    (hauth : authorize [.finance, .admin] env.user = true)
    (hr : s.findById id = some r)
    (hcons : r.totalsConsistent) :
    (setGatepassOverride env s id body).2.status = 200 ∧
    ∃ r2 : FeeRecord, (setGatepassOverride env s id body).1.findById id = some r2 ∧
      r2 = { r with gatepassStatus := r2.gatepassStatus } ∧
      r2.feeStructure = r.feeStructure ∧ r2.payments = r.payments ∧ r2.waivers = r.waivers ∧
      r2.totalAmount = r.totalAmount ∧ r2.totalPaid = r.totalPaid ∧ r2.balance = r.balance ∧
      r2.paymentStatus = r.paymentStatus ∧
      r2.gatepassStatus.allowed = body.allowed ∧ r2.gatepassStatus.reason = body.reason ∧
      r2.gatepassStatus.updatedBy = some env.user.id ∧
      r2.gatepassStatus.lastUpdated = some env.clock.now ∧
      (body.allowed = false → r2.gatepassStatus.allowedUntil = none) ∧
      (body.allowed = true → r2.gatepassStatus.allowedUntil = body.allowedUntil) := by
  have hid : r.id = id := findById_id hr
  have hst : (setGatepassOverride env s id body).2.status = 200 := by
    simp [setGatepassOverride, hauth, hr]
  have hdoc : ({ r with gatepassStatus :=
        { allowed := body.allowed
          allowedUntil := if body.allowed && body.allowedUntil.isSome then body.allowedUntil
                          else none
          reason := body.reason
          updatedBy := some env.user.id
          lastUpdated := some env.clock.now } } : FeeRecord).preSave
      = { r with gatepassStatus :=
        { allowed := body.allowed
          allowedUntil := if body.allowed && body.allowedUntil.isSome then body.allowedUntil
                          else none
          reason := body.reason
          updatedBy := some env.user.id
          lastUpdated := some env.clock.now } } :=
    preSave_of_consistent _ hcons
  have hfind : (setGatepassOverride env s id body).1.findById id = some
      ({ r with gatepassStatus :=
        { allowed := body.allowed
          allowedUntil := if body.allowed && body.allowedUntil.isSome then body.allowedUntil
                          else none
          reason := body.reason
          updatedBy := some env.user.id
          lastUpdated := some env.clock.now } } : FeeRecord) := by
    simp only [setGatepassOverride, hauth, hr]
    rw [← hdoc]
    exact findById_save hr hid
  refine ⟨hst, _, hfind, rfl, rfl, rfl, rfl, rfl, rfl, rfl, rfl, rfl, rfl, rfl, rfl, ?_, ?_⟩
  · intro ha
    simp [ha]
  · intro ha
    cases hu : body.allowedUntil <;> simp [ha, hu]

/-- Witness for C28: the permission is withdrawn on the scenario's record while a date is
still supplied. -/
theorem override_changes_only_gatepassStatus_witness :
    scenarioRecord.totalsConsistent ∧
    (setGatepassOverride sampleEnv scenarioStore 10 withdrawOverride).2.status = 200 ∧
    ∃ r2 : FeeRecord,
      (setGatepassOverride sampleEnv scenarioStore 10 withdrawOverride).1.findById 10 = some r2 ∧
      r2 = { scenarioRecord with gatepassStatus := r2.gatepassStatus } ∧
      r2.feeStructure = scenarioRecord.feeStructure ∧ r2.payments = scenarioRecord.payments ∧
      r2.waivers = scenarioRecord.waivers ∧
      r2.totalAmount = scenarioRecord.totalAmount ∧ r2.totalPaid = scenarioRecord.totalPaid ∧
      r2.balance = scenarioRecord.balance ∧
      r2.paymentStatus = scenarioRecord.paymentStatus ∧
      r2.gatepassStatus.allowed = withdrawOverride.allowed ∧
      r2.gatepassStatus.reason = withdrawOverride.reason ∧
      r2.gatepassStatus.updatedBy = some sampleEnv.user.id ∧
      r2.gatepassStatus.lastUpdated = some sampleEnv.clock.now ∧
      (withdrawOverride.allowed = false → r2.gatepassStatus.allowedUntil = none) ∧
      (withdrawOverride.allowed = true →
        r2.gatepassStatus.allowedUntil = withdrawOverride.allowedUntil) :=
  ⟨by decide, override_changes_only_gatepassStatus sampleEnv scenarioStore 10 withdrawOverride
    scenarioRecord (by decide) (by decide) (by decide)⟩

/-- C29: for a fee record that is overpaid with allowed false, the decision of Verify is
denied with the 'Unpaid fees' message, and the snapshot status overpaid is not among the
values 'paid', 'partial', 'unpaid' the gate-pass schema lists; without an override, the
decision is verified exactly when the status is paid. -/
theorem overpaid_is_denied (env : Env) (student : User) (fee : FeeRecord)
    (hover : fee.paymentStatus = .overpaid)
    (hnot : fee.gatepassStatus.allowed = false) :
    (verifyDecision env student fee).verificationStatus = .denied ∧
    containsText (verifyDecision env student fee).message "Unpaid fees" ∧
    (verifyData env student fee).verificationStatus = .denied ∧
    (verifyData env student fee).paymentStatus = .overpaid ∧
    (verifyData env student fee).paymentStatus.toString ∉ gatepassPaymentStatusEnum ∧
    (∀ other : FeeRecord, other.gatepassStatus.allowed = false →
      ((verifyDecision env student other).verificationStatus = .verified ↔
        other.paymentStatus = .paid)) := by
  have hp : fee.paymentStatus ≠ .paid := by rw [hover]; decide
  have hd := decision_unpaid env student fee hp hnot
  refine ⟨by rw [hd], ?_, by simp [verifyData, hd], hover, ?_, ?_⟩
  · rw [hd]
    exact unpaid_message_contains _ _
  · show fee.paymentStatus.toString ∉ gatepassPaymentStatusEnum
    rw [hover]
    decide
  · intro other ho
    rw [decision_verified_iff]
    constructor
    · rintro (h | ⟨h, -⟩)
      · exact h
      · rw [ho] at h; cases h
    · exact Or.inl

/-- Witness for C29: the scenario's record after a payment of 70000. -/
theorem overpaid_is_denied_witness :
    overpaidRecord.balance < 0 ∧
    (verifyDecision gateEnv sampleStudent overpaidRecord).verificationStatus = .denied ∧
    containsText (verifyDecision gateEnv sampleStudent overpaidRecord).message "Unpaid fees" ∧
    (verifyData gateEnv sampleStudent overpaidRecord).verificationStatus = .denied ∧
    (verifyData gateEnv sampleStudent overpaidRecord).paymentStatus = .overpaid ∧
    (verifyData gateEnv sampleStudent overpaidRecord).paymentStatus.toString
      ∉ gatepassPaymentStatusEnum ∧
    (∀ other : FeeRecord, other.gatepassStatus.allowed = false →
      ((verifyDecision gateEnv sampleStudent other).verificationStatus = .verified ↔
        other.paymentStatus = .paid)) :=
  ⟨by decide, overpaid_is_denied gateEnv sampleStudent overpaidRecord (by decide) (by decide)⟩

/-- C30, the code at the failing input: a lecture of teacher 5 in Lab 1 from 10:00 to 11:00
exists; a request for the same date, teacher and venue from 09:00 to 12:00 (start before
end, the intervals overlap, the new one strictly containing the old) answers 201 and is
stored, whereas a request from 10:30 to 11:30 is rejected with the conflict error. -/
theorem containing_booking_is_accepted :
    longBooking.date = sampleLecture.date ∧ longBooking.teacher = sampleLecture.teacher ∧
    longBooking.venue = sampleLecture.venue ∧
    strLt longBooking.startTime longBooking.endTime = true ∧
    intervalsOverlap longBooking.startTime longBooking.endTime
      sampleLecture.startTime sampleLecture.endTime ∧
    strLt longBooking.startTime sampleLecture.startTime = true ∧
    strLt sampleLecture.endTime longBooking.endTime = true ∧
    (createSchedule adminEnv [] [sampleLecture] longBooking).2.status = 201 ∧
    (createSchedule adminEnv [] [sampleLecture] longBooking).1.map
        (fun x => (x.teacher, x.venue, x.startTime, x.endTime))
      = [(some 5, "Lab 1", "10:00", "11:00"), (some 5, "Lab 1", "09:00", "12:00")] ∧
    (createSchedule adminEnv [] [sampleLecture] lateBooking).2.status = 400 ∧
    (createSchedule adminEnv [] [sampleLecture] lateBooking).1 = [sampleLecture] := by
  decide

end SchoolManagement
